import Mathlib

/-!
# terraform-provider-hidora: the environment resource

A shallow embedding of `hidora/resource_create_env.go`, of the node flatten of
`hidora/data_source_create_env.go` and of `providerConfigure` of `hidora/provider.go`.

* A Go `interface{}` holding a decoded JSON document or a Terraform value is a `Dyn`.
  A JSON number is the `float64` that `json.Unmarshal` produced, taken to hold an
  integer: the code only compares it with `0` and `2314`, or converts it with
  `int(...)`. The decoder has already rounded a JSON integer that no `float64` holds
  (such integers lie above `2^53` in absolute value).
* A Go `map[string]interface{}` is an association list read with `List.lookup`.
* A failed unchecked type assertion, a missing index and an out-of-range write abort
  the call: the outcome `Outcome.panic`.
* The HTTP transport is a function from the call made to `none` (transport error) or
  the decoded body; every call issued is appended to a log.
* Go `int` is 64 bits wide; values are integers and the narrowing conversions
  `uint8`, `uint16`, `uint32` are written as explicit remainders.
-/

namespace Hidora

/-! ## Dynamic values -/

/-- Dynamic value: a Go `interface{}` holding JSON or Terraform data. -/
inductive Dyn where
  | null
  | bool (b : Bool)
  | num (n : Int)
  | str (s : String)
  | arr (xs : List Dyn)
  | obj (kvs : List (String × Dyn))

/-- Go `v.(string)` on the result of a map index. -/
def asString : Option Dyn → Option String
  | some (.str s) => some s
  | _ => none

/-- Go `v.(bool)`. -/
def asBool : Option Dyn → Option Bool
  | some (.bool b) => some b
  | _ => none

/-- Go `v.(float64)`. -/
def asFloat : Option Dyn → Option Int
  | some (.num n) => some n
  | _ => none

/-- Go `v.(map[string]interface{})`. -/
def asMap : Option Dyn → Option (List (String × Dyn))
  | some (.obj kvs) => some kvs
  | _ => none

/-- Go `v.([]interface{})`. -/
def asSlice : Option Dyn → Option (List Dyn)
  | some (.arr xs) => some xs
  | _ => none

/-- Go `v == true` for an interface value `v`. -/
def isTrue : Option Dyn → Bool
  | some (.bool true) => true
  | _ => false

/-- Index of the top-level map that `json.Unmarshal` fills: a body that is not a JSON
object leaves the map nil, and every index of a nil map is nil. -/
def field (body : Dyn) (k : String) : Option Dyn :=
  match body with
  | .obj kvs => kvs.lookup k
  | _ => none

/-- Go `v, _ := x.(string)`: the zero value when `x` is not a string. -/
def strOrEmpty : Dyn → String
  | .str s => s
  | _ => ""

/-- Go `fmt.Sprint(v)`: a string is printed verbatim; the rendering of any other
value (nil included) is left to `other`. -/
def fmtSprint (other : Option Dyn → String) : Option Dyn → String
  | some (.str s) => s
  | v => other v

/-! ## Regular expressions `^[...]*$` -/

/-- Character class given as inclusive ranges. -/
def inRanges (rs : List (Char × Char)) (c : Char) : Bool :=
  rs.any fun r => decide (r.1 ≤ c) && decide (c ≤ r.2)

/-- Go `regexp.MustCompile("^[rs]*$").MatchString`. -/
def matchClassStar (rs : List (Char × Char)) (s : String) : Bool :=
  s.data.all (inRanges rs)

/-- Class `[a-z0-9]`. -/
def lowerAlnum : List (Char × Char) := [('a', 'z'), ('0', '9')]

/-- Class `[a-zA-Z0-9-]`. -/
def alnumHyphen : List (Char × Char) := [('a', 'z'), ('A', 'Z'), ('0', '9'), ('-', '-')]

/-! ## Data model -/

structure VolumeMounts where
  Protocol : String
  ReadOnly : Bool
  Sourceaddresstype : String
  Sourcenodeid : Int
  Sourcenodegroup : String
  Sourcepath : String
deriving DecidableEq, Repr

structure Envsettings where
  Displayname : String := ""
  Engine : String := ""
  Ishaenabled : Bool := false
  Region : String := ""
  Shortdomain : String := ""
  Sslstate : Bool := false
deriving DecidableEq, Repr

/-- Go struct `Nodes`; `Count`, `Disklimit`, `Fixedcloudlets`, `Flexiblecloudlets` are
`uint8` and `Restartdelay` is `uint16`. -/
structure Nodes where
  Cmd : String := ""
  Count : Nat := 0
  Disklimit : Nat := 0
  Env : List (String × String) := []
  Extip : Bool := false
  Extipv6 : Bool := false
  Fixedcloudlets : Nat := 0
  Flexiblecloudlets : Nat := 0
  Image : String := ""
  Mission : String := ""
  Nodegroup : String := ""
  Nodetype : String := ""
  Restartdelay : Nat := 0
  Scalingmode : String := ""
  Tag : String := ""
  Volumemounts : List (String × VolumeMounts) := []
  Volumes : List String := []
  Volumesfrom : List String := []
deriving DecidableEq, Repr

/-- Go struct `Createenvironment`; `Owneruid` is `uint32`. -/
structure Createenvironment where
  Actionkey : String := ""
  Appid : String := ""
  Envgroups : String := ""
  Environment : Envsettings := {}
  Nodes : List Nodes := []
  Owneruid : Nat := 0
  Session : String := ""
deriving DecidableEq, Repr

structure Client where
  BaseUrl : String
  Token : String
deriving DecidableEq, Repr

def API_ENV_CONTROL_GETREGIONS_ENDPOINT : String := "environment/control/rest/getregions"
def API_ENV_CONTROL_CREATEENV_ENDPOINT : String := "environment/control/rest/createenvironment"
def API_ENV_CONTROL_GETENVINFO_ENDPOINT : String := "environment/control/rest/getenvinfo"
def API_ENV_CONTROL_DELETEENV_ENDPOINT : String := "environment/control/rest/deleteenv"
def API_ENV_CONTROL_SETENVGROUP_ENDPOINT : String := "environment/control/rest/setenvgroup"
def API_ENV_CONTROL_MIGRATE_ENDPOINT : String := "environment/control/rest/migrate"
def APPID_LENGTH : Nat := 32
def SHORTDOMAIN_MIN_LENGTH : Nat := 5
def SHORTDOMAIN_MAX_LENGTH : Nat := 41
def PLATFORM_APPID : String := "1dd8d191d38fff45e62564fcf67fdcd6"

/-! ## Terraform side -/

inductive Severity where
  | Error
  | Warning
deriving DecidableEq, Repr

structure Diagnostic where
  Severity : Severity
  Summary : String
  Detail : String
deriving DecidableEq, Repr

/-- What a provider function hands back: its diagnostics (empty on success), or a
Go panic. -/
inductive Outcome where
  | ret (diags : List Diagnostic)
  | panic
deriving DecidableEq, Repr

/-- One element of the `nodes` list of the configuration, as `d.Get("nodes")` returns
it. The schema fixes the type of each attribute, so the unchecked assertions of the
node loop on scalar attributes cannot fail; map and list elements stay dynamic, as
the loop reads them with the two-valued assertion. -/
structure TfNode where
  cmd : String := ""
  count : Int := 1
  disklimit : Int := 0
  env : List (String × Dyn) := []
  extip : Bool := false
  extipv6 : Bool := false
  fixedcloudlets : Int := 1
  flexiblecloudlets : Int := 4
  image : String := ""
  mission : String := ""
  nodegroup : String := ""
  nodetype : String := ""
  restartdelay : Int := 30
  scalingmode : String := "STATEFUL"
  tag : String := ""
  volumes : List Dyn := []
  volumesfrom : List Dyn := []

/-- Configuration read through `d.Get`: the top-level attributes have their schema
type; `environment` is the list of blocks, each a dynamic map. -/
structure Config where
  appid : String := PLATFORM_APPID
  actionkey : String := ""
  owneruid : Int := 0
  envgroups : String := ""
  environment : List Dyn := []
  nodes : List TfNode := []

/-- The part of `schema.ResourceData` the resource functions write: the identity and
the attributes stored with `d.Set`. -/
structure ResourceData where
  id : String := ""
  attrs : List (String × Dyn) := []

/-- Go `d.SetId`. -/
def ResourceData.SetId (d : ResourceData) (v : String) : ResourceData :=
  { d with id := v }

/-- Go `d.Set(key, value)`, recorded as the latest value of the key. -/
def ResourceData.Set (d : ResourceData) (k : String) (v : Dyn) : ResourceData :=
  { d with attrs := (k, v) :: d.attrs.filter fun p => p.1 != k }

/-! ## Remote calls -/

/-- Value of a form parameter: a text, or the `json.Marshal` text of the environment
settings or of the node list (kept structured). -/
inductive ParamVal where
  | text (s : String)
  | envJson (e : Envsettings)
  | nodesJson (ns : List Nodes)
deriving DecidableEq, Repr

/-- Go `url.Values`. -/
abbrev Query := List (String × List ParamVal)

/-- Go `url.Values.Del`. -/
def Query.Del (q : Query) (k : String) : Query :=
  q.filter fun p => p.1 != k

/-- One POST issued through the client: endpoint below the base URL, and the form. -/
structure Call where
  endpoint : String
  query : Query
deriving DecidableEq, Repr

/-- Transport: `none` is an error of `client.Do`, `some body` the decoded body. -/
abbrev Remote := Call → Option Dyn

/-- State and outcome of a resource function when it stops. -/
structure Run where
  outcome : Outcome
  d : ResourceData
  calls : List Call

/-- Run of create, with the local request structure as filled when it stops. -/
structure CreateRun extends Run where
  createenv : Createenvironment

/-! ## Diagnostics of create and read -/

def appidDiag : Diagnostic :=
  { Severity := .Error
    Summary := "Incorrect appid format"
    Detail := "appid doesn't correspond to format policy ! Must have only alphanumeric with "
      ++ toString APPID_LENGTH ++ " characters" }

def wrongTypeDiag : Diagnostic :=
  { Severity := .Error
    Summary := "Wrong value type"
    Detail := "Value type has to be a boolean type." }

def getRegionsDiag : Diagnostic :=
  { Severity := .Error
    Summary := "Unable to get regions"
    Detail := "Wrong appid or session token" }

def wrongRegionDiag (detail_region_message : String) : Diagnostic :=
  { Severity := .Error
    Summary := "Wrong region selected"
    Detail := "Selected region unknown, please use one of these regions instead : "
      ++ detail_region_message }

def shortdomainDiag : Diagnostic :=
  { Severity := .Error
    Summary := "shortdomain value is not alphanumerical."
    Detail := "shortdomain can contain special characters but they are prohibited" }

def shortdomainTypeDiag : Diagnostic :=
  { Severity := .Error
    Summary := "Wrong type for shortdomain"
    Detail := "shortdomain is not a string." }

def replicaDiag : Diagnostic :=
  { Severity := .Error
    Summary := "Not enough computed nodes for replication"
    Detail := "You activated the haenabled and count have to be greater than 1" }

def unableCreateDiag : Diagnostic :=
  { Severity := .Error
    Summary := "Unable to create environment"
    Detail := "Can't create environment because of timeout or bad values in paramaters" }

def apiFailedDiag (detail : String) : Diagnostic :=
  { Severity := .Error
    Summary := "API request failed"
    Detail := detail }

def envInfoDiag : Diagnostic :=
  { Severity := .Error
    Summary := "Unable to get environment informations"
    Detail := "Can't get informations about environment because of bad envName" }

def envInfoFailedDiag (id : String) : Diagnostic :=
  { Severity := .Error
    Summary := "API request to getenvinfo failed"
    Detail := "Cannot get environment informations from " ++ id }

/-! ## Environment flatten and read -/

/-- Go `flattenCreateEnvironmentEnvironmentData`. The argument is `none` for a nil
map. The result is `none` when a type assertion fails (a panic), else the returned
interface value: nil for a nil map, otherwise a one-element list of maps. -/
def flattenCreateEnvironmentEnvironmentData (env : Option (List (String × Dyn))) : Option Dyn :=
  match env with
  | none => some .null
  | some env =>
    match asMap (env.lookup "hostGroup") with
    | none => none
    | some result_response_hostgroup =>
      match asString (env.lookup "appid") with
      | none => none
      | some appid =>
      match asString (env.lookup "createdOn") with
      | none => none
      | some createdon =>
      match asString (env.lookup "domain") with
      | none => none
      | some domain =>
      match asString (env.lookup "hardwareNodeGroup") with
      | none => none
      | some hardwarenodegroup =>
      match asBool (env.lookup "ishaenabled") with
      | none => none
      | some ishaenabled =>
      match asString (result_response_hostgroup.lookup "uniqueName") with
      | none => none
      | some region =>
      match asString (env.lookup "shortdomain") with
      | none => none
      | some shortdomain =>
      match asBool (env.lookup "sslstate") with
      | none => none
      | some sslstate =>
        some (.arr [.obj
          [ ("appid", .str appid),
            ("createdon", .str createdon),
            ("domain", .str domain),
            ("hardwarenodegroup", .str hardwarenodegroup),
            ("ishaenabled", .bool ishaenabled),
            ("region", .str region),
            ("shortdomain", .str shortdomain),
            ("sslstate", .bool sslstate) ]])

/-- The getenvinfo call of read. -/
def getenvinfoCall (m : Client) (id : String) : Call :=
  { endpoint := API_ENV_CONTROL_GETENVINFO_ENDPOINT
    query := [("envName", [.text id]), ("session", [.text m.Token]), ("lazy", [.text "true"])] }

/-- Go `resourceJelasticCreateEnvironmentRead`, started with the calls logged so
far. -/
def resourceJelasticCreateEnvironmentRead (m : Client) (remote : Remote)
    (d : ResourceData) (calls : List Call) : Run :=
  let req := getenvinfoCall m d.id
  let calls := calls ++ [req]
  match remote req with
  | none => { outcome := .ret [envInfoDiag], d := d, calls := calls }
  | some result =>
    match asFloat (field result "result") with
    | none => { outcome := .panic, d := d, calls := calls }
    | some code =>
      if code ≠ 0 then
        { outcome := .ret [envInfoFailedDiag d.id], d := d, calls := calls }
      else
        match asMap (field result "env") with
        | none => { outcome := .panic, d := d, calls := calls }
        | some result_response =>
          match flattenCreateEnvironmentEnvironmentData (some result_response) with
          | none => { outcome := .panic, d := d, calls := calls }
          | some flat =>
            let d1 := d.Set "environment" flat
            match asFloat (result_response.lookup "uid") with
            | none => { outcome := .panic, d := d1, calls := calls }
            | some uid =>
              { outcome := .ret [], d := d1.Set "owneruid" (.num uid), calls := calls }

/-! ## Create -/

/-- Go `initObjRefsWithPreallocation`: `n` zero-valued nodes. -/
def initObjRefsWithPreallocation (n : Nat) : List Nodes :=
  List.replicate n {}

/-- Loop `for j, v := range src { s, _ := v.(string); dst[j] = s }` from index `j`;
`none` when a write is out of range. -/
def fillStrings : List String → Nat → List Dyn → Option (List String)
  | dst, _, [] => some dst
  | dst, j, v :: vs =>
    if j < dst.length then fillStrings (dst.set j (strOrEmpty v)) (j + 1) vs else none

/-- Body of the node loop of create (lines 496-539) on one declared node: the node as
written when the body ends or stops, and how it stopped if it did. -/
def buildNode (ishaenabled : Bool) (tf_node : TfNode) (node : Nodes) : Nodes × Option Outcome :=
  let node := { node with Cmd := tf_node.cmd }
  if ishaenabled && tf_node.count == 1 then
    (node, some (.ret [replicaDiag]))
  else
    let node := { node with
      Count := (tf_node.count % 256).toNat
      Disklimit := (tf_node.disklimit % 256).toNat
      Env := tf_node.env.map fun kv => (kv.1, strOrEmpty kv.2)
      Extip := tf_node.extip
      Extipv6 := tf_node.extipv6
      Fixedcloudlets := (tf_node.fixedcloudlets % 256).toNat
      Flexiblecloudlets := (tf_node.flexiblecloudlets % 256).toNat
      Image := tf_node.image
      Mission := tf_node.mission
      Nodegroup := tf_node.nodegroup
      Nodetype := tf_node.nodetype
      Restartdelay := (tf_node.restartdelay % 65536).toNat
      Scalingmode := tf_node.scalingmode
      Tag := tf_node.tag }
    match fillStrings (List.replicate tf_node.volumes.length "") 0 tf_node.volumes with
    | none => (node, some .panic)
    | some node_volumes =>
      let node := { node with Volumes := node_volumes }
      match fillStrings (List.replicate tf_node.volumesfrom.length "") 0 tf_node.volumes with
      | none => (node, some .panic)
      | some node_volumesfrom => ({ node with Volumesfrom := node_volumesfrom }, none)

/-- Node loop of create: `for i, node := range *nodes` with `tf_nodes[i]`. -/
def fillNodes (ishaenabled : Bool) : List TfNode → List Nodes → List Nodes × Option Outcome
  | tf_node :: tf_rest, node :: rest =>
    match buildNode ishaenabled tf_node node with
    | (node1, some stop) => (node1 :: rest, some stop)
    | (node1, none) =>
      let r := fillNodes ishaenabled tf_rest rest
      (node1 :: r.1, r.2)
  | _, nodes => (nodes, none)

/-- Inner loop of region resolution (lines 422-435) over the hardware node groups of
one region: `none` on a failed assertion, else whether the requested region was met
and the message built so far. -/
def scanHardNodes (tf_region : Option Dyn) : List Dyn → String → Option (Bool × String)
  | [], msg => some (false, msg)
  | hardnode :: rest, msg =>
    match hardnode with
    | .obj hardnodes_array_id =>
      if isTrue (hardnodes_array_id.lookup "isEnabled") then
        match asString (hardnodes_array_id.lookup "uniqueName") with
        | none => none
        | some uniquename =>
          match asString (hardnodes_array_id.lookup "displayName") with
          | none => none
          | some displayname =>
            let msg1 := msg ++ ("Region: " ++ displayname ++ ", value: " ++ uniquename ++ " ")
            match asString tf_region with
            | none => none
            | some region =>
              if region = uniquename then some (true, msg1)
              else scanHardNodes tf_region rest msg1
      else scanHardNodes tf_region rest msg
    | _ => none

/-- Outer loop of region resolution (lines 418-439) over the regions. -/
def scanRegions (tf_region : Option Dyn) : List Dyn → String → Option (Bool × String)
  | [], msg => some (false, msg)
  | result_array_id :: rest, msg =>
    match asSlice (field result_array_id "hardNodeGroups") with
    | none => none
    | some hardnodes_array =>
      match scanHardNodes tf_region hardnodes_array msg with
      | none => none
      | some (true, msg1) => some (true, msg1)
      | some (false, msg1) => scanRegions tf_region rest msg1

/-- The getregions call of create. -/
def getregionsCall (m : Client) : Call :=
  { endpoint := API_ENV_CONTROL_GETREGIONS_ENDPOINT
    query := [("appid", [.text PLATFORM_APPID]), ("session", [.text m.Token])] }

/-- The createenvironment call of create (lines 556-573). -/
def createenvironmentCall (m : Client) (createenv : Createenvironment) : Call :=
  let q : Query :=
    [ ("appid", [.text PLATFORM_APPID]),
      ("session", [.text m.Token]),
      ("env", [.envJson createenv.Environment]),
      ("nodes", [.nodesJson createenv.Nodes]),
      ("actionkey", [.text createenv.Actionkey]),
      ("owneruid", [.text (toString createenv.Owneruid)]),
      ("envgroups", [.text createenv.Envgroups]) ]
  let q := if createenv.Actionkey = "" then q.Del "actionkey" else q
  let q := if createenv.Owneruid = 0 then q.Del "owneruid" else q
  let q := if createenv.Envgroups = "" then q.Del "envgroups" else q
  { endpoint := API_ENV_CONTROL_CREATEENV_ENDPOINT, query := q }

/-- Lines 453-540 of `resourceJelasticCreateEnvironmentCreate`: shortdomain and
sslstate checks and node loop, entered once the region is accepted. `Except.error` is
a run that stopped there; `Except.ok` is the request structure built and the calls
logged, with which create goes on to the submission. -/
def createBuildNodes (d : ResourceData) (tf_env_data : List (String × Dyn))
    (ishaenabled : Bool) (tf_nodes : List TfNode) (createenv : Createenvironment)
    (calls : List Call) : Except CreateRun (Createenvironment × List Call) :=
  let stop (o : Outcome) (ce : Createenvironment) :
      Except CreateRun (Createenvironment × List Call) :=
    .error { outcome := o, d := d, calls := calls, createenv := ce }
  match asString (tf_env_data.lookup "shortdomain") with
  | none => stop (.ret [shortdomainTypeDiag]) createenv
  | some shortdomain =>
    if matchClassStar alnumHyphen shortdomain
        && decide (shortdomain.utf8ByteSize ≥ SHORTDOMAIN_MIN_LENGTH)
        && decide (shortdomain.utf8ByteSize ≤ SHORTDOMAIN_MAX_LENGTH) then
      let createenv := { createenv with
        Environment := { createenv.Environment with Shortdomain := shortdomain } }
      match asBool (tf_env_data.lookup "sslstate") with
      | none => stop (.ret [wrongTypeDiag]) createenv
      | some sslstate =>
        let createenv := { createenv with
          Environment := { createenv.Environment with Sslstate := sslstate } }
        match fillNodes ishaenabled tf_nodes createenv.Nodes with
        | (nodes, some o) => stop o { createenv with Nodes := nodes }
        | (nodes, none) => .ok ({ createenv with Nodes := nodes }, calls)
    else stop (.ret [shortdomainDiag]) createenv

/-- Lines 296-540 of `resourceJelasticCreateEnvironmentCreate`: appid and ishaenabled
checks, getregions call and region resolution, then `createBuildNodes`. -/
def createBuild (m : Client) (remote : Remote) (cfg : Config) (d : ResourceData) :
    Except CreateRun (Createenvironment × List Call) :=
  let stop (o : Outcome) (ce : Createenvironment) (calls : List Call) :
      Except CreateRun (Createenvironment × List Call) :=
    .error { outcome := o, d := d, calls := calls, createenv := ce }
  let createenv : Createenvironment :=
    { Nodes := initObjRefsWithPreallocation cfg.nodes.length }
  if matchClassStar lowerAlnum cfg.appid && cfg.appid.length == APPID_LENGTH then
    let createenv := { createenv with
      Appid := cfg.appid
      Session := m.Token
      Actionkey := cfg.actionkey
      Owneruid := (cfg.owneruid % 4294967296).toNat
      Envgroups := cfg.envgroups }
    match asMap cfg.environment.head? with
    | none => stop .panic createenv []
    | some tf_env_data =>
    match asBool (tf_env_data.lookup "ishaenabled") with
    | none => stop (.ret [wrongTypeDiag]) createenv []
    | some ishaenabled =>
    let createenv := { createenv with
      Environment := { createenv.Environment with Ishaenabled := ishaenabled } }
    let calls := [getregionsCall m]
    match remote (getregionsCall m) with
    | none => stop (.ret [getRegionsDiag]) createenv calls
    | some result_getregions =>
    match asFloat (field result_getregions "result") with
    | none => stop .panic createenv calls
    | some code =>
    if code ≠ 0 then stop (.ret [getRegionsDiag]) createenv calls else
    match asSlice (field result_getregions "array") with
    | none => stop .panic createenv calls
    | some result_array =>
    match scanRegions (tf_env_data.lookup "region") result_array "" with
    | none => stop .panic createenv calls
    | some (is_region_accepted, detail_region_message) =>
    match asString (tf_env_data.lookup "region"), is_region_accepted with
    | some region, true =>
      createBuildNodes d tf_env_data ishaenabled cfg.nodes
        { createenv with Environment := { createenv.Environment with Region := region } }
        calls
    | _, _ => stop (.ret [wrongRegionDiag detail_region_message]) createenv calls
  else
    stop (.ret [appidDiag]) createenv []

/-- Lines 542-613 of `resourceJelasticCreateEnvironmentCreate`: submission of the
request, reading of the answer, identity, read-back. -/
def createSubmit (sprintOther : Option Dyn → String) (m : Client) (remote : Remote)
    (d : ResourceData) (createenv : Createenvironment) (calls : List Call) : CreateRun :=
  let req := createenvironmentCall m createenv
  let calls := calls ++ [req]
  let stop (o : Outcome) : CreateRun :=
    { outcome := o, d := d, calls := calls, createenv := createenv }
  match remote req with
  | none => stop (.ret [unableCreateDiag])
  | some result =>
    match asMap (field result "response") with
    | none => stop .panic
    | some result_response =>
      match asFloat (result_response.lookup "result") with
      | none => stop .panic
      | some result_number =>
        if result_number = 2314 then
          stop (.ret [apiFailedDiag (fmtSprint sprintOther (result_response.lookup "error"))])
        else if result_number ≠ 0 then
          stop (.ret [apiFailedDiag "Incorrect value in fields"])
        else
          match asString (result_response.lookup "name") with
          | none => stop .panic
          | some name =>
            { toRun := resourceJelasticCreateEnvironmentRead m remote (d.SetId name) calls
              createenv := createenv }

/-- Go `resourceJelasticCreateEnvironmentCreate`. -/
def resourceJelasticCreateEnvironmentCreate (sprintOther : Option Dyn → String) (m : Client)
    (remote : Remote) (cfg : Config) (d : ResourceData) : CreateRun :=
  match createBuild m remote cfg d with
  | .error run => run
  | .ok (createenv, calls) => createSubmit sprintOther m remote d createenv calls

/-! ## Shape of a getregions answer -/

/-- One hardware node group of a getregions answer, `{uniqueName, displayName,
isEnabled}`; `isEnabled` may hold any JSON value. -/
structure HardNodeGroup where
  uniqueName : String
  displayName : String
  isEnabled : Dyn

/-- The group counts as enabled when `isEnabled` is the boolean `true`. -/
def HardNodeGroup.enabled (g : HardNodeGroup) : Bool :=
  isTrue (some g.isEnabled)

/-- Decoded JSON of a hardware node group. -/
def HardNodeGroup.toDyn (g : HardNodeGroup) : Dyn :=
  .obj [("uniqueName", .str g.uniqueName), ("displayName", .str g.displayName),
    ("isEnabled", g.isEnabled)]

/-- One region of a getregions answer, `{hardNodeGroups: [...]}`. -/
structure RegionEntry where
  hardNodeGroups : List HardNodeGroup

/-- Decoded JSON of a region. -/
def RegionEntry.toDyn (r : RegionEntry) : Dyn :=
  .obj [("hardNodeGroups", .arr (r.hardNodeGroups.map HardNodeGroup.toDyn))]

/-- Hardware node groups of a region list in remote iteration order: regions, then
the groups within a region. -/
def allGroups : List RegionEntry → List HardNodeGroup
  | [] => []
  | r :: rs => r.hardNodeGroups ++ allGroups rs

/-- Text that names one candidate: display name and unique name. -/
def candidateLine (g : HardNodeGroup) : String :=
  "Region: " ++ g.displayName ++ ", value: " ++ g.uniqueName ++ " "

/-- Concatenation of the candidate texts of the groups, in order. -/
def enumerateCandidates : List HardNodeGroup → String
  | [] => ""
  | g :: gs => candidateLine g ++ enumerateCandidates gs

/-- The request structure of create when the region loop starts: the top-level fields
and `Ishaenabled` are written, the nodes are pre-allocated. -/
def requestAtRegions (m : Client) (cfg : Config) (ishaenabled : Bool) : Createenvironment :=
  { Actionkey := cfg.actionkey
    Appid := cfg.appid
    Envgroups := cfg.envgroups
    Environment := { Ishaenabled := ishaenabled }
    Nodes := initObjRefsWithPreallocation cfg.nodes.length
    Owneruid := (cfg.owneruid % 4294967296).toNat
    Session := m.Token }

/-! ## Node flatten (`hidora/data_source_create_env.go`) -/

/-- Go `map[string]string`, read with `List.lookup`. -/
abbrev StrMap := List (String × String)

/-- Go `m[k] = v` on a `map[string]string`. -/
def mapAssign (m : StrMap) (k v : String) : StrMap :=
  (k, v) :: m.filter fun p => p.1 != k

/-- Cut of a text at its first `=`: the text before and the text after, `none` when
there is no `=`. -/
def cutAtEq : List Char → Option (List Char × List Char)
  | [] => none
  | c :: cs =>
    if c = '=' then some ([], cs)
    else match cutAtEq cs with
      | none => none
      | some (a, b) => some (c :: a, b)

/-- Go `strings.SplitN(s, "=", 2)`. -/
def splitN2 (s : String) : List String :=
  match cutAtEq s.data with
  | none => [s]
  | some (a, b) => [String.mk a, String.mk b]

/-- Loop `for _, env := range node_envs` (lines 286-289): `none` when `envcut[1]` is
out of range. -/
def decodeEnvs : List String → StrMap → Option StrMap
  | [], envsmap => some envsmap
  | env :: rest, envsmap =>
    let envcut := splitN2 env
    match envcut[0]?, envcut[1]? with
    | some k, some v => decodeEnvs rest (mapAssign envsmap k v)
    | _, _ => none

/-- What the embedding takes from the Go library and runtime: the two tests made on
a text with `net.ParseIP` (`to4 s` is `net.ParseIP(s).To4() != nil` and `to16 s` is
`net.ParseIP(s).To16() != nil`), and the implementation-dependent value of `int(x)` for
a `float64` `x` outside the range of `int`. -/
structure Runtime where
  to4 : String → Bool
  to16 : String → Bool
  intOutOfRange : Int → Int

/-- Go `int(x)` for a `float64` `x` that holds the integer `n`: `n` itself when it lies
in the range of the 64-bit `int`; otherwise the 64-bit integer that the runtime
gives. -/
def intOfFloat (rt : Runtime) (n : Int) : Int :=
  if -9223372036854775808 ≤ n ∧ n < 9223372036854775808 then n
  else (rt.intOutOfRange n + 9223372036854775808) % 18446744073709551616
    - 9223372036854775808

/-- Loop `for _, extip := range extiplist` (lines 296-303) on the keys `extip` and
`extipv6` of the flattened node, each absent (`none`) or set; `none` when an element is
not a string. -/
def scanExtIPs (rt : Runtime) :
    List Dyn → Option Bool × Option Bool → Option (Option Bool × Option Bool)
  | [], flags => some flags
  | extip :: rest, (extip4, extip6) =>
    match extip with
    | .str s =>
      if rt.to4 s then scanExtIPs rt rest (some true, extip6)
      else if rt.to16 s then scanExtIPs rt rest (extip4, some true)
      else scanExtIPs rt rest (extip4, extip6)
    | _ => none

/-- Lines 291-304: the keys `extip` and `extipv6` from `node_map["extIPs"]`. -/
def extFlags (rt : Runtime) (extIPs : Option Dyn) : Option (Option Bool × Option Bool) :=
  match asSlice extIPs with
  | none => some (some false, some false)
  | some extiplist => scanExtIPs rt extiplist (none, none)

/-- Go `v == s` for an interface value `v` and a string `s`. -/
def isString (v : Option Dyn) (s : String) : Bool :=
  match v with
  | some (.str t) => t == s
  | _ => false

/-- Loop `for _, nodegroup_infos := range *nodegroups` (lines 312-318) on the keys
`restartdelay` and `scalingmode` of the flattened node; `none` on a failed
assertion. -/
def joinNodeGroup (rt : Runtime) (nodegroup : String) :
    List Dyn → Option Int × Option String → Option (Option Int × Option String)
  | [], keys => some keys
  | nodegroup_infos :: rest, keys =>
    match nodegroup_infos with
    | .obj nodegroup_infos_map =>
      if isString (nodegroup_infos_map.lookup "name") nodegroup then
        match asFloat (nodegroup_infos_map.lookup "restartNodeDelay") with
        | none => none
        | some restartdelay =>
          match asString (nodegroup_infos_map.lookup "scalingMode") with
          | none => none
          | some scalingmode =>
            joinNodeGroup rt nodegroup rest (some (intOfFloat rt restartdelay), some scalingmode)
      else joinNodeGroup rt nodegroup rest keys
    | _ => none

/-- The map `flatten_node`: a key that every completed pass assigns is a plain field,
a key assigned only on some paths (`extip`, `extipv6`, `restartdelay`, `scalingmode`) is
`none` when absent. -/
structure FlatNode where
  cmd : String
  disklimit : Int
  env : StrMap
  extip : Option Bool
  extipv6 : Option Bool
  fixedcloudlets : Int
  flexiblecloudlets : Int
  image : String
  mission : String
  nodegroup : String
  nodetype : String
  restartdelay : Option Int
  scalingmode : Option String
  tag : String
  volumes : List String
  volumesfrom : List String
deriving DecidableEq, Repr

/-- Body of the loop of `flattenCreateEnvironmentNodesData` on one node record: the
flattened node, or `none` when an assertion or an index fails. -/
def flattenNode (rt : Runtime) (nodegroups : List Dyn) (node : Dyn) : Option FlatNode :=
  match asMap (some node) with
  | none => none
  | some node_map =>
  match asMap (node_map.lookup "customitem") with
  | none => none
  | some customitem =>
  match asMap (customitem.lookup "dockerManifest") with
  | none => none
  | some dockermanifest =>
  match asSlice (dockermanifest.lookup "cmd") with
  | none => none
  | some cmds =>
  match asString cmds[0]? with
  | none => none
  | some cmd =>
  match asFloat (node_map.lookup "diskLimit") with
  | none => none
  | some disklimit =>
  match asSlice (dockermanifest.lookup "env") with
  | none => none
  | some envs =>
  match decodeEnvs (envs.map strOrEmpty) [] with
  | none => none
  | some envsmap =>
  match extFlags rt (node_map.lookup "extIPs") with
  | none => none
  | some (extip, extipv6) =>
  match asFloat (node_map.lookup "fixedCloudlets") with
  | none => none
  | some fixedcloudlets =>
  match asFloat (node_map.lookup "flexibleCloudlets") with
  | none => none
  | some flexiblecloudlets =>
  match asString (customitem.lookup "dockerName") with
  | none => none
  | some image =>
  match asString (node_map.lookup "nodemission") with
  | none => none
  | some mission =>
  match asString (node_map.lookup "nodeGroup") with
  | none => none
  | some nodegroup =>
  match asString (node_map.lookup "nodeType") with
  | none => none
  | some nodetype =>
  match joinNodeGroup rt nodegroup nodegroups (none, none) with
  | none => none
  | some (restartdelay, scalingmode) =>
  match asString (customitem.lookup "dockerTag") with
  | none => none
  | some tag =>
  match asSlice (customitem.lookup "dockerVolumes") with
  | none => none
  | some volumes =>
  match asSlice (customitem.lookup "dockerVolumesFrom") with
  | none => none
  | some volumesfrom =>
    some
      { cmd := cmd
        disklimit := Int.tdiv (intOfFloat rt disklimit) 1000
        env := envsmap
        extip := extip
        extipv6 := extipv6
        fixedcloudlets := intOfFloat rt fixedcloudlets
        flexiblecloudlets := intOfFloat rt flexiblecloudlets
        image := image
        mission := mission
        nodegroup := nodegroup
        nodetype := nodetype
        restartdelay := restartdelay
        scalingmode := scalingmode
        tag := tag
        volumes := volumes.map strOrEmpty
        volumesfrom := volumesfrom.map strOrEmpty }

/-- Loop of `flattenCreateEnvironmentNodesData` over the node records. -/
def flattenNodeList (rt : Runtime) (nodegroups : List Dyn) : List Dyn → Option (List FlatNode)
  | [] => some []
  | node :: rest =>
    match flattenNode rt nodegroups node with
    | none => none
    | some flatten_node =>
      match flattenNodeList rt nodegroups rest with
      | none => none
      | some flatten_nodes => some (flatten_node :: flatten_nodes)

/-- What `flattenCreateEnvironmentNodesData` returns: nil, or the list of maps. -/
inductive Flattened where
  | null
  | nodes (flatten_nodes : List FlatNode)
deriving DecidableEq, Repr

/-- Go `flattenCreateEnvironmentNodesData`; `nodes` is `none` for a nil pointer, the
result is `none` on a panic. -/
def flattenCreateEnvironmentNodesData (rt : Runtime) (nodes : Option (List Dyn))
    (nodegroups : List Dyn) : Option Flattened :=
  match nodes with
  | none => some .null
  | some nodes =>
    match flattenNodeList rt nodegroups nodes with
    | none => none
    | some flatten_nodes => some (.nodes flatten_nodes)

/-! ## Shape of the node and node-group records of getenvinfo -/

/-- Node record of getenvinfo with every key that the flatten asserts present and of
the asserted type; the entries of the manifest's `env`, of the volume lists, and the
value at `extIPs` (absent when `none`) are any JSON values. -/
structure RemoteNode where
  cmd : String
  cmdRest : List Dyn
  diskLimit : Int
  env : List Dyn
  extIPs : Option Dyn
  fixedCloudlets : Int
  flexibleCloudlets : Int
  dockerName : String
  nodemission : String
  nodeGroup : String
  nodeType : String
  dockerTag : String
  dockerVolumes : List Dyn
  dockerVolumesFrom : List Dyn

/-- Decoded JSON of the `customitem` of a node record. -/
def RemoteNode.customitem (n : RemoteNode) : Dyn :=
  .obj
    [ ("dockerManifest", .obj [("cmd", .arr (.str n.cmd :: n.cmdRest)), ("env", .arr n.env)]),
      ("dockerName", .str n.dockerName),
      ("dockerTag", .str n.dockerTag),
      ("dockerVolumes", .arr n.dockerVolumes),
      ("dockerVolumesFrom", .arr n.dockerVolumesFrom) ]

/-- Decoded JSON of a node record. -/
def RemoteNode.toDyn (n : RemoteNode) : Dyn :=
  match n.extIPs with
  | none =>
    .obj
      [ ("customitem", n.customitem),
        ("diskLimit", .num n.diskLimit),
        ("fixedCloudlets", .num n.fixedCloudlets),
        ("flexibleCloudlets", .num n.flexibleCloudlets),
        ("nodemission", .str n.nodemission),
        ("nodeGroup", .str n.nodeGroup),
        ("nodeType", .str n.nodeType) ]
  | some extIPs =>
    .obj
      [ ("customitem", n.customitem),
        ("diskLimit", .num n.diskLimit),
        ("extIPs", extIPs),
        ("fixedCloudlets", .num n.fixedCloudlets),
        ("flexibleCloudlets", .num n.flexibleCloudlets),
        ("nodemission", .str n.nodemission),
        ("nodeGroup", .str n.nodeGroup),
        ("nodeType", .str n.nodeType) ]

/-- Node-group record of getenvinfo, `{name, restartNodeDelay, scalingMode}`. -/
structure NodeGroupRec where
  name : String
  restartNodeDelay : Int
  scalingMode : String

/-- Decoded JSON of a node-group record. -/
def NodeGroupRec.toDyn (g : NodeGroupRec) : Dyn :=
  .obj [("name", .str g.name), ("restartNodeDelay", .num g.restartNodeDelay),
    ("scalingMode", .str g.scalingMode)]

/-- An entry of the manifest's `env` list is well formed when it is a string that
contains `=`. -/
def envEntryOk : Dyn → Bool
  | .str s => s.data.contains '='
  | _ => false

/-- The value is a string. -/
def isStr : Dyn → Bool
  | .str _ => true
  | _ => false

/-- The external addresses of a node record are well formed when `extIPs` is absent,
is not a list, or is a list of strings. -/
def RemoteNode.extIPsOk (n : RemoteNode) : Bool :=
  match n.extIPs with
  | some (.arr l) => l.all isStr
  | _ => true

/-- Well-formed node record: every `env` entry is a string with `=`, and the external
addresses are well formed. -/
def RemoteNode.wellFormed (n : RemoteNode) : Bool :=
  n.env.all envEntryOk && n.extIPsOk

/-- Text of the environment variable `k` with value `v`. -/
def renderEnv (p : String × String) : String :=
  p.1 ++ "=" ++ p.2

/-! ## Update (`hidora/resource_create_env.go`) -/

/-- What update reads from the resource data: which keys changed (`d.HasChange`), and
the new values of `envgroups` and `environment.0.region` (`d.Get`, strings by the
schema). -/
structure UpdateConfig where
  HasChange : String → Bool
  envgroups : String
  region : String

def setEnvGroupDiag : Diagnostic :=
  { Severity := .Error
    Summary := "Unable to set an environment groups"
    Detail := "" }

def migrateDiag (region : String) : Diagnostic :=
  { Severity := .Error
    Summary := "Unable to migrate environment to " ++ region
    Detail := "Cannot find hardwareNodeGroup" }

/-- The setenvgroup call of update. -/
def setenvgroupCall (m : Client) (id envGroup : String) : Call :=
  { endpoint := API_ENV_CONTROL_SETENVGROUP_ENDPOINT
    query := [("envName", [.text id]), ("session", [.text m.Token]),
      ("envGroup", [.text envGroup])] }

/-- The migrate call of update. -/
def migrateCall (m : Client) (id region : String) : Call :=
  { endpoint := API_ENV_CONTROL_MIGRATE_ENDPOINT
    query := [("envName", [.text id]), ("session", [.text m.Token]),
      ("hardwareNodeGroup", [.text region]), ("isOnline", [.text "true"])] }

/-- Lines 725-763 of `resourceJelasticCreateEnvironmentUpdate`: the region block and
the read-back, started with the calls logged so far. -/
def updateRegion (m : Client) (remote : Remote) (cfg : UpdateConfig) (d : ResourceData)
    (calls : List Call) : Run :=
  if cfg.HasChange "environment.0.region" then
    let req := migrateCall m d.id cfg.region
    match remote req with
    | none => { outcome := .ret [migrateDiag cfg.region], d := d, calls := calls ++ [req] }
    | some _ => resourceJelasticCreateEnvironmentRead m remote d (calls ++ [req])
  else
    resourceJelasticCreateEnvironmentRead m remote d calls

/-- Go `resourceJelasticCreateEnvironmentUpdate`. -/
def resourceJelasticCreateEnvironmentUpdate (m : Client) (remote : Remote)
    (cfg : UpdateConfig) (d : ResourceData) : Run :=
  if cfg.HasChange "envgroups" then
    let req := setenvgroupCall m d.id cfg.envgroups
    match remote req with
    | none => { outcome := .ret [setEnvGroupDiag], d := d, calls := [req] }
    | some _ => updateRegion m remote cfg d [req]
  else
    updateRegion m remote cfg d []

/-! ## Provider configuration (`hidora/provider.go`) -/

def TOKEN_LENGTH : Nat := 40
def API_PROTO : String := "https://"
def API_VERSION : String := "/1.0/"
def API_USERS_AUTH_SIGNIN_ENDPOINT : String := "users/authentication/rest/signin"

/-- What `providerConfigure` reads from the provider block. `host` is the empty
string when unset: `d.GetOk` then reports it as not set. -/
structure ProviderConfig where
  host : String
  username : String
  password : String
  access_token : String

/-- Go `url.URL`, as far as `providerConfigure` touches it: the path, and the text of
the other components. -/
structure Url where
  Origin : String
  Path : String
deriving DecidableEq, Repr

/-- The client that `providerConfigure` fills: `BaseUrl` is the pointer returned by
`url.ParseRequestURI`, nil (`none`) when the text did not parse. -/
structure ConfiguredClient where
  BaseUrl : Option Url
  Token : String
deriving DecidableEq, Repr

/-- Result of `providerConfigure`: the client returned (`none` for nil) with the
diagnostics, or a panic. -/
inductive Configured where
  | ret (client : Option ConfiguredClient) (diags : List Diagnostic)
  | panic
deriving DecidableEq, Repr

def signinDiag : Diagnostic :=
  { Severity := .Error
    Summary := "Unable to create Access token"
    Detail := "Unable to authenticate user for authenticated Hidora client" }

def tokenFormatDiag : Diagnostic :=
  { Severity := .Error
    Summary := "Incorrect token format"
    Detail := "Token doesn't correspond to format policy ! Must have only alphanumeric with "
      ++ toString TOKEN_LENGTH ++ " characters" }

def noCredentialsDiag : Diagnostic :=
  { Severity := .Error
    Summary := "Unable to create or to get Access token"
    Detail := "Field username or password are empty and access_token is empty !" }

/-- The signin call of `providerConfigure`. -/
def signinCall (username password : String) : Call :=
  { endpoint := API_USERS_AUTH_SIGNIN_ENDPOINT
    query := [("appid", [.text PLATFORM_APPID]), ("login", [.text username]),
      ("password", [.text password])] }

/-- Go `providerConfigure`. `parseRequestURI` stands for `url.ParseRequestURI`, `none`
when it returns an error. The client's `BaseUrl` and the local `u` are one pointer, so
the path written before the signin call is the path of the client's URL. -/
def providerConfigure (parseRequestURI : String → Option Url) (remote : Remote)
    (cfg : ProviderConfig) : Configured :=
  if cfg.host = "" then .panic
  else
    let u := parseRequestURI (API_PROTO ++ cfg.host ++ API_VERSION)
    if cfg.username ≠ "" ∧ cfg.password ≠ "" then
      match u with
      | none => .panic
      | some url =>
        match remote (signinCall cfg.username cfg.password) with
        | none => .ret none [signinDiag]
        | some result =>
          match asString (field result "session") with
          | none => .panic
          | some session =>
            .ret (some { BaseUrl := some { url with Path := API_USERS_AUTH_SIGNIN_ENDPOINT }
                         Token := session }) []
    else if cfg.access_token ≠ "" then
      if matchClassStar lowerAlnum cfg.access_token
          && decide (cfg.access_token.length ≤ TOKEN_LENGTH) then
        .ret (some { BaseUrl := u, Token := cfg.access_token }) []
      else .ret none [tokenFormatDiag]
    else .ret none [noCredentialsDiag]

/-! ## Sample inputs -/

/-- Client used in the samples. -/
def sampleClient : Client := { BaseUrl := "https://app.example.test/1.0/", Token := "tok" }

/-- Rendering of non-string values used in the samples. -/
def sampleSprint : Option Dyn → String := fun _ => "<nil>"

/-- Region list with the single enabled group `us-east`. -/
def sampleRegions : List RegionEntry :=
  [{ hardNodeGroups := [{ uniqueName := "us-east", displayName := "us-east", isEnabled := .bool true }] }]

/-- Environment block that asks for region `r` and short domain `s`. -/
def sampleEnvBlock (ha : Bool) (r s : String) : List (String × Dyn) :=
  [("ishaenabled", .bool ha), ("region", .str r), ("shortdomain", .str s), ("sslstate", .bool false)]

/-- Remote side that answers getregions with `sampleRegions`, createenvironment with
the given body, and fails the transport of every other call. -/
def sampleRemote (createAnswer : Option Dyn) : Remote := fun c =>
  if c.endpoint = API_ENV_CONTROL_GETREGIONS_ENDPOINT then
    some (.obj [("result", .num 0), ("array", .arr (sampleRegions.map RegionEntry.toDyn))])
  else if c.endpoint = API_ENV_CONTROL_CREATEENV_ENDPOINT then createAnswer
  else none

/-- Configuration with the default appid, one environment block and the given nodes. -/
def sampleConfig (ha : Bool) (r s : String) (nodes : List TfNode) : Config :=
  { environment := [.obj (sampleEnvBlock ha r s)], nodes := nodes }

/-- Body of the getregions answer of `sampleRemote`. -/
def sampleRegionsBody : Dyn :=
  .obj [("result", .num 0), ("array", .arr (sampleRegions.map RegionEntry.toDyn))]

/-- Answer of createenvironment that reports success and the name given. -/
def sampleCreated (name : String) : Dyn :=
  .obj [("response", .obj [("result", .num 0), ("name", .str name)])]

/-- Answer of createenvironment with result 2314 and the error text given. -/
def sampleRejected (error : String) : Dyn :=
  .obj [("response", .obj [("result", .num 2314), ("error", .str error)])]

/-- Address tests restricted to three sample addresses, two IPv4 and one IPv6; a
`float64` outside the range of `int` converts to the least `int`, as on amd64. -/
def sampleRuntime : Runtime :=
  { to4 := fun s => s == "192.0.2.1" || s == "198.51.100.7"
    to16 := fun s => s == "192.0.2.1" || s == "198.51.100.7" || s == "2001:db8::1"
    intOutOfRange := fun _ => -9223372036854775808 }

/-- Node record of node group `cp` with the given manifest `env`, `extIPs` and
`diskLimit`. -/
def sampleNode (env : List Dyn) (extIPs : Option Dyn) (diskLimit : Int) : RemoteNode :=
  { cmd := "run", cmdRest := [], diskLimit := diskLimit, env := env, extIPs := extIPs,
    fixedCloudlets := 1, flexibleCloudlets := 4, dockerName := "nginx", nodemission := "cp",
    nodeGroup := "cp", nodeType := "docker", dockerTag := "latest", dockerVolumes := [],
    dockerVolumesFrom := [] }

/-- URL parser of the samples: every text parses, with an empty path. -/
def sampleParse : String → Option Url := fun s => some { Origin := s, Path := "" }

/-- Update in which the keys listed changed. -/
def sampleUpdate (changed : List String) (envgroups region : String) : UpdateConfig :=
  { HasChange := fun k => changed.contains k, envgroups := envgroups, region := region }

/-- Remote side that fails the transport of the endpoints listed and answers every
other call with `{"result": 0}`. -/
def sampleRemoteFailing (failing : List String) : Remote := fun c =>
  if failing.contains c.endpoint then none else some (.obj [("result", .num 0)])

/-! ## Helper lemmas -/

theorem matchClassStar_lowerAlnum (s : String) :
    matchClassStar lowerAlnum s = true ↔
      ∀ c ∈ s.data, ('a' ≤ c ∧ c ≤ 'z') ∨ ('0' ≤ c ∧ c ≤ '9') := by
  simp [matchClassStar, lowerAlnum, inRanges, List.all_eq_true]

theorem fillNodes_stop (ha : Bool) (ts : List TfNode) (ns : List Nodes) (o : Outcome)
    (h : (fillNodes ha ts ns).2 = some o) : o = .panic ∨ o = .ret [replicaDiag] := by
  induction ts generalizing ns with
  | nil => simp [fillNodes] at h
  | cons t ts ih =>
    cases ns with
    | nil => simp [fillNodes] at h
    | cons n ns =>
      simp only [fillNodes] at h
      split at h
      · rename_i n1 stop hb
        simp only [Option.some.injEq] at h
        subst h
        unfold buildNode at hb
        simp only [] at hb
        split at hb
        · simp at hb; simp [hb.2]
        · split at hb
          · simp at hb; simp [hb.2]
          · split at hb
            · simp at hb; simp [hb.2]
            · simp at hb
      · exact ih ns h

theorem read_outcome (m : Client) (remote : Remote) (d : ResourceData) (calls : List Call) :
    (resourceJelasticCreateEnvironmentRead m remote d calls).outcome = .panic ∨
    (resourceJelasticCreateEnvironmentRead m remote d calls).outcome = .ret [] ∨
    (resourceJelasticCreateEnvironmentRead m remote d calls).outcome = .ret [envInfoDiag] ∨
    (resourceJelasticCreateEnvironmentRead m remote d calls).outcome = .ret [envInfoFailedDiag d.id] := by
  unfold resourceJelasticCreateEnvironmentRead
  simp only []
  repeat' split
  all_goals simp

theorem createSubmit_summary (sp : Option Dyn → String) (m : Client) (remote : Remote)
    (d : ResourceData) (ce : Createenvironment) (calls : List Call) (dg : Diagnostic)
    (h : (createSubmit sp m remote d ce calls).outcome = .ret [dg]) :
    dg.Summary = "Unable to create environment" ∨ dg.Summary = "API request failed" ∨
    dg.Summary = "Unable to get environment informations" ∨
    dg.Summary = "API request to getenvinfo failed" := by
  unfold createSubmit at h
  simp only [] at h
  split at h
  · simp at h; simp [← h, unableCreateDiag]
  · split at h
    · simp at h
    · split at h
      · simp at h
      · split at h
        · simp at h; simp [← h, apiFailedDiag]
        · split at h
          · simp at h; simp [← h, apiFailedDiag]
          · split at h
            · simp at h
            · rename_i name _
              rcases read_outcome m remote (d.SetId name) (calls ++ [createenvironmentCall m ce]) with h1 | h1 | h1 | h1
              all_goals simp only [h1] at h
              · simp at h
              · simp at h
              · simp at h; simp [← h, envInfoDiag]
              · simp at h; simp [← h, envInfoFailedDiag]

theorem createBuildNodes_outcome (d : ResourceData) (tf_env_data : List (String × Dyn))
    (ha : Bool) (tf_nodes : List TfNode) (ce : Createenvironment) (calls : List Call)
    (run : CreateRun) (hb : createBuildNodes d tf_env_data ha tf_nodes ce calls = .error run) :
    run.outcome = .panic ∨ run.outcome = .ret [shortdomainTypeDiag] ∨
    run.outcome = .ret [shortdomainDiag] ∨ run.outcome = .ret [wrongTypeDiag] ∨
    run.outcome = .ret [replicaDiag] := by
  unfold createBuildNodes at hb
  simp only [] at hb
  split at hb
  · simp at hb; subst hb; simp
  · split at hb
    · split at hb
      · simp at hb; subst hb; simp
      · split at hb
        · rename_i hfn
          simp at hb; subst hb
          rcases fillNodes_stop _ _ _ _ (congrArg Prod.snd hfn) with h1 | h1
          · simp [h1]
          · simp [h1]
        · simp at hb
    · simp at hb; subst hb; simp

theorem createBuildNodes_frame_error (d : ResourceData) (tf_env_data : List (String × Dyn))
    (ha : Bool) (tf_nodes : List TfNode) (ce : Createenvironment) (calls : List Call)
    (run : CreateRun) (hb : createBuildNodes d tf_env_data ha tf_nodes ce calls = .error run) :
    run.createenv.Environment.Region = ce.Environment.Region ∧ run.calls = calls ∧ run.d = d := by
  unfold createBuildNodes at hb
  simp only [] at hb
  repeat' split at hb
  all_goals simp at hb
  all_goals subst hb
  all_goals simp

theorem createBuildNodes_frame_ok (d : ResourceData) (tf_env_data : List (String × Dyn))
    (ha : Bool) (tf_nodes : List TfNode) (ce : Createenvironment) (calls : List Call)
    (ce1 : Createenvironment) (calls1 : List Call)
    (hb : createBuildNodes d tf_env_data ha tf_nodes ce calls = .ok (ce1, calls1)) :
    ce1.Environment.Region = ce.Environment.Region ∧ calls1 = calls := by
  unfold createBuildNodes at hb
  simp only [] at hb
  repeat' split at hb
  all_goals simp at hb
  obtain ⟨h1, h2⟩ := hb
  subst h1 h2
  simp

theorem createBuild_summary (m : Client) (remote : Remote) (cfg : Config) (d : ResourceData)
    (run : CreateRun) (dg : Diagnostic)
    (hb : createBuild m remote cfg d = .error run) (h : run.outcome = .ret [dg])
    (hne : dg.Summary = "Incorrect appid format") :
    ¬ (matchClassStar lowerAlnum cfg.appid && cfg.appid.length == APPID_LENGTH) = true := by
  intro hv
  unfold createBuild at hb
  simp only [hv, if_true] at hb
  repeat' split at hb
  all_goals first
    | (have hc := createBuildNodes_outcome _ _ _ _ _ _ _ hb
       rcases hc with h1 | h1 | h1 | h1 | h1
       all_goals simp only [h1] at h
       all_goals simp at h
       all_goals subst h
       all_goals simp [shortdomainTypeDiag, shortdomainDiag, wrongTypeDiag, replicaDiag] at hne)
    | (simp at hb
       subst hb
       simp at h <;> (try subst h) <;> simp [wrongTypeDiag, getRegionsDiag, wrongRegionDiag] at hne)

theorem appid_valid_iff (s : String) :
    (matchClassStar lowerAlnum s && s.length == APPID_LENGTH) = true ↔
      (s.length = 32 ∧ ∀ c ∈ s.data, ('a' ≤ c ∧ c ≤ 'z') ∨ ('0' ≤ c ∧ c ≤ '9')) := by
  rw [Bool.and_eq_true, matchClassStar_lowerAlnum]
  simp [APPID_LENGTH, and_comm]

theorem utf8Size_of_le (c : Char) (h : c ≤ 'z') : c.utf8Size = 1 := by
  have h1 : c.val ≤ 122 := h
  have h2 : c.val ≤ UInt32.ofNatCore 127 (by decide) := UInt32.le_trans h1 (by decide)
  unfold Char.utf8Size
  simp only [h2, if_true]

theorem utf8ByteSize_go_eq (l : List Char) (h : ∀ c ∈ l, c ≤ 'z') :
    String.utf8ByteSize.go l = l.length := by
  induction l with
  | nil => rfl
  | cons c cs ih =>
    simp only [String.utf8ByteSize.go, List.length_cons]
    rw [ih (fun x hx => h x (List.mem_cons_of_mem _ hx)), utf8Size_of_le c (h c (List.mem_cons_self _ _))]

theorem inRanges_alnumHyphen (c : Char) :
    inRanges alnumHyphen c = true ↔
      (('a' ≤ c ∧ c ≤ 'z') ∨ ('A' ≤ c ∧ c ≤ 'Z') ∨ ('0' ≤ c ∧ c ≤ '9') ∨ c = '-') := by
  simp only [inRanges, alnumHyphen, List.any_cons, List.any_nil, Bool.or_false, Bool.or_eq_true,
    Bool.and_eq_true, decide_eq_true_eq]
  constructor
  · rintro (h | h | h | h)
    · exact Or.inl h
    · exact Or.inr (Or.inl h)
    · exact Or.inr (Or.inr (Or.inl h))
    · exact Or.inr (Or.inr (Or.inr (le_antisymm h.2 h.1)))
  · rintro (h | h | h | h)
    · exact Or.inl h
    · exact Or.inr (Or.inl h)
    · exact Or.inr (Or.inr (Or.inl h))
    · exact Or.inr (Or.inr (Or.inr ⟨by rw [h], by rw [h]⟩))

theorem inRanges_alnumHyphen_le (c : Char) (h : inRanges alnumHyphen c = true) : c ≤ 'z' := by
  rcases (inRanges_alnumHyphen c).1 h with h | h | h | h
  · exact h.2
  · exact le_trans h.2 (by decide)
  · exact le_trans h.2 (by decide)
  · rw [h]; decide

theorem utf8ByteSize_eq_length (s : String) (h : matchClassStar alnumHyphen s = true) :
    s.utf8ByteSize = s.length := by
  cases s with
  | mk l =>
    simp only [matchClassStar, List.all_eq_true] at h
    exact utf8ByteSize_go_eq l (fun c hc => inRanges_alnumHyphen_le c (h c hc))

theorem isTrue_toDyn (g : HardNodeGroup) :
    isTrue (List.lookup "isEnabled" [("uniqueName", Dyn.str g.uniqueName),
      ("displayName", Dyn.str g.displayName), ("isEnabled", g.isEnabled)]) = g.enabled := by
  simp [List.lookup, HardNodeGroup.enabled]

theorem enumerateCandidates_append (xs ys : List HardNodeGroup) :
    enumerateCandidates (xs ++ ys) = enumerateCandidates xs ++ enumerateCandidates ys := by
  induction xs with
  | nil => simp [enumerateCandidates]
  | cons x xs ih => simp [enumerateCandidates, ih, String.append_assoc]

theorem scanHardNodes_no_match (r : String) (gs : List HardNodeGroup) (msg : String)
    (h : ∀ g ∈ gs, g.enabled = true → g.uniqueName ≠ r) :
    scanHardNodes (some (.str r)) (gs.map HardNodeGroup.toDyn) msg =
      some (false, msg ++ enumerateCandidates (gs.filter HardNodeGroup.enabled)) := by
  induction gs generalizing msg with
  | nil => simp [scanHardNodes, enumerateCandidates]
  | cons g gs ih =>
    have ih' := fun msg => ih msg (fun x hx => h x (List.mem_cons_of_mem _ hx))
    have hg := h g (List.mem_cons_self _ _)
    simp only [List.map_cons, scanHardNodes, HardNodeGroup.toDyn, isTrue_toDyn]
    by_cases he : g.enabled = true
    · have hne : ¬ r = g.uniqueName := fun e => hg he e.symm
      simp [he, List.lookup, asString, hne, ← HardNodeGroup.toDyn.eq_1, ih', List.filter_cons,
        enumerateCandidates, candidateLine, String.append_assoc]
    · simp [he, ← HardNodeGroup.toDyn.eq_1, ih', List.filter_cons]

theorem scanHardNodes_match (r : String) (gs : List HardNodeGroup) (msg : String)
    (h : ∃ g ∈ gs, g.enabled = true ∧ g.uniqueName = r) :
    ∃ msg1, scanHardNodes (some (.str r)) (gs.map HardNodeGroup.toDyn) msg = some (true, msg1) := by
  induction gs generalizing msg with
  | nil => simp at h
  | cons g gs ih =>
    simp only [List.map_cons, scanHardNodes, HardNodeGroup.toDyn, isTrue_toDyn]
    by_cases he : g.enabled = true
    · by_cases hu : r = g.uniqueName
      · simp [he, List.lookup, asString, hu]
      · have : ∃ x ∈ gs, x.enabled = true ∧ x.uniqueName = r := by
          obtain ⟨x, hx, hxe, hxu⟩ := h
          rcases List.mem_cons.1 hx with e | e
          · subst e; exact absurd hxu.symm hu
          · exact ⟨x, e, hxe, hxu⟩
        simp [he, List.lookup, asString, hu, ← HardNodeGroup.toDyn.eq_1, ih _ this]
    · have : ∃ x ∈ gs, x.enabled = true ∧ x.uniqueName = r := by
        obtain ⟨x, hx, hxe, hxu⟩ := h
        rcases List.mem_cons.1 hx with e | e
        · subst e; exact absurd hxe he
        · exact ⟨x, e, hxe, hxu⟩
      simp [he, ← HardNodeGroup.toDyn.eq_1, ih _ this]

theorem asSlice_field_toDyn (reg : RegionEntry) :
    asSlice (field reg.toDyn "hardNodeGroups") = some (reg.hardNodeGroups.map HardNodeGroup.toDyn) := by
  simp [RegionEntry.toDyn, field, List.lookup, asSlice]

theorem scanRegions_no_match (r : String) (regions : List RegionEntry) (msg : String)
    (h : ∀ g ∈ allGroups regions, g.enabled = true → g.uniqueName ≠ r) :
    scanRegions (some (.str r)) (regions.map RegionEntry.toDyn) msg =
      some (false, msg ++ enumerateCandidates ((allGroups regions).filter HardNodeGroup.enabled)) := by
  induction regions generalizing msg with
  | nil => simp [scanRegions, allGroups, enumerateCandidates]
  | cons reg regions ih =>
    have h1 : ∀ g ∈ reg.hardNodeGroups, g.enabled = true → g.uniqueName ≠ r := fun g hg =>
      h g (by simp [allGroups, hg])
    have h2 : ∀ g ∈ allGroups regions, g.enabled = true → g.uniqueName ≠ r := fun g hg =>
      h g (by simp only [allGroups, List.mem_append]; exact Or.inr hg)
    simp only [List.map_cons, scanRegions, asSlice_field_toDyn]
    rw [scanHardNodes_no_match r reg.hardNodeGroups msg h1]
    simp [ih _ h2, allGroups, List.filter_append,
      enumerateCandidates_append, String.append_assoc]

theorem scanRegions_match (r : String) (regions : List RegionEntry) (msg : String)
    (h : ∃ g ∈ allGroups regions, g.enabled = true ∧ g.uniqueName = r) :
    ∃ msg1, scanRegions (some (.str r)) (regions.map RegionEntry.toDyn) msg = some (true, msg1) := by
  induction regions generalizing msg with
  | nil => simp [allGroups] at h
  | cons reg regions ih =>
    simp only [List.map_cons, scanRegions, asSlice_field_toDyn]
    by_cases hh : ∃ g ∈ reg.hardNodeGroups, g.enabled = true ∧ g.uniqueName = r
    · obtain ⟨msg1, hm⟩ := scanHardNodes_match r _ msg hh
      exact ⟨msg1, by simp [hm]⟩
    · have h1 : ∀ g ∈ reg.hardNodeGroups, g.enabled = true → g.uniqueName ≠ r :=
        fun g hg he hu => hh ⟨g, hg, he, hu⟩
      have h2 : ∃ g ∈ allGroups regions, g.enabled = true ∧ g.uniqueName = r := by
        obtain ⟨x, hx, hxe, hxu⟩ := h
        simp only [allGroups, List.mem_append] at hx
        rcases hx with e | e
        · exact absurd ⟨x, e, hxe, hxu⟩ hh
        · exact ⟨x, e, hxe, hxu⟩
      obtain ⟨msg1, hm⟩ := ih (msg ++ enumerateCandidates (reg.hardNodeGroups.filter HardNodeGroup.enabled)) h2
      refine ⟨msg1, ?_⟩
      rw [scanHardNodes_no_match r reg.hardNodeGroups msg h1]
      simpa using hm

theorem createBuild_accepted (m : Client) (remote : Remote) (cfg : Config) (d : ResourceData)
    (tf_env_data : List (String × Dyn)) (rest : List Dyn) (ha : Bool) (body : Dyn)
    (result_array : List Dyn) (r msg : String)
    (hv : (matchClassStar lowerAlnum cfg.appid && cfg.appid.length == APPID_LENGTH) = true)
    (henv : cfg.environment = .obj tf_env_data :: rest)
    (hha : tf_env_data.lookup "ishaenabled" = some (.bool ha))
    (hreg : tf_env_data.lookup "region" = some (.str r))
    (hresp : remote (getregionsCall m) = some body)
    (hcode : field body "result" = some (.num 0))
    (harr : field body "array" = some (.arr result_array))
    (hscan : scanRegions (some (.str r)) result_array "" = some (true, msg)) :
    createBuild m remote cfg d =
      createBuildNodes d tf_env_data ha cfg.nodes
        { requestAtRegions m cfg ha with
          Environment := { (requestAtRegions m cfg ha).Environment with Region := r } }
        [getregionsCall m] := by
  unfold createBuild
  simp only [hv, henv, hha, hreg, hresp, hcode, harr, hscan, List.head?_cons, asMap, asBool,
    asFloat, asSlice, asString, if_true, ne_eq, not_true_eq_false, if_false]
  rfl

theorem createBuild_rejected (m : Client) (remote : Remote) (cfg : Config) (d : ResourceData)
    (tf_env_data : List (String × Dyn)) (rest : List Dyn) (ha : Bool) (body : Dyn)
    (result_array : List Dyn) (r msg : String)
    (hv : (matchClassStar lowerAlnum cfg.appid && cfg.appid.length == APPID_LENGTH) = true)
    (henv : cfg.environment = .obj tf_env_data :: rest)
    (hha : tf_env_data.lookup "ishaenabled" = some (.bool ha))
    (hreg : tf_env_data.lookup "region" = some (.str r))
    (hresp : remote (getregionsCall m) = some body)
    (hcode : field body "result" = some (.num 0))
    (harr : field body "array" = some (.arr result_array))
    (hscan : scanRegions (some (.str r)) result_array "" = some (false, msg)) :
    createBuild m remote cfg d =
      .error { outcome := .ret [wrongRegionDiag msg], d := d, calls := [getregionsCall m],
               createenv := requestAtRegions m cfg ha } := by
  unfold createBuild
  simp only [hv, henv, hha, hreg, hresp, hcode, harr, hscan, List.head?_cons, asMap, asBool,
    asFloat, asSlice, asString, if_true, ne_eq, not_true_eq_false, if_false]
  rfl

theorem enabled_iff (g : HardNodeGroup) : g.enabled = true ↔ g.isEnabled = .bool true := by
  unfold HardNodeGroup.enabled
  cases h : g.isEnabled with
  | bool b => cases b <;> simp [isTrue]
  | _ => simp [isTrue]

theorem createSubmit_createenv (sp : Option Dyn → String) (m : Client) (remote : Remote)
    (d : ResourceData) (ce : Createenvironment) (calls : List Call) :
    (createSubmit sp m remote d ce calls).createenv = ce := by
  unfold createSubmit
  simp only []
  repeat' split
  all_goals rfl

theorem shortdomain_valid_iff (s : String) :
    (matchClassStar alnumHyphen s && decide (s.utf8ByteSize ≥ SHORTDOMAIN_MIN_LENGTH)
        && decide (s.utf8ByteSize ≤ SHORTDOMAIN_MAX_LENGTH)) = true ↔
      (5 ≤ s.length ∧ s.length ≤ 41 ∧
        ∀ c ∈ s.data, ('a' ≤ c ∧ c ≤ 'z') ∨ ('A' ≤ c ∧ c ≤ 'Z') ∨ ('0' ≤ c ∧ c ≤ '9') ∨
          c = '-') := by
  have hcls : matchClassStar alnumHyphen s = true ↔
      ∀ c ∈ s.data, ('a' ≤ c ∧ c ≤ 'z') ∨ ('A' ≤ c ∧ c ≤ 'Z') ∨ ('0' ≤ c ∧ c ≤ '9') ∨
        c = '-' := by
    simp only [matchClassStar, List.all_eq_true, inRanges_alnumHyphen]
  simp only [Bool.and_eq_true, decide_eq_true_eq, SHORTDOMAIN_MIN_LENGTH, SHORTDOMAIN_MAX_LENGTH]
  constructor
  · rintro ⟨⟨h1, h2⟩, h3⟩
    rw [utf8ByteSize_eq_length s h1] at h2 h3
    exact ⟨h2, h3, hcls.1 h1⟩
  · rintro ⟨h2, h3, h1⟩
    have h1' := hcls.2 h1
    rw [utf8ByteSize_eq_length s h1']
    exact ⟨⟨h1', h2⟩, h3⟩

theorem createBuildNodes_shortdomain_bad (d : ResourceData) (tf_env_data : List (String × Dyn))
    (ha : Bool) (tf_nodes : List TfNode) (ce : Createenvironment) (calls : List Call)
    (s : String) (hs : tf_env_data.lookup "shortdomain" = some (.str s))
    (hbad : ¬ (matchClassStar alnumHyphen s && decide (s.utf8ByteSize ≥ SHORTDOMAIN_MIN_LENGTH)
        && decide (s.utf8ByteSize ≤ SHORTDOMAIN_MAX_LENGTH)) = true) :
    createBuildNodes d tf_env_data ha tf_nodes ce calls =
      .error { outcome := .ret [shortdomainDiag], d := d, calls := calls, createenv := ce } := by
  unfold createBuildNodes
  simp only [hs, asString, hbad]
  rfl

theorem createBuildNodes_shortdomain_error (d : ResourceData)
    (tf_env_data : List (String × Dyn))
    (ha : Bool) (tf_nodes : List TfNode) (ce : Createenvironment) (calls : List Call)
    (s : String) (hs : tf_env_data.lookup "shortdomain" = some (.str s))
    (hok : (matchClassStar alnumHyphen s && decide (s.utf8ByteSize ≥ SHORTDOMAIN_MIN_LENGTH)
        && decide (s.utf8ByteSize ≤ SHORTDOMAIN_MAX_LENGTH)) = true)
    (run : CreateRun) (hb : createBuildNodes d tf_env_data ha tf_nodes ce calls = .error run) :
    run.outcome ≠ .ret [shortdomainDiag] ∧ run.createenv.Environment.Shortdomain = s := by
  unfold createBuildNodes at hb
  simp only [hs, asString, hok, if_true] at hb
  split at hb
  · simp at hb; subst hb; simp [wrongTypeDiag, shortdomainDiag]
  · split at hb
    · rename_i hfn
      simp at hb; subst hb
      rcases fillNodes_stop _ _ _ _ (congrArg Prod.snd hfn) with h1 | h1
      · simp [h1]
      · simp [h1, replicaDiag, shortdomainDiag]
    · simp at hb

theorem createBuildNodes_shortdomain_ok (d : ResourceData)
    (tf_env_data : List (String × Dyn))
    (ha : Bool) (tf_nodes : List TfNode) (ce : Createenvironment) (calls : List Call)
    (s : String) (hs : tf_env_data.lookup "shortdomain" = some (.str s))
    (ce1 : Createenvironment) (calls1 : List Call)
    (hb : createBuildNodes d tf_env_data ha tf_nodes ce calls = .ok (ce1, calls1)) :
    ce1.Environment.Shortdomain = s := by
  unfold createBuildNodes at hb
  simp only [hs, asString] at hb
  repeat' split at hb
  all_goals simp at hb
  rw [← hb.1]

theorem sample_appid_ok : PLATFORM_APPID.length = 32 ∧
    ∀ c ∈ PLATFORM_APPID.data, ('a' ≤ c ∧ c ≤ 'z') ∨ ('0' ≤ c ∧ c ≤ '9') := by
  decide

theorem fillStrings_some (vs : List Dyn) (dst : List String) (j : Nat)
    (h : j + vs.length ≤ dst.length) : ∃ r, fillStrings dst j vs = some r := by
  induction vs generalizing dst j with
  | nil => exact ⟨dst, rfl⟩
  | cons v vs ih =>
    simp only [List.length_cons] at h
    have hj : j < dst.length := by omega
    simp only [fillStrings, hj, if_true]
    exact ih _ _ (by simp only [List.length_set]; omega)

theorem buildNode_replica (t : TfNode) (n : Nodes) (h : t.count = 1) :
    (buildNode true t n).2 = some (.ret [replicaDiag]) := by
  simp [buildNode, h]

theorem buildNode_stop (ha : Bool) (t : TfNode) (n : Nodes)
    (hv : t.volumes.length ≤ t.volumesfrom.length) :
    (buildNode ha t n).2 = none ∨ (buildNode ha t n).2 = some (.ret [replicaDiag]) := by
  unfold buildNode
  simp only []
  split
  · right; rfl
  · obtain ⟨r1, h1⟩ := fillStrings_some t.volumes (List.replicate t.volumes.length "") 0
      (by simp)
    obtain ⟨r2, h2⟩ := fillStrings_some t.volumes (List.replicate t.volumesfrom.length "") 0
      (by simpa using hv)
    simp only [h1, h2]
    left; trivial

theorem fillNodes_replica (pre : List TfNode) (t : TfNode) (post : List TfNode)
    (ns : List Nodes) (hlen : ns.length = (pre ++ t :: post).length)
    (hpre : ∀ p ∈ pre, p.volumes.length ≤ p.volumesfrom.length) (ht : t.count = 1) :
    (fillNodes true (pre ++ t :: post) ns).2 = some (.ret [replicaDiag]) := by
  induction pre generalizing ns with
  | nil =>
    cases ns with
    | nil => simp at hlen
    | cons n ns =>
      have hb := buildNode_replica t n ht
      simp only [List.nil_append, fillNodes]
      split
      · rename_i heq; rw [heq] at hb; simpa using hb
      · rename_i heq; rw [heq] at hb; simp at hb
  | cons p pre ih =>
    cases ns with
    | nil => simp at hlen
    | cons n ns =>
      have hlen' : ns.length = (pre ++ t :: post).length := by simpa using hlen
      have ih' := ih ns hlen' (fun q hq => hpre q (List.mem_cons_of_mem _ hq))
      simp only [List.cons_append, fillNodes]
      split
      · rename_i n1 stop heq
        rcases buildNode_stop true p n (hpre p (List.mem_cons_self _ _)) with hb | hb
        · rw [heq] at hb; simp at hb
        · rw [heq] at hb; simpa using hb
      · exact ih'

theorem createBuildNodes_at_nodes (d : ResourceData) (tf_env_data : List (String × Dyn))
    (ha : Bool) (tf_nodes : List TfNode) (ce : Createenvironment) (calls : List Call)
    (s : String) (ssl : Bool)
    (hs : tf_env_data.lookup "shortdomain" = some (.str s))
    (hok : (matchClassStar alnumHyphen s && decide (s.utf8ByteSize ≥ SHORTDOMAIN_MIN_LENGTH)
        && decide (s.utf8ByteSize ≤ SHORTDOMAIN_MAX_LENGTH)) = true)
    (hssl : tf_env_data.lookup "sslstate" = some (.bool ssl)) :
    createBuildNodes d tf_env_data ha tf_nodes ce calls =
      match fillNodes ha tf_nodes ce.Nodes with
      | (nodes, some o) =>
        .error { outcome := o, d := d, calls := calls,
                 createenv := { ce with
                   Environment := { ce.Environment with Shortdomain := s, Sslstate := ssl }
                   Nodes := nodes } }
      | (nodes, none) =>
        .ok ({ ce with
                Environment := { ce.Environment with Shortdomain := s, Sslstate := ssl }
                Nodes := nodes }, calls) := by
  unfold createBuildNodes
  simp only [hs, asString, hok, if_true, hssl, asBool]

theorem read_d_id (m : Client) (remote : Remote) (d : ResourceData) (calls : List Call) :
    (resourceJelasticCreateEnvironmentRead m remote d calls).d.id = d.id := by
  unfold resourceJelasticCreateEnvironmentRead
  simp only []
  repeat' split
  all_goals rfl

theorem read_calls (m : Client) (remote : Remote) (d : ResourceData) (calls : List Call) :
    (resourceJelasticCreateEnvironmentRead m remote d calls).calls
      = calls ++ [getenvinfoCall m d.id] := by
  unfold resourceJelasticCreateEnvironmentRead
  simp only []
  repeat' split
  all_goals rfl

theorem createSubmit_rejected (sp : Option Dyn → String) (m : Client) (remote : Remote)
    (d : ResourceData) (ce : Createenvironment) (calls : List Call) (body : Dyn)
    (resp : List (String × Dyn)) (code : Int)
    (hresp : remote (createenvironmentCall m ce) = some body)
    (hr : field body "response" = some (.obj resp))
    (hcode : resp.lookup "result" = some (.num code)) (hne : code ≠ 0) :
    createSubmit sp m remote d ce calls =
      { outcome := .ret [apiFailedDiag (if code = 2314 then fmtSprint sp (resp.lookup "error")
          else "Incorrect value in fields")]
        d := d, calls := calls ++ [createenvironmentCall m ce], createenv := ce } := by
  unfold createSubmit
  simp only [hresp, hr, hcode, asMap, asFloat]
  by_cases h : code = 2314
  · simp [h]
  · simp [h, hne]

theorem createSubmit_created (sp : Option Dyn → String) (m : Client) (remote : Remote)
    (d : ResourceData) (ce : Createenvironment) (calls : List Call) (body : Dyn)
    (resp : List (String × Dyn)) (name : String)
    (hresp : remote (createenvironmentCall m ce) = some body)
    (hr : field body "response" = some (.obj resp))
    (hcode : resp.lookup "result" = some (.num 0))
    (hname : resp.lookup "name" = some (.str name)) :
    createSubmit sp m remote d ce calls =
      { toRun := resourceJelasticCreateEnvironmentRead m remote (d.SetId name)
          (calls ++ [createenvironmentCall m ce])
        createenv := ce } := by
  unfold createSubmit
  simp [hresp, hr, hcode, hname, asMap, asFloat, asString]

theorem createBuildNodes_top_ok (d : ResourceData) (tf_env_data : List (String × Dyn))
    (ha : Bool) (tf_nodes : List TfNode) (ce : Createenvironment) (calls : List Call)
    (ce1 : Createenvironment) (calls1 : List Call)
    (hb : createBuildNodes d tf_env_data ha tf_nodes ce calls = .ok (ce1, calls1)) :
    ce1.Actionkey = ce.Actionkey ∧ ce1.Owneruid = ce.Owneruid ∧ ce1.Envgroups = ce.Envgroups ∧
    ce1.Session = ce.Session ∧ ce1.Appid = ce.Appid ∧ calls1 = calls := by
  unfold createBuildNodes at hb
  simp only [] at hb
  repeat' split at hb
  all_goals simp at hb
  obtain ⟨h1, h2⟩ := hb
  subst h1 h2
  simp

theorem createBuild_top_ok (m : Client) (remote : Remote) (cfg : Config) (d : ResourceData)
    (ce : Createenvironment) (calls : List Call)
    (hb : createBuild m remote cfg d = .ok (ce, calls)) :
    ce.Actionkey = cfg.actionkey ∧ ce.Owneruid = (cfg.owneruid % 4294967296).toNat ∧
    ce.Envgroups = cfg.envgroups ∧ ce.Session = m.Token ∧ ce.Appid = cfg.appid ∧
    calls = [getregionsCall m] := by
  unfold createBuild at hb
  simp only [] at hb
  repeat' split at hb
  all_goals first
    | exact createBuildNodes_top_ok _ _ _ _ _ _ _ _ hb
    | simp at hb

theorem createenvironmentCall_lookup (m : Client) (ce : Createenvironment) :
    (createenvironmentCall m ce).query.lookup "actionkey"
      = (if ce.Actionkey = "" then none else some [.text ce.Actionkey]) ∧
    (createenvironmentCall m ce).query.lookup "owneruid"
      = (if ce.Owneruid = 0 then none else some [.text (toString ce.Owneruid)]) ∧
    (createenvironmentCall m ce).query.lookup "envgroups"
      = (if ce.Envgroups = "" then none else some [.text ce.Envgroups]) ∧
    (createenvironmentCall m ce).query.lookup "appid" = some [.text PLATFORM_APPID] ∧
    (createenvironmentCall m ce).query.lookup "session" = some [.text m.Token] ∧
    (createenvironmentCall m ce).query.lookup "env" = some [.envJson ce.Environment] ∧
    (createenvironmentCall m ce).query.lookup "nodes" = some [.nodesJson ce.Nodes] := by
  unfold createenvironmentCall
  by_cases h1 : ce.Actionkey = "" <;> by_cases h2 : ce.Owneruid = 0 <;>
    by_cases h3 : ce.Envgroups = "" <;>
    simp [h1, h2, h3, Query.Del, List.lookup, List.filter]

theorem createSubmit_calls (sp : Option Dyn → String) (m : Client) (remote : Remote)
    (d : ResourceData) (ce : Createenvironment) (calls : List Call) :
    ∃ tail, (createSubmit sp m remote d ce calls).calls
      = calls ++ createenvironmentCall m ce :: tail := by
  unfold createSubmit
  simp only []
  repeat' split
  all_goals first
    | exact ⟨[], rfl⟩
    | exact ⟨_, by rw [read_calls, List.append_assoc]; rfl⟩

theorem createBuildNodes_error_d (d : ResourceData) (tf_env_data : List (String × Dyn))
    (ha : Bool) (tf_nodes : List TfNode) (ce : Createenvironment) (calls : List Call)
    (run : CreateRun) (hb : createBuildNodes d tf_env_data ha tf_nodes ce calls = .error run) :
    run.d = d ∧ run.outcome ≠ .ret [] := by
  refine ⟨(createBuildNodes_frame_error _ _ _ _ _ _ _ hb).2.2, ?_⟩
  rcases createBuildNodes_outcome _ _ _ _ _ _ _ hb with h | h | h | h | h <;> simp [h]

theorem createBuild_error_d (m : Client) (remote : Remote) (cfg : Config) (d : ResourceData)
    (run : CreateRun) (hb : createBuild m remote cfg d = .error run) :
    run.d = d ∧ run.outcome ≠ .ret [] := by
  unfold createBuild at hb
  simp only [] at hb
  repeat' split at hb
  all_goals first
    | exact createBuildNodes_error_d _ _ _ _ _ _ _ hb
    | (simp at hb
       subst hb
       simp)

theorem createSubmit_cases (sp : Option Dyn → String) (m : Client) (remote : Remote)
    (d : ResourceData) (ce : Createenvironment) (calls : List Call) :
    ((createSubmit sp m remote d ce calls).d = d ∧
      (createSubmit sp m remote d ce calls).outcome ≠ .ret []) ∨
    ∃ name, (createSubmit sp m remote d ce calls).toRun =
      resourceJelasticCreateEnvironmentRead m remote (d.SetId name)
        (calls ++ [createenvironmentCall m ce]) := by
  unfold createSubmit
  simp only []
  repeat' split
  all_goals first
    | exact Or.inl ⟨rfl, by simp⟩
    | exact Or.inr ⟨_, rfl⟩

theorem createSubmit_before_read (sp : Option Dyn → String) (m : Client) (remote : Remote)
    (d : ResourceData) (ce : Createenvironment) (calls : List Call)
    (h : ∀ c ∈ (createSubmit sp m remote d ce calls).calls,
      c.endpoint ≠ "environment/control/rest/getenvinfo") :
    (createSubmit sp m remote d ce calls).d = d ∧
    (createSubmit sp m remote d ce calls).outcome ≠ .ret [] := by
  rcases createSubmit_cases sp m remote d ce calls with hc | ⟨name, hc⟩
  · exact hc
  · exfalso
    refine h (getenvinfoCall m (d.SetId name).id) ?_ rfl
    have : (createSubmit sp m remote d ce calls).calls
        = (createSubmit sp m remote d ce calls).toRun.calls := rfl
    rw [this, hc, read_calls]
    exact List.mem_append_right _ (List.mem_singleton.2 rfl)

theorem read_failed (m : Client) (remote : Remote) (d : ResourceData) (calls : List Call)
    (h : remote (getenvinfoCall m d.id) = none ∨
      ∃ b code, remote (getenvinfoCall m d.id) = some b ∧
        field b "result" = some (.num code) ∧ code ≠ 0) :
    (resourceJelasticCreateEnvironmentRead m remote d calls).d = d ∧
    (resourceJelasticCreateEnvironmentRead m remote d calls).outcome ≠ .ret [] := by
  unfold resourceJelasticCreateEnvironmentRead
  rcases h with h | ⟨b, code, h1, h2, h3⟩
  · simp [h]
  · simp [h1, h2, h3, asFloat]

theorem asString_eq_some (o : Option Dyn) (s : String) :
    asString o = some s ↔ o = some (.str s) := by
  unfold asString
  split <;> simp_all

theorem asBool_eq_some (o : Option Dyn) (b : Bool) :
    asBool o = some b ↔ o = some (.bool b) := by
  cases o with
  | none => simp [asBool]
  | some v => cases v <;> simp [asBool]

theorem asMap_eq_some (o : Option Dyn) (kvs : List (String × Dyn)) :
    asMap o = some kvs ↔ o = some (.obj kvs) := by
  unfold asMap
  split <;> simp_all

theorem flattenNode_toDyn (rt : Runtime) (nodegroups : List Dyn) (n : RemoteNode) :
    flattenNode rt nodegroups n.toDyn =
      match decodeEnvs (n.env.map strOrEmpty) [] with
      | none => none
      | some envsmap =>
        match extFlags rt n.extIPs with
        | none => none
        | some (extip, extipv6) =>
          match joinNodeGroup rt n.nodeGroup nodegroups (none, none) with
          | none => none
          | some (restartdelay, scalingmode) =>
            some
              { cmd := n.cmd
                disklimit := Int.tdiv (intOfFloat rt n.diskLimit) 1000
                env := envsmap
                extip := extip
                extipv6 := extipv6
                fixedcloudlets := intOfFloat rt n.fixedCloudlets
                flexiblecloudlets := intOfFloat rt n.flexibleCloudlets
                image := n.dockerName
                mission := n.nodemission
                nodegroup := n.nodeGroup
                nodetype := n.nodeType
                restartdelay := restartdelay
                scalingmode := scalingmode
                tag := n.dockerTag
                volumes := n.dockerVolumes.map strOrEmpty
                volumesfrom := n.dockerVolumesFrom.map strOrEmpty } := by
  unfold flattenNode RemoteNode.toDyn
  cases hx : n.extIPs with
  | none =>
    simp only [asMap, RemoteNode.customitem, List.lookup, asSlice, asString, asFloat]
    simp
    rfl
  | some v =>
    simp only [asMap, RemoteNode.customitem, List.lookup, asSlice, asString, asFloat]
    simp
    rfl
theorem lookup_filter_ne (m : StrMap) (k k1 : String) (h : k1 ≠ k) :
    (m.filter fun p => p.1 != k).lookup k1 = m.lookup k1 := by
  induction m with
  | nil => rfl
  | cons p m ih =>
    obtain ⟨a, b⟩ := p
    by_cases hp : a = k
    · have h1 : (a != k) = false := by simp [hp]
      have h2 : (k1 == a) = false := by simpa [hp] using h
      simp only [List.filter_cons, h1, List.lookup, h2]
      exact ih
    · have h1 : (a != k) = true := by simpa using hp
      simp only [List.filter_cons, h1, if_true, List.lookup]
      rw [ih]

theorem lookup_mapAssign (m : StrMap) (k v k1 : String) :
    (mapAssign m k v).lookup k1 = if k1 = k then some v else m.lookup k1 := by
  unfold mapAssign
  by_cases h : k1 = k
  · subst h; simp [List.lookup]
  · have hb : (k1 == k) = false := by simpa using h
    simp only [List.lookup, hb, h, if_false]
    exact lookup_filter_ne m k k1 h

theorem cutAtEq_none (l : List Char) (h : '=' ∉ l) : cutAtEq l = none := by
  induction l with
  | nil => rfl
  | cons c cs ih =>
    have hc : c ≠ '=' := fun e => h (by simp [e])
    have hcs : '=' ∉ cs := fun e => h (List.mem_cons_of_mem _ e)
    simp [cutAtEq, hc, ih hcs]

theorem cutAtEq_render (k v : List Char) (h : '=' ∉ k) :
    cutAtEq (k ++ '=' :: v) = some (k, v) := by
  induction k with
  | nil => simp [cutAtEq]
  | cons c cs ih =>
    have hc : c ≠ '=' := fun e => h (by simp [e])
    have hcs : '=' ∉ cs := fun e => h (List.mem_cons_of_mem _ e)
    simp [cutAtEq, hc, ih hcs]

theorem splitN2_render (k v : String) (h : '=' ∉ k.data) :
    splitN2 (k ++ "=" ++ v) = [k, v] := by
  have hd : (k ++ "=" ++ v).data = k.data ++ '=' :: v.data := by
    simp [String.data_append]
  unfold splitN2
  rw [hd, cutAtEq_render k.data v.data h]

theorem splitN2_no_eq (s : String) (h : '=' ∉ s.data) : splitN2 s = [s] := by
  unfold splitN2
  rw [cutAtEq_none s.data h]

theorem decodeEnvs_render (kvs : List (String × String)) (m : StrMap)
    (h : ∀ p ∈ kvs, '=' ∉ p.1.data) :
    decodeEnvs (kvs.map fun p => p.1 ++ "=" ++ p.2) m =
      some (kvs.foldl (fun acc p => mapAssign acc p.1 p.2) m) := by
  induction kvs generalizing m with
  | nil => rfl
  | cons p kvs ih =>
    have hp := h p (List.mem_cons_self _ _)
    simp only [List.map_cons, decodeEnvs, splitN2_render p.1 p.2 hp, List.foldl_cons]
    exact ih _ (fun q hq => h q (List.mem_cons_of_mem _ hq))

theorem decodeEnvs_no_eq (l : List String) (m : StrMap)
    (h : ∃ s ∈ l, '=' ∉ s.data) : decodeEnvs l m = none := by
  induction l generalizing m with
  | nil => simp at h
  | cons e l ih =>
    by_cases he : '=' ∉ e.data
    · simp [decodeEnvs, splitN2_no_eq e he]
    · obtain ⟨s, hs, hno⟩ := h
      have hs' : s ∈ l := by
        rcases List.mem_cons.1 hs with e1 | e1
        · subst e1; exact absurd hno he
        · exact e1
      unfold decodeEnvs
      simp only []
      split
      · exact ih _ ⟨s, hs', hno⟩
      · rfl

theorem lookup_foldl_keep (post : List (String × String)) (m : StrMap) (k v : String)
    (hm : m.lookup k = some v) (h : ∀ q ∈ post, q.1 ≠ k) :
    (post.foldl (fun acc p => mapAssign acc p.1 p.2) m).lookup k = some v := by
  induction post generalizing m with
  | nil => exact hm
  | cons q post ih =>
    simp only [List.foldl_cons]
    apply ih
    · rw [lookup_mapAssign]
      have : k ≠ q.1 := fun e => h q (List.mem_cons_self _ _) e.symm
      simp [this, hm]
    · exact fun r hr => h r (List.mem_cons_of_mem _ hr)

theorem lookup_foldl_absent (kvs : List (String × String)) (m : StrMap) (k : String)
    (h : ∀ q ∈ kvs, q.1 ≠ k) :
    (kvs.foldl (fun acc p => mapAssign acc p.1 p.2) m).lookup k = m.lookup k := by
  induction kvs generalizing m with
  | nil => rfl
  | cons q kvs ih =>
    simp only [List.foldl_cons]
    rw [ih _ (fun r hr => h r (List.mem_cons_of_mem _ hr)), lookup_mapAssign]
    have : k ≠ q.1 := fun e => h q (List.mem_cons_self _ _) e.symm
    simp [this]

theorem lookup_foldl_last (pre post : List (String × String)) (p : String × String)
    (m : StrMap) (h : ∀ q ∈ post, q.1 ≠ p.1) :
    ((pre ++ p :: post).foldl (fun acc q => mapAssign acc q.1 q.2) m).lookup p.1 = some p.2 := by
  rw [List.foldl_append, List.foldl_cons]
  apply lookup_foldl_keep _ _ _ _ _ h
  rw [lookup_mapAssign]
  simp

theorem scanExtIPs_strings (rt : Runtime) (ss : List String) (a b : Option Bool) :
    scanExtIPs rt (ss.map Dyn.str) (a, b) =
      some (if ss.any rt.to4 then some true else a,
            if ss.any (fun s => !rt.to4 s && rt.to16 s) then some true else b) := by
  induction ss generalizing a b with
  | nil => simp [scanExtIPs]
  | cons s ss ih =>
    simp only [List.map_cons, scanExtIPs, List.any_cons]
    by_cases h4 : rt.to4 s = true
    · simp only [h4, if_true, ih]
      simp
    · by_cases h6 : rt.to16 s = true
      · simp only [h4, h6, if_true, ih]
        simp
      · simp only [h4, h6, ih]
        simp

theorem joinNodeGroup_toDyn (rt : Runtime) (g : String) (gs : List NodeGroupRec)
    (keys : Option Int × Option String) :
    joinNodeGroup rt g (gs.map NodeGroupRec.toDyn) keys =
      some (gs.foldl (fun acc r =>
        if r.name = g then (some (intOfFloat rt r.restartNodeDelay), some r.scalingMode) else acc) keys) := by
  induction gs generalizing keys with
  | nil => rfl
  | cons r gs ih =>
    simp only [List.map_cons, joinNodeGroup, NodeGroupRec.toDyn, List.lookup, List.foldl_cons]
    by_cases h : r.name = g
    · simp [isString, h, asFloat, asString, ← NodeGroupRec.toDyn.eq_1, ih]
    · simp [isString, h, ← NodeGroupRec.toDyn.eq_1, ih]

theorem foldl_join_no_match (rt : Runtime) (g : String) (gs : List NodeGroupRec)
    (keys : Option Int × Option String) (h : ∀ r ∈ gs, r.name ≠ g) :
    gs.foldl (fun acc r =>
      if r.name = g then (some (intOfFloat rt r.restartNodeDelay), some r.scalingMode) else acc) keys = keys := by
  induction gs generalizing keys with
  | nil => rfl
  | cons r gs ih =>
    have hr := h r (List.mem_cons_self _ _)
    simp only [List.foldl_cons, hr, if_false]
    exact ih _ (fun q hq => h q (List.mem_cons_of_mem _ hq))

theorem foldl_join_last (rt : Runtime) (g : String) (pre post : List NodeGroupRec) (r : NodeGroupRec)
    (keys : Option Int × Option String) (hr : r.name = g) (h : ∀ q ∈ post, q.name ≠ g) :
    (pre ++ r :: post).foldl (fun acc r =>
      if r.name = g then (some (intOfFloat rt r.restartNodeDelay), some r.scalingMode) else acc) keys
      = (some (intOfFloat rt r.restartNodeDelay), some r.scalingMode) := by
  rw [List.foldl_append, List.foldl_cons]
  simp only [hr, if_true]
  exact foldl_join_no_match rt g post _ h

theorem exists_last_match (g : String) (gs : List NodeGroupRec)
    (h : ∃ r ∈ gs, r.name = g) :
    ∃ pre r post, gs = pre ++ r :: post ∧ r.name = g ∧ ∀ q ∈ post, q.name ≠ g := by
  induction gs with
  | nil => simp at h
  | cons a gs ih =>
    by_cases hg : ∃ r ∈ gs, r.name = g
    · obtain ⟨pre, r, post, h1, h2, h3⟩ := ih hg
      exact ⟨a :: pre, r, post, by simp [h1], h2, h3⟩
    · obtain ⟨r, hr, hn⟩ := h
      have ha : a.name = g := by
        rcases List.mem_cons.1 hr with e | e
        · subst e; exact hn
        · exact absurd ⟨r, e, hn⟩ hg
      exact ⟨[], a, gs, rfl, ha, fun q hq hqn => hg ⟨q, hq, hqn⟩⟩

theorem flattenNodeList_failed (rt : Runtime) (nodegroups : List Dyn) (nodes : List Dyn)
    (h : ∃ node ∈ nodes, flattenNode rt nodegroups node = none) :
    flattenNodeList rt nodegroups nodes = none := by
  induction nodes with
  | nil => simp at h
  | cons x xs ih =>
    unfold flattenNodeList
    cases hx : flattenNode rt nodegroups x with
    | none => rfl
    | some f =>
      obtain ⟨node, hn, hf⟩ := h
      have hn' : node ∈ xs := by
        rcases List.mem_cons.1 hn with e | e
        · subst e; rw [hx] at hf; simp at hf
        · exact e
      simp only [ih ⟨node, hn', hf⟩]

theorem cutAtEq_some (l : List Char) (h : '=' ∈ l) : ∃ a b, cutAtEq l = some (a, b) := by
  induction l with
  | nil => simp at h
  | cons c cs ih =>
    by_cases hc : c = '='
    · exact ⟨[], cs, by simp [cutAtEq, hc]⟩
    · have hcs : '=' ∈ cs := by
        rcases List.mem_cons.1 h with e | e
        · exact absurd e.symm hc
        · exact e
      obtain ⟨a, b, hab⟩ := ih hcs
      exact ⟨c :: a, b, by simp [cutAtEq, hc, hab]⟩

theorem decodeEnvs_some (l : List String) (m : StrMap) (h : ∀ s ∈ l, '=' ∈ s.data) :
    ∃ r, decodeEnvs l m = some r := by
  induction l generalizing m with
  | nil => exact ⟨m, rfl⟩
  | cons s l ih =>
    obtain ⟨a, b, hab⟩ := cutAtEq_some s.data (h s (List.mem_cons_self _ _))
    simp only [decodeEnvs, splitN2, hab]
    exact ih _ (fun t ht => h t (List.mem_cons_of_mem _ ht))

theorem envEntryOk_mem (e : Dyn) (h : envEntryOk e = true) : '=' ∈ (strOrEmpty e).data := by
  cases e <;> simp_all [envEntryOk, strOrEmpty]

theorem all_isStr (l : List Dyn) (h : l.all isStr = true) : ∃ ss : List String, l = ss.map Dyn.str := by
  induction l with
  | nil => exact ⟨[], rfl⟩
  | cons x xs ih =>
    simp only [List.all_cons, Bool.and_eq_true] at h
    obtain ⟨ss, hss⟩ := ih h.2
    cases x with
    | str s => exact ⟨s :: ss, by simp [hss]⟩
    | _ => simp [isStr] at h

theorem extFlags_some (rt : Runtime) (n : RemoteNode) (h : n.extIPsOk = true) :
    ∃ fl, extFlags rt n.extIPs = some fl := by
  unfold RemoteNode.extIPsOk at h
  unfold extFlags
  split at h
  · rename_i l hl
    obtain ⟨ss, hss⟩ := all_isStr l h
    rw [hl, hss]
    simp only [asSlice, scanExtIPs_strings]
    exact ⟨_, rfl⟩
  · rename_i hno
    cases hx : n.extIPs with
    | none => exact ⟨_, rfl⟩
    | some v =>
      cases v with
      | arr l => exact absurd hx (hno l)
      | _ => exact ⟨_, rfl⟩

theorem flattenNode_wellFormed (rt : Runtime) (groups : List NodeGroupRec) (n : RemoteNode)
    (h : n.wellFormed = true) :
    ∃ envsmap fl, decodeEnvs (n.env.map strOrEmpty) [] = some envsmap ∧
      extFlags rt n.extIPs = some fl ∧
      flattenNode rt (groups.map NodeGroupRec.toDyn) n.toDyn = some
        { cmd := n.cmd
          disklimit := Int.tdiv (intOfFloat rt n.diskLimit) 1000
          env := envsmap
          extip := fl.1
          extipv6 := fl.2
          fixedcloudlets := intOfFloat rt n.fixedCloudlets
          flexiblecloudlets := intOfFloat rt n.flexibleCloudlets
          image := n.dockerName
          mission := n.nodemission
          nodegroup := n.nodeGroup
          nodetype := n.nodeType
          restartdelay := (groups.foldl (fun acc r =>
            if r.name = n.nodeGroup then (some (intOfFloat rt r.restartNodeDelay), some r.scalingMode)
            else acc) (none, none)).1
          scalingmode := (groups.foldl (fun acc r =>
            if r.name = n.nodeGroup then (some (intOfFloat rt r.restartNodeDelay), some r.scalingMode)
            else acc) (none, none)).2
          tag := n.dockerTag
          volumes := n.dockerVolumes.map strOrEmpty
          volumesfrom := n.dockerVolumesFrom.map strOrEmpty } := by
  simp only [RemoteNode.wellFormed, Bool.and_eq_true, List.all_eq_true] at h
  obtain ⟨envsmap, henv⟩ := decodeEnvs_some (n.env.map strOrEmpty) []
    (by
      intro s hs
      obtain ⟨e, he, rfl⟩ := List.mem_map.1 hs
      exact envEntryOk_mem e (h.1 e he))
  obtain ⟨fl, hfl⟩ := extFlags_some rt n h.2
  refine ⟨envsmap, fl, henv, hfl, ?_⟩
  rw [flattenNode_toDyn, henv, hfl, joinNodeGroup_toDyn]

theorem flattenNode_rendered (rt : Runtime) (groups : List NodeGroupRec) (n : RemoteNode)
    (kvs : List (String × String)) (hk : ∀ p ∈ kvs, '=' ∉ p.1.data)
    (henv : n.env = kvs.map fun p => Dyn.str (renderEnv p)) (hext : n.extIPsOk = true) :
    ∃ flat, flattenNode rt (groups.map NodeGroupRec.toDyn) n.toDyn = some flat ∧
      flat.env = kvs.foldl (fun acc p => mapAssign acc p.1 p.2) [] := by
  obtain ⟨fl, hfl⟩ := extFlags_some rt n hext
  have hmap : n.env.map strOrEmpty = kvs.map fun p => p.1 ++ "=" ++ p.2 := by
    rw [henv, List.map_map]
    rfl
  rw [flattenNode_toDyn, hmap, decodeEnvs_render kvs [] hk, hfl, joinNodeGroup_toDyn]
  exact ⟨_, rfl, rfl⟩

theorem flattenNode_bad_env (rt : Runtime) (nodegroups : List Dyn) (n : RemoteNode)
    (e : Dyn) (he : e ∈ n.env) (hbad : ∀ s, e = .str s → '=' ∉ s.data) :
    flattenNode rt nodegroups n.toDyn = none := by
  have hno : '=' ∉ (strOrEmpty e).data := by
    cases e with
    | str s => exact hbad s rfl
    | _ => simp [strOrEmpty]
  rw [flattenNode_toDyn, decodeEnvs_no_eq (n.env.map strOrEmpty) []
    ⟨strOrEmpty e, List.mem_map.2 ⟨e, he, rfl⟩, hno⟩]

theorem lookup_none_of_not_key (m : StrMap) (k : String) (h : ∀ q ∈ m, q.1 ≠ k) :
    m.lookup k = none := by
  induction m with
  | nil => rfl
  | cons p m ih =>
    obtain ⟨a, b⟩ := p
    have ha : (k == a) = false := by
      have := h (a, b) (List.mem_cons_self _ _)
      simpa using fun e : k = a => this e.symm
    simp only [List.lookup, ha]
    exact ih (fun q hq => h q (List.mem_cons_of_mem _ hq))

theorem lookup_of_mem_nodup (m : StrMap) (k v : String) (hn : (m.map Prod.fst).Nodup)
    (h : (k, v) ∈ m) : m.lookup k = some v := by
  induction m with
  | nil => simp at h
  | cons p m ih =>
    obtain ⟨a, b⟩ := p
    simp only [List.map_cons, List.nodup_cons] at hn
    rcases List.mem_cons.1 h with e | e
    · injection e with e1 e2
      subst e1 e2
      simp [List.lookup]
    · have hne : k ≠ a := by
        intro hka
        apply hn.1
        rw [← hka]
        exact List.mem_map.2 ⟨(k, v), e, rfl⟩
      have ha : (k == a) = false := by simpa using hne
      simp only [List.lookup, ha]
      exact ih hn.2 e

theorem lookup_foldl_nodup (l : List (String × String)) (hn : (l.map Prod.fst).Nodup)
    (k : String) :
    (l.foldl (fun acc p => mapAssign acc p.1 p.2) []).lookup k = l.lookup k := by
  by_cases hk : ∃ q ∈ l, q.1 = k
  · obtain ⟨q, hq, hqk⟩ := hk
    obtain ⟨pre, post, hl⟩ := List.append_of_mem hq
    have hpost : ∀ r ∈ post, r.1 ≠ q.1 := by
      intro r hr hrq
      rw [hl, List.map_append, List.map_cons, List.nodup_append] at hn
      have := (List.nodup_cons.1 hn.2.1).1
      exact this (by rw [← hrq]; exact List.mem_map.2 ⟨r, hr, rfl⟩)
    have h1 := lookup_foldl_last pre post q [] hpost
    rw [← hl, hqk] at h1
    rw [h1, lookup_of_mem_nodup l k q.2 hn (by rw [← hqk]; exact hq)]
  · have hno : ∀ q ∈ l, q.1 ≠ k := fun q hq e => hk ⟨q, hq, e⟩
    rw [lookup_foldl_absent l [] k hno, lookup_none_of_not_key l k hno]
    rfl

theorem lookup_perm_nodup (l m : StrMap) (hn : (m.map Prod.fst).Nodup) (hp : l.Perm m)
    (k : String) : l.lookup k = m.lookup k := by
  have hnl : (l.map Prod.fst).Nodup := (hp.map Prod.fst).nodup_iff.2 hn
  by_cases hk : ∃ q ∈ m, q.1 = k
  · obtain ⟨q, hq, hqk⟩ := hk
    have hq' : (k, q.2) ∈ m := by rw [← hqk]; exact hq
    rw [lookup_of_mem_nodup m k q.2 hn hq', lookup_of_mem_nodup l k q.2 hnl (hp.mem_iff.2 hq')]
  · have hno : ∀ q ∈ m, q.1 ≠ k := fun q hq e => hk ⟨q, hq, e⟩
    rw [lookup_none_of_not_key m k hno,
      lookup_none_of_not_key l k (fun q hq => hno q (hp.mem_iff.1 hq))]

theorem all_isStr_map (ss : List String) : (ss.map Dyn.str).all isStr = true := by
  induction ss with
  | nil => rfl
  | cons s ss ih => simp [isStr, ih]

theorem any_perm (p : String → Bool) (l1 l2 : List String) (h : l1.Perm l2) :
    l1.any p = l2.any p := by
  rw [Bool.eq_iff_iff, List.any_eq_true, List.any_eq_true]
  constructor
  · rintro ⟨x, hx, hp⟩; exact ⟨x, h.mem_iff.1 hx, hp⟩
  · rintro ⟨x, hx, hp⟩; exact ⟨x, h.mem_iff.2 hx, hp⟩

theorem flattenNode_strings (rt : Runtime) (groups : List NodeGroupRec) (n : RemoteNode)
    (ss : List String) (henv : n.env.all envEntryOk = true)
    (hips : n.extIPs = some (.arr (ss.map Dyn.str))) :
    ∃ flat, flattenNode rt (groups.map NodeGroupRec.toDyn) n.toDyn = some flat ∧
      flat.extip = (if ss.any rt.to4 then some true else none) ∧
      flat.extipv6 = (if ss.any (fun s => !rt.to4 s && rt.to16 s) then some true else none) ∧
      ∀ (n1 : RemoteNode) (ss1 : List String), n1 = { n with extIPs := some (.arr (ss1.map Dyn.str)) } →
        ∃ flat1, flattenNode rt (groups.map NodeGroupRec.toDyn) n1.toDyn = some flat1 ∧
          flat1 = { flat with
            extip := (if ss1.any rt.to4 then some true else none)
            extipv6 := (if ss1.any (fun s => !rt.to4 s && rt.to16 s) then some true else none) } := by
  have hwf : ∀ (n1 : RemoteNode) (ss1 : List String),
      n1.env = n.env → n1.extIPs = some (.arr (ss1.map Dyn.str)) → n1.wellFormed = true := by
    intro n1 ss1 h1 h2
    simp only [RemoteNode.wellFormed, RemoteNode.extIPsOk, h1, h2, henv, all_isStr_map,
      Bool.and_self]
  have hfl : ∀ ss1 : List String, extFlags rt (some (.arr (ss1.map Dyn.str))) =
      some (if ss1.any rt.to4 then some true else none,
            if ss1.any (fun s => !rt.to4 s && rt.to16 s) then some true else none) := by
    intro ss1
    simp only [extFlags, asSlice, scanExtIPs_strings]
  obtain ⟨envsmap, fl, he, hf, hn⟩ := flattenNode_wellFormed rt groups n (hwf n ss rfl hips)
  rw [hips, hfl] at hf
  simp only [Option.some.injEq] at hf
  subst hf
  refine ⟨_, hn, rfl, rfl, ?_⟩
  intro n1 ss1 hn1
  obtain ⟨envsmap1, fl1, he1, hf1, hnn1⟩ := flattenNode_wellFormed rt groups n1
    (hwf n1 ss1 (by rw [hn1]) (by rw [hn1]))
  have hx : n1.extIPs = some (.arr (ss1.map Dyn.str)) := by rw [hn1]
  rw [hx, hfl] at hf1
  simp only [Option.some.injEq] at hf1
  subst hf1
  have hev : n1.env = n.env := by rw [hn1]
  rw [hev, he] at he1
  simp only [Option.some.injEq] at he1
  subst he1
  refine ⟨_, hnn1, ?_⟩
  subst hn1
  rfl

theorem token_valid_iff (s : String) :
    (matchClassStar lowerAlnum s && decide (s.length ≤ TOKEN_LENGTH)) = true ↔
      (s.length ≤ 40 ∧ ∀ c ∈ s.data, ('a' ≤ c ∧ c ≤ 'z') ∨ ('0' ≤ c ∧ c ≤ '9')) := by
  rw [Bool.and_eq_true, matchClassStar_lowerAlnum]
  simp [TOKEN_LENGTH, and_comm]

theorem buildNode_done (ha : Bool) (t : TfNode) (n : Nodes)
    (hdone : (buildNode ha t n).2 = none) :
    (buildNode ha t n).1.Count = (t.count % 256).toNat ∧
    (buildNode ha t n).1.Disklimit = (t.disklimit % 256).toNat ∧
    (buildNode ha t n).1.Fixedcloudlets = (t.fixedcloudlets % 256).toNat ∧
    (buildNode ha t n).1.Flexiblecloudlets = (t.flexiblecloudlets % 256).toNat ∧
    (buildNode ha t n).1.Restartdelay = (t.restartdelay % 65536).toNat := by
  unfold buildNode at hdone ⊢
  simp only [] at hdone ⊢
  split
  · rename_i h; simp [h] at hdone
  · rename_i h
    simp only [h] at hdone
    split
    · rename_i h1; simp [h1] at hdone
    · split
      · rename_i h1 _ h2; simp [h1, h2] at hdone
      · exact ⟨rfl, rfl, rfl, rfl, rfl⟩

theorem set_length_append (pre : List String) (x y : String) (rest : List String) :
    (pre ++ y :: rest).set pre.length x = pre ++ x :: rest := by
  induction pre with
  | nil => rfl
  | cons p pre ih => simp [List.set, ih]

theorem fillStrings_segment (vs : List Dyn) (pre mid rest : List String)
    (h : mid.length = vs.length) :
    fillStrings (pre ++ mid ++ rest) pre.length vs
      = some (pre ++ vs.map strOrEmpty ++ rest) := by
  induction vs generalizing pre mid with
  | nil =>
    have : mid = [] := List.length_eq_zero.1 h
    simp [fillStrings, this]
  | cons v vs ih =>
    cases mid with
    | nil => simp at h
    | cons y mid =>
      have hj : pre.length < (pre ++ y :: mid ++ rest).length := by simp
      simp only [fillStrings, hj, if_true]
      have hset : (pre ++ y :: mid ++ rest).set pre.length (strOrEmpty v)
          = (pre ++ [strOrEmpty v]) ++ mid ++ rest := by
        have := set_length_append pre (strOrEmpty v) y (mid ++ rest)
        simp [this]
      have hlen : pre.length + 1 = (pre ++ [strOrEmpty v]).length := by simp
      rw [hset, hlen, ih (pre ++ [strOrEmpty v]) mid (by simpa using h)]
      simp

theorem fillStrings_replicate (vs : List Dyn) (k : Nat) (h : vs.length ≤ k) :
    fillStrings (List.replicate k "") 0 vs
      = some (vs.map strOrEmpty ++ List.replicate (k - vs.length) "") := by
  have hsplit : List.replicate k ""
      = [] ++ List.replicate vs.length "" ++ List.replicate (k - vs.length) "" := by
    rw [List.nil_append, ← List.replicate_add]
    congr 1
    omega
  rw [hsplit]
  have := fillStrings_segment vs [] (List.replicate vs.length "")
    (List.replicate (k - vs.length) "") (by simp)
  simpa using this

theorem fillStrings_none (vs : List Dyn) (dst : List String) (j : Nat)
    (hj : j ≤ dst.length) (h : dst.length < j + vs.length) : fillStrings dst j vs = none := by
  induction vs generalizing dst j with
  | nil => simp at h; omega
  | cons v vs ih =>
    simp only [List.length_cons] at h
    by_cases hlt : j < dst.length
    · simp only [fillStrings, hlt, if_true]
      exact ih _ _ (by simp only [List.length_set]; omega) (by simp only [List.length_set]; omega)
    · simp [fillStrings, hlt]

theorem buildNode_volumes (ha : Bool) (t : TfNode) (n : Nodes)
    (hrep : ¬ (ha = true ∧ t.count = 1)) :
    (t.volumes.length ≤ t.volumesfrom.length →
      (buildNode ha t n).2 = none ∧
      (buildNode ha t n).1.Volumes = t.volumes.map strOrEmpty ∧
      (buildNode ha t n).1.Volumesfrom
        = t.volumes.map strOrEmpty
          ++ List.replicate (t.volumesfrom.length - t.volumes.length) "") ∧
    (t.volumesfrom.length < t.volumes.length → (buildNode ha t n).2 = some .panic) := by
  have hc : (ha && t.count == 1) = false := by
    cases ha <;> simp_all
  have h1 := fillStrings_replicate t.volumes t.volumes.length (Nat.le_refl _)
  constructor
  · intro hle
    have h2 := fillStrings_replicate t.volumes t.volumesfrom.length hle
    unfold buildNode
    simp only [hc, h1, h2]
    simp
  · intro hlt
    have h2 := fillStrings_none t.volumes (List.replicate t.volumesfrom.length "") 0
      (Nat.zero_le _) (by simpa using hlt)
    unfold buildNode
    simp only [hc, h1, h2]
    simp

theorem intOfFloat_in_range (rt : Runtime) (n : Int)
    (h : -9223372036854775808 ≤ n ∧ n < 9223372036854775808) : intOfFloat rt n = n := by
  unfold intOfFloat
  simp only [h, and_self, if_true]

theorem flattenNodeList_append (rt : Runtime) (nodegroups : List Dyn) (xs ys : List Dyn)
    (fx fy : List FlatNode) (hx : flattenNodeList rt nodegroups xs = some fx)
    (hy : flattenNodeList rt nodegroups ys = some fy) :
    flattenNodeList rt nodegroups (xs ++ ys) = some (fx ++ fy) := by
  induction xs generalizing fx with
  | nil =>
    simp only [flattenNodeList, Option.some.injEq] at hx
    subst hx
    simpa using hy
  | cons x xs ih =>
    simp only [flattenNodeList] at hx
    cases h1 : flattenNode rt nodegroups x with
    | none => simp [h1] at hx
    | some f =>
      cases h2 : flattenNodeList rt nodegroups xs with
      | none => simp [h1, h2] at hx
      | some fs =>
        simp only [h1, h2, Option.some.injEq] at hx
        subst hx
        have ih2 := ih fs h2
        simp only [List.cons_append, flattenNodeList, h1]
        rw [show xs.append ys = xs ++ ys from rfl, ih2]

theorem flattenData_at (rt : Runtime) (nodegroups : List Dyn) (before after : List Dyn)
    (fb fa : List FlatNode) (node : Dyn) (flat : FlatNode)
    (hn : flattenNode rt nodegroups node = some flat)
    (hb : flattenCreateEnvironmentNodesData rt (some before) nodegroups = some (.nodes fb))
    (ha : flattenCreateEnvironmentNodesData rt (some after) nodegroups = some (.nodes fa)) :
    flattenCreateEnvironmentNodesData rt (some (before ++ node :: after)) nodegroups
      = some (.nodes (fb ++ flat :: fa)) := by
  unfold flattenCreateEnvironmentNodesData at hb ha ⊢
  simp only [] at hb ha ⊢
  cases h1 : flattenNodeList rt nodegroups before with
  | none => simp [h1] at hb
  | some xb =>
    cases h2 : flattenNodeList rt nodegroups after with
    | none => simp [h2] at ha
    | some xa =>
      simp only [h1, Option.some.injEq, Flattened.nodes.injEq] at hb
      simp only [h2, Option.some.injEq, Flattened.nodes.injEq] at ha
      subst hb ha
      have h3 : flattenNodeList rt nodegroups (node :: after) = some (flat :: xa) := by
        simp only [flattenNodeList, hn, h2]
      rw [flattenNodeList_append rt nodegroups before (node :: after) xb (flat :: xa) h1 h3]

/-! ## Claims -/

/-- C1: the run of create does not end with the diagnostic "Incorrect appid format"
exactly when the declared appid has 32 characters, all of them in `[a-z0-9]`; when it
does end with it, no remote call was made and the request's appid is unset. -/
theorem C1_appid_check_iff (sp : Option Dyn → String) (m : Client) (remote : Remote)
    (cfg : Config) (d : ResourceData) :
    ((resourceJelasticCreateEnvironmentCreate sp m remote cfg d).outcome ≠ .ret [appidDiag] ↔
      (cfg.appid.length = 32 ∧
        ∀ c ∈ cfg.appid.data, ('a' ≤ c ∧ c ≤ 'z') ∨ ('0' ≤ c ∧ c ≤ '9'))) ∧
    ((resourceJelasticCreateEnvironmentCreate sp m remote cfg d).outcome = .ret [appidDiag] →
      (resourceJelasticCreateEnvironmentCreate sp m remote cfg d).calls = [] ∧
      (resourceJelasticCreateEnvironmentCreate sp m remote cfg d).createenv.Appid = "") := by
  rw [← appid_valid_iff]
  by_cases hv : (matchClassStar lowerAlnum cfg.appid && cfg.appid.length == APPID_LENGTH) = true
  · have hne : (resourceJelasticCreateEnvironmentCreate sp m remote cfg d).outcome
        ≠ .ret [appidDiag] := by
      intro h
      unfold resourceJelasticCreateEnvironmentCreate at h
      split at h
      · rename_i run hb
        exact createBuild_summary m remote cfg d run appidDiag hb h rfl hv
      · rename_i ce calls hb
        have := createSubmit_summary sp m remote d ce calls appidDiag h
        simp [appidDiag] at this
    exact ⟨⟨fun _ => hv, fun _ => hne⟩, fun h => absurd h hne⟩
  · have hrun : resourceJelasticCreateEnvironmentCreate sp m remote cfg d =
        { outcome := .ret [appidDiag], d := d, calls := [],
          createenv := { Nodes := initObjRefsWithPreallocation cfg.nodes.length } } := by
      simp only [resourceJelasticCreateEnvironmentCreate, createBuild, hv]
      simp
    rw [hrun]
    simp [hv]

/-- C2: once create has accepted the region, the run does not end with the short
domain diagnostic exactly when the declared short domain `s` has between 5 and 41
characters, all in `[a-zA-Z0-9-]`; then the settings hold `s`, and otherwise the run
ends with that diagnostic, the settings' shortdomain unset and getregions the only
call made. -/
theorem C2_shortdomain_check_iff (sp : Option Dyn → String) (m : Client) (remote : Remote)
    (cfg : Config) (d : ResourceData) (tf_env_data : List (String × Dyn)) (rest : List Dyn)
    (ha : Bool) (body : Dyn) (regions : List RegionEntry) (r s : String)
    (happ : cfg.appid.length = 32 ∧
      ∀ c ∈ cfg.appid.data, ('a' ≤ c ∧ c ≤ 'z') ∨ ('0' ≤ c ∧ c ≤ '9'))
    (henv : cfg.environment = .obj tf_env_data :: rest)
    (hha : tf_env_data.lookup "ishaenabled" = some (.bool ha))
    (hreg : tf_env_data.lookup "region" = some (.str r))
    (hresp : remote (getregionsCall m) = some body)
    (hcode : field body "result" = some (.num 0))
    (harr : field body "array" = some (.arr (regions.map RegionEntry.toDyn)))
    (hacc : ∃ g ∈ allGroups regions, g.isEnabled = .bool true ∧ g.uniqueName = r)
    (hs : tf_env_data.lookup "shortdomain" = some (.str s)) :
    ((resourceJelasticCreateEnvironmentCreate sp m remote cfg d).outcome
        ≠ .ret [shortdomainDiag] ↔
      (5 ≤ s.length ∧ s.length ≤ 41 ∧
        ∀ c ∈ s.data, ('a' ≤ c ∧ c ≤ 'z') ∨ ('A' ≤ c ∧ c ≤ 'Z') ∨ ('0' ≤ c ∧ c ≤ '9') ∨
          c = '-')) ∧
    ((resourceJelasticCreateEnvironmentCreate sp m remote cfg d).outcome
        ≠ .ret [shortdomainDiag] →
      (resourceJelasticCreateEnvironmentCreate sp m remote cfg d).createenv.Environment.Shortdomain
        = s) ∧
    ((resourceJelasticCreateEnvironmentCreate sp m remote cfg d).outcome
        = .ret [shortdomainDiag] →
      (resourceJelasticCreateEnvironmentCreate sp m remote cfg d).createenv.Environment.Shortdomain
        = "" ∧
      (resourceJelasticCreateEnvironmentCreate sp m remote cfg d).calls = [getregionsCall m]) := by
  have hv := (appid_valid_iff cfg.appid).2 happ
  have hacc' : ∃ g ∈ allGroups regions, g.enabled = true ∧ g.uniqueName = r := by
    obtain ⟨g, hg, he, hu⟩ := hacc
    exact ⟨g, hg, (enabled_iff g).2 he, hu⟩
  obtain ⟨msg1, hscan⟩ := scanRegions_match r regions "" hacc'
  have hcb := createBuild_accepted m remote cfg d tf_env_data rest ha body _ r msg1 hv henv hha
    hreg hresp hcode harr hscan
  rw [← shortdomain_valid_iff]
  by_cases hok : (matchClassStar alnumHyphen s && decide (s.utf8ByteSize ≥ SHORTDOMAIN_MIN_LENGTH)
        && decide (s.utf8ByteSize ≤ SHORTDOMAIN_MAX_LENGTH)) = true
  · have key : (resourceJelasticCreateEnvironmentCreate sp m remote cfg d).outcome
          ≠ .ret [shortdomainDiag] ∧
        (resourceJelasticCreateEnvironmentCreate sp m remote cfg d).createenv.Environment.Shortdomain
          = s := by
      unfold resourceJelasticCreateEnvironmentCreate
      rw [hcb]
      split
      · rename_i run hb
        exact createBuildNodes_shortdomain_error _ _ _ _ _ _ s hs hok run hb
      · rename_i ce1 calls1 hb
        refine ⟨fun h => ?_, ?_⟩
        · have := createSubmit_summary sp m remote d ce1 calls1 shortdomainDiag h
          simp [shortdomainDiag] at this
        · rw [createSubmit_createenv]
          exact createBuildNodes_shortdomain_ok _ _ _ _ _ _ s hs ce1 calls1 hb
    exact ⟨⟨fun _ => hok, fun _ => key.1⟩, fun _ => key.2, fun h => absurd h key.1⟩
  · have hrun : resourceJelasticCreateEnvironmentCreate sp m remote cfg d =
        { outcome := .ret [shortdomainDiag], d := d, calls := [getregionsCall m],
          createenv := { requestAtRegions m cfg ha with
            Environment := { (requestAtRegions m cfg ha).Environment with Region := r } } } := by
      unfold resourceJelasticCreateEnvironmentCreate
      rw [hcb, createBuildNodes_shortdomain_bad _ _ _ _ _ _ s hs hok]
    rw [hrun]
    simp [hok, requestAtRegions]

/-- C3: once create has a well-formed region list from getregions, the requested
region `r` is accepted (the run does not end with "Wrong region selected") exactly when
some hardware node group has `isEnabled = true` and `uniqueName = r`; on acceptance the
region of the environment settings is `r`. -/
theorem C3_region_accepted_iff (sp : Option Dyn → String) (m : Client) (remote : Remote)
    (cfg : Config) (d : ResourceData) (tf_env_data : List (String × Dyn)) (rest : List Dyn)
    (ha : Bool) (body : Dyn) (regions : List RegionEntry) (r : String)
    (happ : cfg.appid.length = 32 ∧
      ∀ c ∈ cfg.appid.data, ('a' ≤ c ∧ c ≤ 'z') ∨ ('0' ≤ c ∧ c ≤ '9'))
    (henv : cfg.environment = .obj tf_env_data :: rest)
    (hha : tf_env_data.lookup "ishaenabled" = some (.bool ha))
    (hreg : tf_env_data.lookup "region" = some (.str r))
    (hresp : remote (getregionsCall m) = some body)
    (hcode : field body "result" = some (.num 0))
    (harr : field body "array" = some (.arr (regions.map RegionEntry.toDyn))) :
    ((∀ msg, (resourceJelasticCreateEnvironmentCreate sp m remote cfg d).outcome
        ≠ .ret [wrongRegionDiag msg]) ↔
      ∃ g ∈ allGroups regions, g.isEnabled = .bool true ∧ g.uniqueName = r) ∧
    ((∃ g ∈ allGroups regions, g.isEnabled = .bool true ∧ g.uniqueName = r) →
      (resourceJelasticCreateEnvironmentCreate sp m remote cfg d).createenv.Environment.Region
        = r) := by
  have hv := (appid_valid_iff cfg.appid).2 happ
  by_cases hm : ∃ g ∈ allGroups regions, g.isEnabled = .bool true ∧ g.uniqueName = r
  · have hm' : ∃ g ∈ allGroups regions, g.enabled = true ∧ g.uniqueName = r := by
      obtain ⟨g, hg, he, hu⟩ := hm
      exact ⟨g, hg, (enabled_iff g).2 he, hu⟩
    obtain ⟨msg1, hscan⟩ := scanRegions_match r regions "" hm'
    have hcb := createBuild_accepted m remote cfg d tf_env_data rest ha body _ r msg1 hv henv hha
      hreg hresp hcode harr hscan
    have key : (∀ msg, (resourceJelasticCreateEnvironmentCreate sp m remote cfg d).outcome
        ≠ .ret [wrongRegionDiag msg]) ∧
        (resourceJelasticCreateEnvironmentCreate sp m remote cfg d).createenv.Environment.Region
          = r := by
      unfold resourceJelasticCreateEnvironmentCreate
      rw [hcb]
      split
      · rename_i run hb
        refine ⟨fun msg h => ?_, ?_⟩
        · rcases createBuildNodes_outcome _ _ _ _ _ _ _ hb with h1 | h1 | h1 | h1 | h1
          all_goals rw [h1] at h
          all_goals simp [wrongRegionDiag, shortdomainTypeDiag, shortdomainDiag, wrongTypeDiag,
            replicaDiag] at h
        · rw [(createBuildNodes_frame_error _ _ _ _ _ _ _ hb).1]
      · rename_i ce1 calls1 hb
        refine ⟨fun msg h => ?_, ?_⟩
        · have := createSubmit_summary sp m remote d ce1 calls1 _ h
          simp [wrongRegionDiag] at this
        · rw [createSubmit_createenv, (createBuildNodes_frame_ok _ _ _ _ _ _ _ _ hb).1]
    exact ⟨⟨fun _ => hm, fun _ => key.1⟩, fun _ => key.2⟩
  · have hno : ∀ g ∈ allGroups regions, g.enabled = true → g.uniqueName ≠ r :=
      fun g hg he hu => hm ⟨g, hg, (enabled_iff g).1 he, hu⟩
    have hscan := scanRegions_no_match r regions "" hno
    have hcb := createBuild_rejected m remote cfg d tf_env_data rest ha body _ r _ hv henv hha
      hreg hresp hcode harr hscan
    refine ⟨⟨fun h => ?_, fun h => absurd h hm⟩, fun h => absurd h hm⟩
    exfalso
    apply h (String.append "" (enumerateCandidates ((allGroups regions).filter HardNodeGroup.enabled)))
    unfold resourceJelasticCreateEnvironmentCreate
    rw [hcb]
    rfl

/-- C4: when no enabled hardware node group of the region list has the requested
unique name, create ends with "Wrong region selected"; the detail is the fixed
introduction followed by display name and unique name of every enabled group, in the
order regions then groups, and of no other group; getregions is the only call made. -/
theorem C4_wrong_region_detail (sp : Option Dyn → String) (m : Client) (remote : Remote)
    (cfg : Config) (d : ResourceData) (tf_env_data : List (String × Dyn)) (rest : List Dyn)
    (ha : Bool) (body : Dyn) (regions : List RegionEntry) (r : String)
    (happ : cfg.appid.length = 32 ∧
      ∀ c ∈ cfg.appid.data, ('a' ≤ c ∧ c ≤ 'z') ∨ ('0' ≤ c ∧ c ≤ '9'))
    (henv : cfg.environment = .obj tf_env_data :: rest)
    (hha : tf_env_data.lookup "ishaenabled" = some (.bool ha))
    (hreg : tf_env_data.lookup "region" = some (.str r))
    (hresp : remote (getregionsCall m) = some body)
    (hcode : field body "result" = some (.num 0))
    (harr : field body "array" = some (.arr (regions.map RegionEntry.toDyn)))
    (hno : ∀ g ∈ allGroups regions, g.isEnabled = .bool true → g.uniqueName ≠ r) :
    (resourceJelasticCreateEnvironmentCreate sp m remote cfg d).outcome =
      .ret [{ Severity := .Error
              Summary := "Wrong region selected"
              Detail := "Selected region unknown, please use one of these regions instead : "
                ++ enumerateCandidates ((allGroups regions).filter HardNodeGroup.enabled) }] ∧
    (resourceJelasticCreateEnvironmentCreate sp m remote cfg d).calls = [getregionsCall m] ∧
    (resourceJelasticCreateEnvironmentCreate sp m remote cfg d).d.id = d.id := by
  have hv := (appid_valid_iff cfg.appid).2 happ
  have hno' : ∀ g ∈ allGroups regions, g.enabled = true → g.uniqueName ≠ r :=
    fun g hg he => hno g hg ((enabled_iff g).1 he)
  have hscan := scanRegions_no_match r regions "" hno'
  have hcb := createBuild_rejected m remote cfg d tf_env_data rest ha body _ r _ hv henv hha
    hreg hresp hcode harr hscan
  unfold resourceJelasticCreateEnvironmentCreate
  rw [hcb]
  simp [wrongRegionDiag]

/-- Witness of C2 at the short domain "ab", too short: the hypotheses hold for the
sample configuration and the run ends with the short domain diagnostic. -/
theorem C2_shortdomain_check_iff_witness :
    (resourceJelasticCreateEnvironmentCreate sampleSprint sampleClient (sampleRemote none)
        (sampleConfig false "us-east" "ab" []) {}).outcome = .ret [shortdomainDiag] ∧
    ((resourceJelasticCreateEnvironmentCreate sampleSprint sampleClient (sampleRemote none)
        (sampleConfig false "us-east" "ab" []) {}).outcome ≠ .ret [shortdomainDiag] ↔
      (5 ≤ "ab".length ∧ "ab".length ≤ 41 ∧
        ∀ c ∈ "ab".data, ('a' ≤ c ∧ c ≤ 'z') ∨ ('A' ≤ c ∧ c ≤ 'Z') ∨ ('0' ≤ c ∧ c ≤ '9') ∨
          c = '-')) :=
  ⟨by decide,
   (C2_shortdomain_check_iff sampleSprint sampleClient (sampleRemote none)
      (sampleConfig false "us-east" "ab" []) {} (sampleEnvBlock false "us-east" "ab") [] false
      sampleRegionsBody sampleRegions "us-east" "ab" sample_appid_ok rfl rfl rfl rfl rfl rfl
      ⟨_, List.mem_singleton.2 rfl, rfl, rfl⟩ rfl).1⟩

/-- Witness of C3: region "us-east" of the sample list is accepted. -/
theorem C3_region_accepted_iff_witness :
    (resourceJelasticCreateEnvironmentCreate sampleSprint sampleClient (sampleRemote none)
        (sampleConfig false "us-east" "my-env" []) {}).createenv.Environment.Region = "us-east" :=
  (C3_region_accepted_iff sampleSprint sampleClient (sampleRemote none)
      (sampleConfig false "us-east" "my-env" []) {} (sampleEnvBlock false "us-east" "my-env") []
      false sampleRegionsBody sampleRegions "us-east" sample_appid_ok rfl rfl rfl rfl rfl rfl).2
    ⟨_, List.mem_singleton.2 rfl, rfl, rfl⟩

/-- Witness of C4, the scenario of the specification: the only group is the enabled
"us-east" and "us-west" is requested; the detail lists "us-east" and nothing else. -/
theorem C4_wrong_region_detail_witness :
    (resourceJelasticCreateEnvironmentCreate sampleSprint sampleClient (sampleRemote none)
        (sampleConfig false "us-west" "my-env" []) {}).outcome =
      .ret [{ Severity := .Error
              Summary := "Wrong region selected"
              Detail := "Selected region unknown, please use one of these regions instead : Region: us-east, value: us-east " }] :=
  (C4_wrong_region_detail sampleSprint sampleClient (sampleRemote none)
      (sampleConfig false "us-west" "my-env" []) {} (sampleEnvBlock false "us-west" "my-env") []
      false sampleRegionsBody sampleRegions "us-west" sample_appid_ok rfl rfl rfl rfl rfl rfl
      (by
        intro g hg _
        rw [List.mem_singleton.1 hg]
        decide)).1

/-- C5, counterexample: with highAvailability set and a single node of count 1 the
run ends with the replica diagnostic, but the log of remote calls is not empty: the
getregions call was made before the node loop. -/
theorem C5_counterexample :
    List.lookup "ishaenabled" (sampleEnvBlock true "us-east" "my-env") = some (.bool true) ∧
    (sampleConfig true "us-east" "my-env" [{ count := 1 }]).nodes.map (fun n => n.count) = [1] ∧
    (resourceJelasticCreateEnvironmentCreate sampleSprint sampleClient (sampleRemote none)
        (sampleConfig true "us-east" "my-env" [{ count := 1 }]) {}).outcome
      = .ret [replicaDiag] ∧
    (resourceJelasticCreateEnvironmentCreate sampleSprint sampleClient (sampleRemote none)
        (sampleConfig true "us-east" "my-env" [{ count := 1 }]) {}).calls
      = [{ endpoint := "environment/control/rest/getregions"
           query := [("appid", [.text "1dd8d191d38fff45e62564fcf67fdcd6"]),
                     ("session", [.text "tok"])] }] ∧
    (resourceJelasticCreateEnvironmentCreate sampleSprint sampleClient (sampleRemote none)
        (sampleConfig true "us-east" "my-env" [{ count := 1 }]) {}).calls ≠ [] := by
  refine ⟨rfl, rfl, by decide, by decide, by decide⟩

/-- C5, amended: with highAvailability set and a node of count 1, once the earlier
steps of create have passed (appid, getregions and region, short domain, sslstate, and
no out-of-range volume write in the nodes before it), the run ends with the replica
diagnostic; getregions is the only remote call made, so neither createenvironment nor
getenvinfo is called, and the resource data is untouched. -/
theorem C5_replica_error_after_getregions (sp : Option Dyn → String) (m : Client)
    (remote : Remote) (cfg : Config) (d : ResourceData) (tf_env_data : List (String × Dyn))
    (rest : List Dyn) (body : Dyn) (regions : List RegionEntry) (r s : String) (ssl : Bool)
    (pre post : List TfNode) (t : TfNode)
    (happ : cfg.appid.length = 32 ∧
      ∀ c ∈ cfg.appid.data, ('a' ≤ c ∧ c ≤ 'z') ∨ ('0' ≤ c ∧ c ≤ '9'))
    (henv : cfg.environment = .obj tf_env_data :: rest)
    (hha : tf_env_data.lookup "ishaenabled" = some (.bool true))
    (hreg : tf_env_data.lookup "region" = some (.str r))
    (hresp : remote (getregionsCall m) = some body)
    (hcode : field body "result" = some (.num 0))
    (harr : field body "array" = some (.arr (regions.map RegionEntry.toDyn)))
    (hacc : ∃ g ∈ allGroups regions, g.isEnabled = .bool true ∧ g.uniqueName = r)
    (hs : tf_env_data.lookup "shortdomain" = some (.str s))
    (hsok : 5 ≤ s.length ∧ s.length ≤ 41 ∧
      ∀ c ∈ s.data, ('a' ≤ c ∧ c ≤ 'z') ∨ ('A' ≤ c ∧ c ≤ 'Z') ∨ ('0' ≤ c ∧ c ≤ '9') ∨ c = '-')
    (hssl : tf_env_data.lookup "sslstate" = some (.bool ssl))
    (hnodes : cfg.nodes = pre ++ t :: post)
    (hpre : ∀ p ∈ pre, p.volumes.length ≤ p.volumesfrom.length)
    (ht : t.count = 1) :
    (resourceJelasticCreateEnvironmentCreate sp m remote cfg d).outcome = .ret [replicaDiag] ∧
    (resourceJelasticCreateEnvironmentCreate sp m remote cfg d).calls = [getregionsCall m] ∧
    (resourceJelasticCreateEnvironmentCreate sp m remote cfg d).d = d := by
  have hv := (appid_valid_iff cfg.appid).2 happ
  have hacc' : ∃ g ∈ allGroups regions, g.enabled = true ∧ g.uniqueName = r := by
    obtain ⟨g, hg, he, hu⟩ := hacc
    exact ⟨g, hg, (enabled_iff g).2 he, hu⟩
  obtain ⟨msg1, hscan⟩ := scanRegions_match r regions "" hacc'
  have hcb := createBuild_accepted m remote cfg d tf_env_data rest true body _ r msg1 hv henv hha
    hreg hresp hcode harr hscan
  have hok := (shortdomain_valid_iff s).2 hsok
  have hfn := fillNodes_replica pre t post (initObjRefsWithPreallocation cfg.nodes.length)
    (by simp [initObjRefsWithPreallocation, hnodes]) hpre ht
  unfold resourceJelasticCreateEnvironmentCreate
  rw [hcb, createBuildNodes_at_nodes _ _ _ _ _ _ s ssl hs hok hssl]
  rw [← hnodes] at hfn
  simp only [requestAtRegions]
  rcases hfn' : fillNodes true cfg.nodes (initObjRefsWithPreallocation cfg.nodes.length)
    with ⟨nodes, o⟩
  rw [hfn'] at hfn
  simp only at hfn
  subst hfn
  exact ⟨rfl, rfl, rfl⟩

/-- Witness of the amended C5 on the sample configuration with one node of count 1. -/
theorem C5_replica_error_after_getregions_witness :
    (resourceJelasticCreateEnvironmentCreate sampleSprint sampleClient (sampleRemote none)
        (sampleConfig true "us-east" "my-env" [{ count := 1 }]) {}).calls
      = [getregionsCall sampleClient] :=
  (C5_replica_error_after_getregions sampleSprint sampleClient (sampleRemote none)
      (sampleConfig true "us-east" "my-env" [{ count := 1 }]) {}
      (sampleEnvBlock true "us-east" "my-env") [] sampleRegionsBody sampleRegions "us-east"
      "my-env" false [] [] { count := 1 } sample_appid_ok rfl rfl rfl rfl rfl rfl
      ⟨_, List.mem_singleton.2 rfl, rfl, rfl⟩ rfl (by decide) rfl rfl
      (fun _ h => absurd h (List.not_mem_nil _)) rfl).2.1

/-- C6, the code at the failing inputs: with highAvailability set, a declared count of
0 passes the check and is submitted as count 0, and a declared count of 257 passes the
check and is submitted as count 1 after the narrowing to 8 bits. -/
theorem C6_ha_submits_count_below_two :
    (resourceJelasticCreateEnvironmentCreate sampleSprint sampleClient
        (sampleRemote (some (sampleCreated "env-1")))
        (sampleConfig true "us-east" "my-env" [{ count := 0 }]) {}).calls.map
        (fun c => (c.endpoint, c.query.lookup "env", c.query.lookup "nodes"))
      = [ ("environment/control/rest/getregions", none, none),
          ("environment/control/rest/createenvironment",
            some [.envJson { Ishaenabled := true, Region := "us-east", Shortdomain := "my-env" }],
            some [.nodesJson [{ Count := 0, Fixedcloudlets := 1, Flexiblecloudlets := 4,
                                Restartdelay := 30, Scalingmode := "STATEFUL" }]]),
          ("environment/control/rest/getenvinfo", none, none) ] ∧
    (resourceJelasticCreateEnvironmentCreate sampleSprint sampleClient
        (sampleRemote (some (sampleCreated "env-1")))
        (sampleConfig true "us-east" "my-env" [{ count := 257 }]) {}).calls.map
        (fun c => (c.endpoint, c.query.lookup "env", c.query.lookup "nodes"))
      = [ ("environment/control/rest/getregions", none, none),
          ("environment/control/rest/createenvironment",
            some [.envJson { Ishaenabled := true, Region := "us-east", Shortdomain := "my-env" }],
            some [.nodesJson [{ Count := 1, Fixedcloudlets := 1, Flexiblecloudlets := 4,
                                Restartdelay := 30, Scalingmode := "STATEFUL" }]]),
          ("environment/control/rest/getenvinfo", none, none) ] := by
  refine ⟨by decide, by decide⟩

/-- C7: when create reaches the submission and createenvironment answers
`{response: {result, ...}}`: for result 2314 with a string `error` the run ends with
"API request failed" and the error string verbatim as detail; for any other non-zero
result it ends with the detail "Incorrect value in fields"; in both cases the resource
data, identity included, is untouched. For result 0 with a string `name` the identity
is that name, whatever short domain was declared. -/
theorem C7_createenvironment_answer (sp : Option Dyn → String) (m : Client) (remote : Remote)
    (cfg : Config) (d : ResourceData) (ce : Createenvironment) (calls : List Call)
    (body : Dyn) (resp : List (String × Dyn)) (code : Int)
    (hb : createBuild m remote cfg d = .ok (ce, calls))
    (hresp : remote (createenvironmentCall m ce) = some body)
    (hr : field body "response" = some (.obj resp))
    (hcode : resp.lookup "result" = some (.num code)) :
    (code = 2314 → ∀ e, resp.lookup "error" = some (.str e) →
      (resourceJelasticCreateEnvironmentCreate sp m remote cfg d).outcome =
        .ret [{ Severity := .Error, Summary := "API request failed", Detail := e }] ∧
      (resourceJelasticCreateEnvironmentCreate sp m remote cfg d).d = d) ∧
    (code ≠ 2314 → code ≠ 0 →
      (resourceJelasticCreateEnvironmentCreate sp m remote cfg d).outcome =
        .ret [{ Severity := .Error, Summary := "API request failed",
                Detail := "Incorrect value in fields" }] ∧
      (resourceJelasticCreateEnvironmentCreate sp m remote cfg d).d = d) ∧
    (code = 0 → ∀ name, resp.lookup "name" = some (.str name) →
      (resourceJelasticCreateEnvironmentCreate sp m remote cfg d).d.id = name) := by
  refine ⟨fun h e he => ?_, fun h h0 => ?_, fun h name hname => ?_⟩
  · have hne : code ≠ 0 := by omega
    unfold resourceJelasticCreateEnvironmentCreate
    rw [hb]
    simp only
    rw [createSubmit_rejected sp m remote d ce calls body resp code hresp hr hcode hne]
    simp [h, he, fmtSprint, apiFailedDiag]
  · unfold resourceJelasticCreateEnvironmentCreate
    rw [hb]
    simp only
    rw [createSubmit_rejected sp m remote d ce calls body resp code hresp hr hcode h0]
    simp [h, apiFailedDiag]
  · subst h
    unfold resourceJelasticCreateEnvironmentCreate
    rw [hb]
    simp only
    rw [createSubmit_created sp m remote d ce calls body resp name hresp hr hcode hname]
    simp only [read_d_id]
    rfl

/-- Witness of C7, the scenario of the specification: createenvironment answers
result 2314 with error "quota exceeded"; the detail is exactly "quota exceeded" and no
identity is set. -/
theorem C7_createenvironment_answer_witness :
    (resourceJelasticCreateEnvironmentCreate sampleSprint sampleClient
        (sampleRemote (some (sampleRejected "quota exceeded")))
        (sampleConfig false "us-east" "my-env" [{}]) {}).outcome =
      .ret [{ Severity := .Error, Summary := "API request failed",
              Detail := "quota exceeded" }] ∧
    (resourceJelasticCreateEnvironmentCreate sampleSprint sampleClient
        (sampleRemote (some (sampleRejected "quota exceeded")))
        (sampleConfig false "us-east" "my-env" [{}]) {}).d.id = "" :=
  have h := (C7_createenvironment_answer sampleSprint sampleClient
      (sampleRemote (some (sampleRejected "quota exceeded")))
      (sampleConfig false "us-east" "my-env" [{}]) {} _ _
      (sampleRejected "quota exceeded")
      [("result", .num 2314), ("error", .str "quota exceeded")] 2314
      rfl rfl rfl rfl).1 rfl "quota exceeded" rfl
  ⟨h.1, congrArg ResourceData.id h.2⟩

/-- C8, counterexample: the declared owneruid 4294967296 is non-zero, yet it is
narrowed to 0 by the 32-bit field and the createenvironment request carries no
`owneruid` parameter. -/
theorem C8_counterexample :
    ({ sampleConfig false "us-east" "my-env" [{}] with owneruid := 4294967296 } : Config).owneruid
      ≠ 0 ∧
    (resourceJelasticCreateEnvironmentCreate sampleSprint sampleClient
        (sampleRemote (some (sampleCreated "env-1")))
        { sampleConfig false "us-east" "my-env" [{}] with owneruid := 4294967296 } {}).calls.map
        (fun c => (c.endpoint, c.query.lookup "owneruid"))
      = [ ("environment/control/rest/getregions", none),
          ("environment/control/rest/createenvironment", none),
          ("environment/control/rest/getenvinfo", none) ] := by
  refine ⟨by decide, by decide⟩

/-- C8, amended: when create reaches the submission, the createenvironment request is
the call logged after getregions, and in its parameters `actionkey` is present exactly
when the declared actionkey is non-empty and `envgroups` exactly when the declared
envgroups is non-empty, each with the declared value; `appid`, `session`, `env` and
`nodes` are always present. The `owneruid` parameter is present exactly when the
declared owneruid narrowed to 32 bits is non-zero, as the decimal rendering of the
narrowed value; for a declared owneruid between 0 and 4294967295 it is therefore
present exactly when the declared owneruid is non-zero, as its decimal rendering. -/
theorem C8_optional_parameters (sp : Option Dyn → String) (m : Client) (remote : Remote)
    (cfg : Config) (d : ResourceData) (ce : Createenvironment) (calls : List Call)
    (hb : createBuild m remote cfg d = .ok (ce, calls)) :
    (∃ tail, (resourceJelasticCreateEnvironmentCreate sp m remote cfg d).calls
      = getregionsCall m :: createenvironmentCall m ce :: tail) ∧
    (createenvironmentCall m ce).endpoint = "environment/control/rest/createenvironment" ∧
    (createenvironmentCall m ce).query.lookup "actionkey"
      = (if cfg.actionkey = "" then none else some [.text cfg.actionkey]) ∧
    (createenvironmentCall m ce).query.lookup "envgroups"
      = (if cfg.envgroups = "" then none else some [.text cfg.envgroups]) ∧
    (createenvironmentCall m ce).query.lookup "appid" = some [.text PLATFORM_APPID] ∧
    (createenvironmentCall m ce).query.lookup "session" = some [.text m.Token] ∧
    (createenvironmentCall m ce).query.lookup "env" = some [.envJson ce.Environment] ∧
    (createenvironmentCall m ce).query.lookup "nodes" = some [.nodesJson ce.Nodes] ∧
    (createenvironmentCall m ce).query.lookup "owneruid"
      = (if (cfg.owneruid % 4294967296).toNat = 0 then none
         else some [.text (toString (cfg.owneruid % 4294967296).toNat)]) ∧
    (0 ≤ cfg.owneruid ∧ cfg.owneruid < 4294967296 →
      (createenvironmentCall m ce).query.lookup "owneruid"
        = (if cfg.owneruid = 0 then none else some [.text (toString cfg.owneruid)])) := by
  obtain ⟨h1, h2, h3, h4, h5, h6⟩ := createBuild_top_ok m remote cfg d ce calls hb
  obtain ⟨l1, l2, l3, l4, l5, l6, l7⟩ := createenvironmentCall_lookup m ce
  refine ⟨?_, rfl, ?_, ?_, l4, l5, l6, l7, ?_, ?_⟩
  · obtain ⟨tail, ht⟩ := createSubmit_calls sp m remote d ce calls
    refine ⟨tail, ?_⟩
    unfold resourceJelasticCreateEnvironmentCreate
    rw [hb]
    simp only
    rw [ht, h6]
    rfl
  · rw [l1, h1]
  · rw [l3, h3]
  · rw [l2, h2]
  · intro huid
    obtain ⟨n, hn⟩ : ∃ n : Nat, cfg.owneruid = (n : Int) := ⟨cfg.owneruid.toNat, by omega⟩
    have hn2 : (cfg.owneruid % 4294967296).toNat = n := by omega
    rw [l2, h2, hn2, hn]
    by_cases h0 : n = 0
    · simp [h0]
    · have : ¬ ((n : Int) = 0) := by omega
      simp only [h0, this, if_false]
      rfl

/-- Witness of the amended C8: declared actionkey "k", owneruid 7, no envgroups. -/
theorem C8_optional_parameters_witness :
    (resourceJelasticCreateEnvironmentCreate sampleSprint sampleClient
        (sampleRemote (some (sampleCreated "env-1")))
        { sampleConfig false "us-east" "my-env" [{}] with actionkey := "k", owneruid := 7 }
        {}).calls.map
        (fun c => (c.endpoint, c.query.lookup "actionkey", c.query.lookup "owneruid",
          c.query.lookup "envgroups"))
      = [ ("environment/control/rest/getregions", none, none, none),
          ("environment/control/rest/createenvironment", some [.text "k"], some [.text "7"], none),
          ("environment/control/rest/getenvinfo", none, none, none) ] ∧
    (∃ tail, (resourceJelasticCreateEnvironmentCreate sampleSprint sampleClient
        (sampleRemote (some (sampleCreated "env-1")))
        { sampleConfig false "us-east" "my-env" [{}] with actionkey := "k", owneruid := 7 }
        {}).calls = getregionsCall sampleClient :: createenvironmentCall sampleClient
          { Actionkey := "k", Appid := PLATFORM_APPID,
            Environment := { Region := "us-east", Shortdomain := "my-env" },
            Nodes := [{ Count := 1, Fixedcloudlets := 1, Flexiblecloudlets := 4,
                        Restartdelay := 30, Scalingmode := "STATEFUL" }],
            Owneruid := 7, Session := "tok" } :: tail) :=
  ⟨by decide,
   (C8_optional_parameters sampleSprint sampleClient
      (sampleRemote (some (sampleCreated "env-1")))
      { sampleConfig false "us-east" "my-env" [{}] with actionkey := "k", owneruid := 7 } {}
      _ _ rfl).1⟩

/-- C9, counterexample: createenvironment succeeds with name "env-1" and the read-back
getenvinfo call fails at transport level; create ends with an error diagnostic, yet
the identity, empty before the call, is now "env-1". -/
theorem C9_counterexample :
    (resourceJelasticCreateEnvironmentCreate sampleSprint sampleClient
        (sampleRemote (some (sampleCreated "env-1")))
        (sampleConfig false "us-east" "my-env" [{}]) {}).outcome = .ret [envInfoDiag] ∧
    ({} : ResourceData).id = "" ∧
    (resourceJelasticCreateEnvironmentCreate sampleSprint sampleClient
        (sampleRemote (some (sampleCreated "env-1")))
        (sampleConfig false "us-east" "my-env" [{}]) {}).d.id = "env-1" ∧
    (resourceJelasticCreateEnvironmentCreate sampleSprint sampleClient
        (sampleRemote (some (sampleCreated "env-1")))
        (sampleConfig false "us-east" "my-env" [{}]) {}).d.id ≠ ({} : ResourceData).id := by
  refine ⟨by decide, rfl, by decide, by decide⟩

/-- C9, amended: a run of create that issues no getenvinfo call, that is, one that
stops at a validation, at the getregions call, at the createenvironment call or at the
reading of its answer, is a failure and leaves the resource data (identity and
attributes) as it was. When createenvironment has answered result 0 with a name and
the read-back fails by a transport error or a non-zero result, the run is a failure,
the attributes are as before and the identity is that name. -/
theorem C9_identity_on_failure (sp : Option Dyn → String) (m : Client) (remote : Remote)
    (cfg : Config) (d : ResourceData) :
    ((∀ c ∈ (resourceJelasticCreateEnvironmentCreate sp m remote cfg d).calls,
        c.endpoint ≠ "environment/control/rest/getenvinfo") →
      (resourceJelasticCreateEnvironmentCreate sp m remote cfg d).d = d ∧
      (resourceJelasticCreateEnvironmentCreate sp m remote cfg d).outcome ≠ .ret []) ∧
    (∀ ce calls body resp name,
      createBuild m remote cfg d = .ok (ce, calls) →
      remote (createenvironmentCall m ce) = some body →
      field body "response" = some (.obj resp) →
      resp.lookup "result" = some (.num 0) →
      resp.lookup "name" = some (.str name) →
      (remote (getenvinfoCall m name) = none ∨
        ∃ b code, remote (getenvinfoCall m name) = some b ∧
          field b "result" = some (.num code) ∧ code ≠ 0) →
      (resourceJelasticCreateEnvironmentCreate sp m remote cfg d).outcome ≠ .ret [] ∧
      (resourceJelasticCreateEnvironmentCreate sp m remote cfg d).d.id = name ∧
      (resourceJelasticCreateEnvironmentCreate sp m remote cfg d).d.attrs = d.attrs) := by
  constructor
  · intro h
    unfold resourceJelasticCreateEnvironmentCreate at h ⊢
    cases hb : createBuild m remote cfg d with
    | error run => exact createBuild_error_d m remote cfg d run hb
    | ok p =>
      obtain ⟨ce, calls⟩ := p
      rw [hb] at h
      exact createSubmit_before_read sp m remote d ce calls h
  · intro ce calls body resp name hb hresp hr hcode hname hread
    unfold resourceJelasticCreateEnvironmentCreate
    rw [hb]
    simp only
    rw [createSubmit_created sp m remote d ce calls body resp name hresp hr hcode hname]
    obtain ⟨h1, h2⟩ := read_failed m remote (d.SetId name)
      (calls ++ [createenvironmentCall m ce]) hread
    refine ⟨h2, ?_, ?_⟩
    · simp only [h1]; rfl
    · simp only [h1]; rfl

/-- Witness of the amended C9: a rejected createenvironment leaves the resource data
untouched; a failed read-back after success leaves the identity "env-1". -/
theorem C9_identity_on_failure_witness :
    (resourceJelasticCreateEnvironmentCreate sampleSprint sampleClient
        (sampleRemote (some (sampleRejected "quota exceeded")))
        (sampleConfig false "us-east" "my-env" [{}]) {}).d.id = "" ∧
    (resourceJelasticCreateEnvironmentCreate sampleSprint sampleClient
        (sampleRemote (some (sampleCreated "env-1")))
        (sampleConfig false "us-east" "my-env" [{}]) {}).d.id = "env-1" :=
  ⟨congrArg ResourceData.id
      ((C9_identity_on_failure sampleSprint sampleClient
        (sampleRemote (some (sampleRejected "quota exceeded")))
        (sampleConfig false "us-east" "my-env" [{}]) {}).1 (by decide)).1,
   ((C9_identity_on_failure sampleSprint sampleClient
        (sampleRemote (some (sampleCreated "env-1")))
        (sampleConfig false "us-east" "my-env" [{}]) {}).2 _ _ (sampleCreated "env-1")
        [("result", .num 0), ("name", .str "env-1")] "env-1" rfl rfl rfl rfl rfl
        (Or.inl rfl)).2.1⟩

/-- C10: on a remote environment object, the environment flatten succeeds exactly
when `appid`, `createdOn`, `domain`, `hardwareNodeGroup`, `shortdomain` hold strings,
`ishaenabled` and `sslstate` hold booleans and `hostGroup` holds an object with a
string `uniqueName`; it then returns a one-element list whose record has the keys
appid, createdon, domain, hardwarenodegroup, ishaenabled, region, shortdomain,
sslstate with the values read, region being `hostGroup.uniqueName`; in every other
case the flatten fails. -/
theorem C10_environment_flatten (env : List (String × Dyn)) :
    (∀ v, flattenCreateEnvironmentEnvironmentData (some env) = some v ↔
      ∃ (appid createdon domain hardwarenodegroup : String) (ishaenabled : Bool)
        (hostgroup : List (String × Dyn)) (region shortdomain : String) (sslstate : Bool),
        env.lookup "appid" = some (.str appid) ∧
        env.lookup "createdOn" = some (.str createdon) ∧
        env.lookup "domain" = some (.str domain) ∧
        env.lookup "hardwareNodeGroup" = some (.str hardwarenodegroup) ∧
        env.lookup "ishaenabled" = some (.bool ishaenabled) ∧
        env.lookup "hostGroup" = some (.obj hostgroup) ∧
        hostgroup.lookup "uniqueName" = some (.str region) ∧
        env.lookup "shortdomain" = some (.str shortdomain) ∧
        env.lookup "sslstate" = some (.bool sslstate) ∧
        v = .arr [.obj
          [ ("appid", .str appid),
            ("createdon", .str createdon),
            ("domain", .str domain),
            ("hardwarenodegroup", .str hardwarenodegroup),
            ("ishaenabled", .bool ishaenabled),
            ("region", .str region),
            ("shortdomain", .str shortdomain),
            ("sslstate", .bool sslstate) ]]) ∧
    ((¬ ∃ v, flattenCreateEnvironmentEnvironmentData (some env) = some v) →
      flattenCreateEnvironmentEnvironmentData (some env) = none) := by
  constructor
  · intro v
    constructor
    · intro h
      unfold flattenCreateEnvironmentEnvironmentData at h
      simp only [] at h
      repeat' split at h
      all_goals try (simp at h; done)
      rename_i _ hg hhg _ a ha _ c hc _ dm hdm _ hn hhn _ i hi _ r hr _ s hs _ ssl hssl
      simp only [Option.some.injEq] at h
      exact ⟨a, c, dm, hn, i, hg, r, s, ssl, (asString_eq_some _ _).1 ha,
        (asString_eq_some _ _).1 hc, (asString_eq_some _ _).1 hdm, (asString_eq_some _ _).1 hhn,
        (asBool_eq_some _ _).1 hi, (asMap_eq_some _ _).1 hhg, (asString_eq_some _ _).1 hr,
        (asString_eq_some _ _).1 hs, (asBool_eq_some _ _).1 hssl, h.symm⟩
    · rintro ⟨a, c, dm, hn, i, hg, r, s, ssl, ha, hc, hdm, hhn, hi, hhg, hr, hs, hssl, rfl⟩
      simp [flattenCreateEnvironmentEnvironmentData, ha, hc, hdm, hhn, hi, hhg, hr, hs, hssl,
        asString, asBool, asMap]
  · intro h
    cases hf : flattenCreateEnvironmentEnvironmentData (some env) with
    | none => rfl
    | some v => exact absurd ⟨v, hf⟩ h

/-- C11, counterexample: the manifest's env list is `["A=1", "A=2"]`, both entries
contain `=`, and the flatten succeeds; the flattened env maps `A` to `2`, so the
entry `A=1` is not mapped to the text after its `=`. -/
theorem C11_counterexample :
    (sampleNode [.str "A=1", .str "A=2"] none 1000).env
      = [("A", "1"), ("A", "2")].map (fun p => Dyn.str (renderEnv p)) ∧
    (flattenNode sampleRuntime [] (sampleNode [.str "A=1", .str "A=2"] none 1000).toDyn).map
      (fun flat => flat.env.lookup "A") = some (some "2") ∧
    (flattenNode sampleRuntime [] (sampleNode [.str "A=1", .str "A=2"] none 1000).toDyn).map
      (fun flat => flat.env.lookup "A") ≠ some (some "1") := by
  refine ⟨rfl, by decide, by decide⟩

/-- C11, amended: on a node record that is well formed apart from its env list, if
every env entry is a string `k=v` (`k` without `=`), the flatten succeeds and the
flattened env maps the text before the first `=` of an entry to the text after it
whenever no later entry has the same text before its first `=` (the last such entry
is the one kept), and has no other key, and `flattenCreateEnvironmentNodesData`
returns that node at the record's place in the list; if some env entry is not a string or is a
string without `=`, the flatten of the node fails, and so does the flatten of every
node list that holds it. -/
theorem C11_env_decoding (rt : Runtime) (n : RemoteNode) (hext : n.extIPsOk = true) :
    (∀ (groups : List NodeGroupRec) (kvs : List (String × String)),
      (∀ p ∈ kvs, '=' ∉ p.1.data) →
      n.env = kvs.map (fun p => Dyn.str (renderEnv p)) →
      ∃ flat, flattenNode rt (groups.map NodeGroupRec.toDyn) n.toDyn = some flat ∧
        (∀ pre p post, kvs = pre ++ p :: post → (∀ q ∈ post, q.1 ≠ p.1) →
          flat.env.lookup p.1 = some p.2) ∧
        (∀ k, (∀ q ∈ kvs, q.1 ≠ k) → flat.env.lookup k = none) ∧
        (∀ (before after : List Dyn) (fb fa : List FlatNode),
          flattenCreateEnvironmentNodesData rt (some before) (groups.map NodeGroupRec.toDyn)
            = some (.nodes fb) →
          flattenCreateEnvironmentNodesData rt (some after) (groups.map NodeGroupRec.toDyn)
            = some (.nodes fa) →
          flattenCreateEnvironmentNodesData rt (some (before ++ n.toDyn :: after))
              (groups.map NodeGroupRec.toDyn)
            = some (.nodes (fb ++ flat :: fa)))) ∧
    (∀ (nodegroups : List Dyn) (e : Dyn), e ∈ n.env → (∀ s, e = .str s → '=' ∉ s.data) →
      flattenNode rt nodegroups n.toDyn = none ∧
      ∀ before after,
        flattenCreateEnvironmentNodesData rt (some (before ++ n.toDyn :: after)) nodegroups
          = none) := by
  constructor
  · intro groups kvs hk henv
    obtain ⟨flat, hf, hfe⟩ := flattenNode_rendered rt groups n kvs hk henv hext
    refine ⟨flat, hf, ?_, ?_, ?_⟩
    · intro pre p post hkvs hpost
      rw [hfe, hkvs]
      exact lookup_foldl_last pre post p [] hpost
    · intro k hk2
      rw [hfe, lookup_foldl_absent kvs [] k hk2]
      rfl
    · intro before after fb fa hb ha
      exact flattenData_at rt _ before after fb fa _ _ hf hb ha
  · intro nodegroups e he hbad
    have hf := flattenNode_bad_env rt nodegroups n e he hbad
    refine ⟨hf, fun before after => ?_⟩
    unfold flattenCreateEnvironmentNodesData
    simp only [flattenNodeList_failed rt nodegroups (before ++ n.toDyn :: after)
      ⟨n.toDyn, by simp, hf⟩]

/-- Witness of the amended C11: the entry `A=b=c` is cut at its first `=`, and the
entry `FOO` without `=` makes the flatten fail. -/
theorem C11_env_decoding_witness :
    (∃ flat, flattenNode sampleRuntime [] (sampleNode [.str "A=b=c"] none 1000).toDyn = some flat ∧
      flat.env.lookup "A" = some "b=c") ∧
    flattenNode sampleRuntime [] (sampleNode [.str "A=1", .str "FOO"] none 1000).toDyn = none :=
  ⟨(let ⟨flat, hf, h1, _⟩ :=
      (C11_env_decoding sampleRuntime (sampleNode [.str "A=b=c"] none 1000) rfl).1 []
        [("A", "b=c")] (by decide) rfl
    ⟨flat, hf, h1 [] ("A", "b=c") [] rfl (fun _ h => absurd h (List.not_mem_nil _))⟩),
   ((C11_env_decoding sampleRuntime (sampleNode [.str "A=1", .str "FOO"] none 1000) rfl).2 []
      (.str "FOO") (by simp [sampleNode])
      (by intro s hs; cases hs; decide)).1⟩

/-- C12: for every mapping `m` (a list of pairs with pairwise distinct keys) whose
keys contain no `=`, and every ordering `l` of its pairs, the env decoding of the node
flatten run on the texts `k=v` of `l` succeeds and yields a mapping with exactly the
lookups of `m`; the flattened node of a record with that env list carries it. -/
theorem C12_env_round_trip (rt : Runtime) (groups : List NodeGroupRec) (n : RemoteNode)
    (m l : List (String × String))
    (hnodup : (m.map Prod.fst).Nodup) (hkeys : ∀ p ∈ m, '=' ∉ p.1.data)
    (hperm : l.Perm m)
    (henv : n.env = l.map (fun p => Dyn.str (renderEnv p))) (hext : n.extIPsOk = true) :
    (∃ r, decodeEnvs (l.map renderEnv) [] = some r ∧ ∀ k, r.lookup k = m.lookup k) ∧
    (∃ flat, flattenNode rt (groups.map NodeGroupRec.toDyn) n.toDyn = some flat ∧
      ∀ k, flat.env.lookup k = m.lookup k) := by
  have hkl : ∀ p ∈ l, '=' ∉ p.1.data := fun p hp => hkeys p (hperm.mem_iff.1 hp)
  have hnl : (l.map Prod.fst).Nodup := (hperm.map Prod.fst).nodup_iff.2 hnodup
  have hlook : ∀ k, (l.foldl (fun acc p => mapAssign acc p.1 p.2) []).lookup k = m.lookup k :=
    fun k => by rw [lookup_foldl_nodup l hnl k, lookup_perm_nodup l m hnodup hperm k]
  constructor
  · exact ⟨_, decodeEnvs_render l [] hkl, hlook⟩
  · obtain ⟨flat, hf, hfe⟩ := flattenNode_rendered rt groups n l hkl henv hext
    exact ⟨flat, hf, fun k => by rw [hfe]; exact hlook k⟩

/-- Witness of C12: the mapping `{A ↦ 1, B ↦ x=y}` rendered in the other order. -/
theorem C12_env_round_trip_witness :
    ∃ r, decodeEnvs ([("B", "x=y"), ("A", "1")].map renderEnv) [] = some r ∧
      ∀ k, r.lookup k = List.lookup k [("A", "1"), ("B", "x=y")] :=
  (C12_env_round_trip sampleRuntime [] (sampleNode [.str "B=x=y", .str "A=1"] none 1000)
    [("A", "1"), ("B", "x=y")] [("B", "x=y"), ("A", "1")] (by decide) (by decide)
    (List.Perm.swap _ _ _) rfl rfl).1

/-- C14, the code at the failing input: a node record whose `extIPs` is the empty
list flattens to a record without the keys `extip` and `extipv6`; with `extIPs`
absent, or holding a value that is not a list, both keys are present and false. -/
theorem C14_empty_extips_keys_absent :
    (flattenNode sampleRuntime [] (sampleNode [.str "A=1"] (some (.arr [])) 1000).toDyn).map
      (fun flat => (flat.extip, flat.extipv6)) = some (none, none) ∧
    (flattenNode sampleRuntime [] (sampleNode [.str "A=1"] none 1000).toDyn).map
      (fun flat => (flat.extip, flat.extipv6)) = some (some false, some false) ∧
    (flattenNode sampleRuntime [] (sampleNode [.str "A=1"] (some (.str "none")) 1000).toDyn).map
      (fun flat => (flat.extip, flat.extipv6)) = some (some false, some false) := by
  refine ⟨by decide, by decide, by decide⟩

/-- C16, counterexample: only `envgroups` changed and every transport succeeds; the
update issues two remote calls, setenvgroup and then the getenvinfo of the read-back,
not one. -/
theorem C16_counterexample :
    (sampleUpdate ["envgroups"] "team-a" "us-east").HasChange "envgroups" = true ∧
    (sampleUpdate ["envgroups"] "team-a" "us-east").HasChange "environment.0.region" = false ∧
    (resourceJelasticCreateEnvironmentUpdate sampleClient (sampleRemoteFailing [])
        (sampleUpdate ["envgroups"] "team-a" "us-east") { id := "env-1" }).calls.map
        (fun c => c.endpoint)
      = ["environment/control/rest/setenvgroup", "environment/control/rest/getenvinfo"] ∧
    (resourceJelasticCreateEnvironmentUpdate sampleClient (sampleRemoteFailing [])
        (sampleUpdate ["envgroups"] "team-a" "us-east") { id := "env-1" }).calls.length ≠ 1 := by
  refine ⟨by decide, by decide, by decide, by decide⟩

/-- C16, amended: when `envgroups` is the only changed key among those update routes
and the transport of setenvgroup succeeds, the update issues exactly two remote calls:
setenvgroup with envName the resource identity and envGroup the new group name, then
the getenvinfo call of the read-back; migrate is not called. -/
theorem C16_only_group_changed (m : Client) (remote : Remote) (cfg : UpdateConfig)
    (d : ResourceData) (body : Dyn)
    (hgroup : cfg.HasChange "envgroups" = true)
    (hregion : cfg.HasChange "environment.0.region" = false)
    (hresp : remote (setenvgroupCall m d.id cfg.envgroups) = some body) :
    (resourceJelasticCreateEnvironmentUpdate m remote cfg d).calls =
      [ { endpoint := "environment/control/rest/setenvgroup"
          query := [("envName", [.text d.id]), ("session", [.text m.Token]),
            ("envGroup", [.text cfg.envgroups])] },
        { endpoint := "environment/control/rest/getenvinfo"
          query := [("envName", [.text d.id]), ("session", [.text m.Token]),
            ("lazy", [.text "true"])] } ] ∧
    (∀ c ∈ (resourceJelasticCreateEnvironmentUpdate m remote cfg d).calls,
      c.endpoint ≠ "environment/control/rest/migrate") := by
  have hcalls : (resourceJelasticCreateEnvironmentUpdate m remote cfg d).calls =
      [setenvgroupCall m d.id cfg.envgroups, getenvinfoCall m d.id] := by
    unfold resourceJelasticCreateEnvironmentUpdate updateRegion
    simp only [hgroup, hregion, hresp, if_true, Bool.false_eq_true, if_false, read_calls]
    rfl
  constructor
  · rw [hcalls]; rfl
  · intro c hc
    rw [hcalls] at hc
    simp only [List.mem_cons, List.mem_singleton, List.not_mem_nil, or_false] at hc
    rcases hc with e | e <;> subst e <;>
      simp [setenvgroupCall, getenvinfoCall, migrateCall, API_ENV_CONTROL_SETENVGROUP_ENDPOINT,
        API_ENV_CONTROL_GETENVINFO_ENDPOINT, API_ENV_CONTROL_MIGRATE_ENDPOINT]

/-- Witness of the amended C16 on the sample update of `envgroups`. -/
theorem C16_only_group_changed_witness :
    (resourceJelasticCreateEnvironmentUpdate sampleClient (sampleRemoteFailing [])
        (sampleUpdate ["envgroups"] "team-a" "us-east") { id := "env-1" }).calls =
      [ { endpoint := "environment/control/rest/setenvgroup"
          query := [("envName", [.text "env-1"]), ("session", [.text "tok"]),
            ("envGroup", [.text "team-a"])] },
        { endpoint := "environment/control/rest/getenvinfo"
          query := [("envName", [.text "env-1"]), ("session", [.text "tok"]),
            ("lazy", [.text "true"])] } ] :=
  (C16_only_group_changed sampleClient (sampleRemoteFailing [])
    (sampleUpdate ["envgroups"] "team-a" "us-east") { id := "env-1" }
    (.obj [("result", .num 0)]) rfl rfl rfl).1

/-- C17: when `envgroups` and the region both changed and the setenvgroup call fails
at transport level, the update returns its error diagnostic with setenvgroup the only
call made (no migrate, no getenvinfo) and the resource data untouched; when the region
changed and the migrate call fails at transport level (after a setenvgroup call that
succeeded, or without one), the update returns its error diagnostic, migrate is the
last call made, no getenvinfo call is issued and the resource data is untouched. -/
theorem C17_update_aborts (m : Client) (remote : Remote) (cfg : UpdateConfig)
    (d : ResourceData) :
    (cfg.HasChange "envgroups" = true → cfg.HasChange "environment.0.region" = true →
      remote (setenvgroupCall m d.id cfg.envgroups) = none →
      (resourceJelasticCreateEnvironmentUpdate m remote cfg d).outcome = .ret [setEnvGroupDiag] ∧
      (resourceJelasticCreateEnvironmentUpdate m remote cfg d).calls
        = [setenvgroupCall m d.id cfg.envgroups] ∧
      (resourceJelasticCreateEnvironmentUpdate m remote cfg d).d = d) ∧
    (cfg.HasChange "environment.0.region" = true →
      (cfg.HasChange "envgroups" = true →
        remote (setenvgroupCall m d.id cfg.envgroups) ≠ none) →
      remote (migrateCall m d.id cfg.region) = none →
      (resourceJelasticCreateEnvironmentUpdate m remote cfg d).outcome
        = .ret [migrateDiag cfg.region] ∧
      (resourceJelasticCreateEnvironmentUpdate m remote cfg d).calls
        = (if cfg.HasChange "envgroups" = true then [setenvgroupCall m d.id cfg.envgroups]
            else []) ++ [migrateCall m d.id cfg.region] ∧
      (∀ c ∈ (resourceJelasticCreateEnvironmentUpdate m remote cfg d).calls,
        c.endpoint ≠ "environment/control/rest/getenvinfo") ∧
      (resourceJelasticCreateEnvironmentUpdate m remote cfg d).d = d) := by
  constructor
  · intro hg _ hfail
    unfold resourceJelasticCreateEnvironmentUpdate
    simp only [hg, hfail, if_true]
    simp
  · intro hr hset hfail
    by_cases hg : cfg.HasChange "envgroups" = true
    · cases hb : remote (setenvgroupCall m d.id cfg.envgroups) with
      | none => exact absurd hb (hset hg)
      | some body =>
        have hrun : resourceJelasticCreateEnvironmentUpdate m remote cfg d =
            { outcome := .ret [migrateDiag cfg.region], d := d,
              calls := [setenvgroupCall m d.id cfg.envgroups, migrateCall m d.id cfg.region] } := by
          unfold resourceJelasticCreateEnvironmentUpdate updateRegion
          simp only [hg, hr, hb, hfail, if_true]
          rfl
        rw [hrun]
        refine ⟨rfl, by simp [hg], ?_, rfl⟩
        intro c hc
        simp only [List.mem_cons, List.mem_singleton, List.not_mem_nil, or_false] at hc
        rcases hc with e | e <;> subst e <;>
      simp [setenvgroupCall, getenvinfoCall, migrateCall, API_ENV_CONTROL_SETENVGROUP_ENDPOINT,
        API_ENV_CONTROL_GETENVINFO_ENDPOINT, API_ENV_CONTROL_MIGRATE_ENDPOINT]
    · have hrun : resourceJelasticCreateEnvironmentUpdate m remote cfg d =
          { outcome := .ret [migrateDiag cfg.region], d := d,
            calls := [migrateCall m d.id cfg.region] } := by
        unfold resourceJelasticCreateEnvironmentUpdate updateRegion
        simp only [hg, hr, hfail, if_true]
        rfl
      rw [hrun]
      refine ⟨rfl, by simp [hg], ?_, rfl⟩
      intro c hc
      simp only [List.mem_singleton] at hc
      subst hc
      simp [migrateCall, API_ENV_CONTROL_MIGRATE_ENDPOINT]

/-- Witness of C17: both keys changed; first the transport of setenvgroup fails, then
the transport of migrate. -/
theorem C17_update_aborts_witness :
    (resourceJelasticCreateEnvironmentUpdate sampleClient
        (sampleRemoteFailing ["environment/control/rest/setenvgroup"])
        (sampleUpdate ["envgroups", "environment.0.region"] "team-a" "us-east")
        { id := "env-1" }).calls.map (fun c => c.endpoint)
      = ["environment/control/rest/setenvgroup"] ∧
    (resourceJelasticCreateEnvironmentUpdate sampleClient
        (sampleRemoteFailing ["environment/control/rest/migrate"])
        (sampleUpdate ["envgroups", "environment.0.region"] "team-a" "us-east")
        { id := "env-1" }).outcome = .ret [migrateDiag "us-east"] :=
  ⟨congrArg (List.map fun c => c.endpoint)
      ((C17_update_aborts sampleClient
        (sampleRemoteFailing ["environment/control/rest/setenvgroup"])
        (sampleUpdate ["envgroups", "environment.0.region"] "team-a" "us-east")
        { id := "env-1" }).1 rfl rfl rfl).2.1,
   ((C17_update_aborts sampleClient
        (sampleRemoteFailing ["environment/control/rest/migrate"])
        (sampleUpdate ["envgroups", "environment.0.region"] "team-a" "us-east")
        { id := "env-1" }).2 rfl
        (fun _ => Option.some_ne_none (Dyn.obj [("result", .num 0)])) rfl).1⟩

/-- C18, counterexample: the empty access token has at most 40 characters, all in
`[a-z0-9]`, yet with a host and no username/password pair the configuration returns
no client, and the diagnostic is not "Incorrect token format". -/
theorem C18_counterexample :
    ("".length ≤ 40 ∧ ∀ c ∈ "".data, ('a' ≤ c ∧ c ≤ 'z') ∨ ('0' ≤ c ∧ c ≤ '9')) ∧
    providerConfigure sampleParse (sampleRemoteFailing [])
        { host := "app.example.test", username := "", password := "", access_token := "" }
      = .ret none [{ Severity := .Error
                     Summary := "Unable to create or to get Access token"
                     Detail := "Field username or password are empty and access_token is empty !" }] := by
  refine ⟨by decide, by decide⟩

/-- C18, amended: for every non-empty access token `t` supplied with a host set and
without a username/password pair, the configuration returns a client without
diagnostics, its session token being `t`, exactly when `t` has at most 40 characters,
all in `[a-z0-9]`; otherwise it returns no client and the "Incorrect token format"
diagnostic. -/
theorem C18_access_token (parseRequestURI : String → Option Url) (remote : Remote)
    (cfg : ProviderConfig) (hhost : cfg.host ≠ "")
    (hpair : cfg.username = "" ∨ cfg.password = "") (ht : cfg.access_token ≠ "") :
    ((∃ client, providerConfigure parseRequestURI remote cfg = .ret (some client) [] ∧
        client.Token = cfg.access_token) ↔
      (cfg.access_token.length ≤ 40 ∧
        ∀ c ∈ cfg.access_token.data, ('a' ≤ c ∧ c ≤ 'z') ∨ ('0' ≤ c ∧ c ≤ '9'))) ∧
    (¬ (cfg.access_token.length ≤ 40 ∧
        ∀ c ∈ cfg.access_token.data, ('a' ≤ c ∧ c ≤ 'z') ∨ ('0' ≤ c ∧ c ≤ '9')) →
      providerConfigure parseRequestURI remote cfg =
        .ret none [{ Severity := .Error
                     Summary := "Incorrect token format"
                     Detail := "Token doesn't correspond to format policy ! Must have only alphanumeric with 40 characters" }]) := by
  have hnp : ¬ (cfg.username ≠ "" ∧ cfg.password ≠ "") := by
    rintro ⟨h1, h2⟩
    rcases hpair with h | h
    · exact h1 h
    · exact h2 h
  rw [← token_valid_iff]
  by_cases hv : (matchClassStar lowerAlnum cfg.access_token
      && decide (cfg.access_token.length ≤ TOKEN_LENGTH)) = true
  · have hrun : providerConfigure parseRequestURI remote cfg =
        .ret (some { BaseUrl := parseRequestURI (API_PROTO ++ cfg.host ++ API_VERSION),
                     Token := cfg.access_token }) [] := by
      unfold providerConfigure
      simp only [hhost, hnp, ht, hv, if_false, if_true, ne_eq, not_false_eq_true]
    rw [hrun]
    exact ⟨⟨fun _ => hv, fun _ => ⟨_, rfl, rfl⟩⟩, fun h => absurd hv h⟩
  · have hrun : providerConfigure parseRequestURI remote cfg = .ret none [tokenFormatDiag] := by
      unfold providerConfigure
      simp only [hhost, hnp, ht, hv, if_false, if_true, ne_eq, not_false_eq_true]
      simp
    rw [hrun]
    refine ⟨⟨fun h => ?_, fun h => absurd h hv⟩, fun _ => by decide⟩
    obtain ⟨client, hc, _⟩ := h
    simp at hc

/-- Witness of the amended C18: the token "abc123" is accepted and becomes the
session token. -/
theorem C18_access_token_witness :
    ∃ client, providerConfigure sampleParse (sampleRemoteFailing [])
        { host := "app.example.test", username := "", password := "", access_token := "abc123" }
      = .ret (some client) [] ∧ client.Token = "abc123" :=
  (C18_access_token sampleParse (sampleRemoteFailing [])
    { host := "app.example.test", username := "", password := "", access_token := "abc123" }
    (by decide) (Or.inl rfl) (by decide)).1.2 (by decide)

/-- C20, counterexample: the declared values 256, 1000, 300, 512 and 65566 are built
as count 0, diskLimit 232, fixedCloudlets 44, flexibleCloudlets 0 and restartDelay
30. -/
theorem C20_counterexample :
    (buildNode false
        { count := 256, disklimit := 1000, fixedcloudlets := 300, flexiblecloudlets := 512,
          restartdelay := 65566 } {}).2 = none ∧
    (buildNode false
        { count := 256, disklimit := 1000, fixedcloudlets := 300, flexiblecloudlets := 512,
          restartdelay := 65566 } {}).1 =
      { Count := 0, Disklimit := 232, Fixedcloudlets := 44, Flexiblecloudlets := 0,
        Restartdelay := 30, Scalingmode := "STATEFUL" } := by
  refine ⟨by decide, by decide⟩

/-- C20, amended: when the node builder of create completes on a declared node, each
numeric field of the built node is the declared value narrowed to the width of the
field, so each one separately equals the declared value when that value is in the
range of its field: count equals the declared count when it lies between 0 and 255,
and so do diskLimit, fixedCloudlets and flexibleCloudlets for their declared values;
restartDelay equals the declared restartdelay when it lies between 0 and 65535. -/
theorem C20_numeric_fields_in_range (ha : Bool) (t : TfNode) (n : Nodes)
    (hdone : (buildNode ha t n).2 = none) :
    (0 ≤ t.count ∧ t.count ≤ 255 → ((buildNode ha t n).1.Count : Int) = t.count) ∧
    (0 ≤ t.disklimit ∧ t.disklimit ≤ 255 →
      ((buildNode ha t n).1.Disklimit : Int) = t.disklimit) ∧
    (0 ≤ t.fixedcloudlets ∧ t.fixedcloudlets ≤ 255 →
      ((buildNode ha t n).1.Fixedcloudlets : Int) = t.fixedcloudlets) ∧
    (0 ≤ t.flexiblecloudlets ∧ t.flexiblecloudlets ≤ 255 →
      ((buildNode ha t n).1.Flexiblecloudlets : Int) = t.flexiblecloudlets) ∧
    (0 ≤ t.restartdelay ∧ t.restartdelay ≤ 65535 →
      ((buildNode ha t n).1.Restartdelay : Int) = t.restartdelay) ∧
    ((buildNode ha t n).1.Count : Int) = t.count % 256 ∧
    ((buildNode ha t n).1.Disklimit : Int) = t.disklimit % 256 ∧
    ((buildNode ha t n).1.Fixedcloudlets : Int) = t.fixedcloudlets % 256 ∧
    ((buildNode ha t n).1.Flexiblecloudlets : Int) = t.flexiblecloudlets % 256 ∧
    ((buildNode ha t n).1.Restartdelay : Int) = t.restartdelay % 65536 := by
  obtain ⟨h1, h2, h3, h4, h5⟩ := buildNode_done ha t n hdone
  rw [h1, h2, h3, h4, h5]
  refine ⟨?_, ?_, ?_, ?_, ?_, ?_, ?_, ?_, ?_, ?_⟩ <;> omega

/-- Witness of the amended C20: the declared count 3 is in range while the declared
diskLimit 1000 is not; the built count is 3 and the built diskLimit is 232. -/
theorem C20_numeric_fields_in_range_witness :
    (buildNode true
        { count := 3, disklimit := 1000, fixedcloudlets := 2, flexiblecloudlets := 8,
          restartdelay := 60 } {}).1 =
      { Count := 3, Disklimit := 232, Fixedcloudlets := 2, Flexiblecloudlets := 8,
        Restartdelay := 60, Scalingmode := "STATEFUL" } ∧
    (((buildNode true
        { count := 3, disklimit := 1000, fixedcloudlets := 2, flexiblecloudlets := 8,
          restartdelay := 60 } {}).1.Count : Int) = 3) :=
  ⟨by decide,
   (C20_numeric_fields_in_range true
      { count := 3, disklimit := 1000, fixedcloudlets := 2, flexiblecloudlets := 8,
        restartdelay := 60 } {} (by decide)).1 (by decide)⟩

/-- C21, the code at the failing inputs: the loop that fills the built volumesFrom
ranges over the declared volumes. With volumes `["/data"]` and an empty volumesFrom the
node builder stops on an out-of-range write, and so does create; with volumes
`["/data"]` and volumesFrom `["db"]` the built volumes is `["/data"]` and the built
volumesFrom is `["/data"]`, not `["db"]`; with empty volumes and volumesFrom `["db"]`
the built volumesFrom is `[""]`. -/
theorem C21_volumesfrom_filled_from_volumes :
    (buildNode false { volumes := [.str "/data"], volumesfrom := [] } {}).2 = some .panic ∧
    (resourceJelasticCreateEnvironmentCreate sampleSprint sampleClient
        (sampleRemote (some (sampleCreated "env-1")))
        (sampleConfig false "us-east" "my-env" [{ volumes := [.str "/data"], volumesfrom := [] }])
        {}).outcome = .panic ∧
    (buildNode false { volumes := [.str "/data"], volumesfrom := [.str "db"] } {}).2 = none ∧
    (buildNode false { volumes := [.str "/data"], volumesfrom := [.str "db"] } {}).1.Volumes
      = ["/data"] ∧
    (buildNode false { volumes := [.str "/data"], volumesfrom := [.str "db"] } {}).1.Volumesfrom
      = ["/data"] ∧
    (buildNode false { volumes := [], volumesfrom := [.str "db"] } {}).2 = none ∧
    (buildNode false { volumes := [], volumesfrom := [.str "db"] } {}).1.Volumesfrom = [""] := by
  refine ⟨by decide, by decide, by decide, by decide, by decide, by decide, by decide⟩

/-- C13, counterexample: the remote diskLimit 9223372036854775808 is a non-negative
integer that the decoded `float64` holds exactly, and its quotient by 1000 is
9223372036854775; it lies outside the range of `int`, and on the sample runtime the
flatten of the one-record list returns the disklimit -9223372036854775. -/
theorem C13_counterexample :
    (0 : Int) ≤ 9223372036854775808 ∧
    (9223372036854775808 : Int) / 1000 = 9223372036854775 ∧
    (flattenCreateEnvironmentNodesData sampleRuntime
        (some [(sampleNode [.str "A=1"] none 9223372036854775808).toDyn]) []).map
      (fun r => match r with
        | .null => []
        | .nodes l => l.map fun flat => flat.disklimit) = some [-9223372036854775] := by
  refine ⟨by decide, by decide, by decide⟩

/-- C13, amended: on a well-formed node record whose decoded diskLimit is a
non-negative integer `d` below `2^63` (the range of `int`; every JSON integer from 0 to
`2^53` is decoded exactly and lies in it), the flatten succeeds and the flattened
disklimit is `d / 1000` with the remainder discarded: it is the integer `q` with
`1000 * q ≤ d < 1000 * q + 1000`; `flattenCreateEnvironmentNodesData` returns that
record at the node's place in the list. -/
theorem C13_disklimit_floor_in_range (rt : Runtime) (groups : List NodeGroupRec)
    (n : RemoteNode) (hwf : n.wellFormed = true)
    (hd : 0 ≤ n.diskLimit ∧ n.diskLimit < 9223372036854775808) :
    ∃ flat, flattenNode rt (groups.map NodeGroupRec.toDyn) n.toDyn = some flat ∧
      flat.disklimit = n.diskLimit / 1000 ∧
      1000 * flat.disklimit ≤ n.diskLimit ∧ n.diskLimit < 1000 * flat.disklimit + 1000 ∧
      (∀ (before after : List Dyn) (fb fa : List FlatNode),
        flattenCreateEnvironmentNodesData rt (some before) (groups.map NodeGroupRec.toDyn)
          = some (.nodes fb) →
        flattenCreateEnvironmentNodesData rt (some after) (groups.map NodeGroupRec.toDyn)
          = some (.nodes fa) →
        flattenCreateEnvironmentNodesData rt (some (before ++ n.toDyn :: after))
            (groups.map NodeGroupRec.toDyn)
          = some (.nodes (fb ++ flat :: fa))) := by
  obtain ⟨envsmap, fl, _, _, hf⟩ := flattenNode_wellFormed rt groups n hwf
  have hconv : intOfFloat rt n.diskLimit = n.diskLimit :=
    intOfFloat_in_range rt n.diskLimit ⟨by omega, hd.2⟩
  have hdiv : Int.tdiv (intOfFloat rt n.diskLimit) 1000 = n.diskLimit / 1000 := by
    rw [hconv]
    exact Int.tdiv_eq_ediv hd.1 (by decide)
  refine ⟨_, hf, hdiv, ?_, ?_, ?_⟩
  · simp only [hdiv]
    omega
  · simp only [hdiv]
    omega
  · intro before after fb fa hb ha
    exact flattenData_at rt _ before after fb fa _ _ hf hb ha

/-- Witness of the amended C13: the remote values 2500, 999 and 1000 flatten to 2, 0
and 1, also through `flattenCreateEnvironmentNodesData` on the one-record list. -/
theorem C13_disklimit_floor_in_range_witness :
    (∃ flat, flattenNode sampleRuntime [] (sampleNode [.str "A=1"] none 2500).toDyn = some flat ∧
      flat.disklimit = 2 ∧
      flattenCreateEnvironmentNodesData sampleRuntime
          (some [(sampleNode [.str "A=1"] none 2500).toDyn]) []
        = some (.nodes [flat])) ∧
    (flattenNode sampleRuntime [] (sampleNode [.str "A=1"] none 999).toDyn).map
      (fun flat => flat.disklimit) = some 0 ∧
    (flattenNode sampleRuntime [] (sampleNode [.str "A=1"] none 1000).toDyn).map
      (fun flat => flat.disklimit) = some 1 :=
  ⟨(let ⟨flat, hf, h1, _, _, h4⟩ :=
      C13_disklimit_floor_in_range sampleRuntime [] (sampleNode [.str "A=1"] none 2500) rfl
        (by decide)
    ⟨flat, hf, h1, h4 [] [] [] [] rfl rfl⟩),
   by decide, by decide⟩

/-- C15, counterexample: two node-group records have the name `cp` of the node's
group; the first holds restartNodeDelay 10 and scalingMode STATELESS, yet the
flattened node carries 20 and STATEFUL, the values of the second. And a single record
`cp` with restartNodeDelay 9223372036854775808, outside the range of `int`, gives on
the sample runtime the restartdelay -9223372036854775808. -/
theorem C15_counterexample :
    (sampleNode [.str "A=1"] none 1000).nodeGroup = "cp" ∧
    (flattenCreateEnvironmentNodesData sampleRuntime
        (some [(sampleNode [.str "A=1"] none 1000).toDyn])
        ([{ name := "cp", restartNodeDelay := 10, scalingMode := "STATELESS" },
          { name := "cp", restartNodeDelay := 20, scalingMode := "STATEFUL" }].map
          NodeGroupRec.toDyn)).map
      (fun r => match r with
        | .null => []
        | .nodes l => l.map fun flat => (flat.restartdelay, flat.scalingmode))
      = some [(some 20, some "STATEFUL")] ∧
    (flattenCreateEnvironmentNodesData sampleRuntime
        (some [(sampleNode [.str "A=1"] none 1000).toDyn])
        ([{ name := "cp", restartNodeDelay := 9223372036854775808,
            scalingMode := "STATEFUL" }].map NodeGroupRec.toDyn)).map
      (fun r => match r with
        | .null => []
        | .nodes l => l.map fun flat => (flat.restartdelay, flat.scalingmode))
      = some [(some (-9223372036854775808), some "STATEFUL")] := by
  refine ⟨rfl, by decide, by decide⟩

/-- C15, amended: on a well-formed node record with node group `g` and a list of
well-formed node-group records, the flatten succeeds and
`flattenCreateEnvironmentNodesData` returns the flattened node at the node's place in
the list. If some record has name `g`, the flattened restartdelay and scalingmode are
those of the last record with name `g`: its scalingMode, and its restartNodeDelay
converted with `int(...)`, which is the restartNodeDelay itself when it lies in the
range of `int`. If no record has name `g` (the empty list included), the flattened
node has neither key. Every other field of the flattened node is the same whatever
the node-group list is. -/
theorem C15_node_group_join (rt : Runtime) (n : RemoteNode) (hwf : n.wellFormed = true) :
    (∀ groups : List NodeGroupRec,
      ∃ flat, flattenNode rt (groups.map NodeGroupRec.toDyn) n.toDyn = some flat ∧
        (∀ (before after : List Dyn) (fb fa : List FlatNode),
          flattenCreateEnvironmentNodesData rt (some before) (groups.map NodeGroupRec.toDyn)
            = some (.nodes fb) →
          flattenCreateEnvironmentNodesData rt (some after) (groups.map NodeGroupRec.toDyn)
            = some (.nodes fa) →
          flattenCreateEnvironmentNodesData rt (some (before ++ n.toDyn :: after))
              (groups.map NodeGroupRec.toDyn)
            = some (.nodes (fb ++ flat :: fa))) ∧
        (∀ pre r post, groups = pre ++ r :: post → r.name = n.nodeGroup →
          (∀ q ∈ post, q.name ≠ n.nodeGroup) →
          flat.restartdelay = some (intOfFloat rt r.restartNodeDelay) ∧
          flat.scalingmode = some r.scalingMode ∧
          (-9223372036854775808 ≤ r.restartNodeDelay ∧
              r.restartNodeDelay < 9223372036854775808 →
            flat.restartdelay = some r.restartNodeDelay)) ∧
        ((∃ r ∈ groups, r.name = n.nodeGroup) →
          ∃ pre r post, groups = pre ++ r :: post ∧ r.name = n.nodeGroup ∧
            (∀ q ∈ post, q.name ≠ n.nodeGroup) ∧
            flat.restartdelay = some (intOfFloat rt r.restartNodeDelay) ∧
            flat.scalingmode = some r.scalingMode) ∧
        ((∀ r ∈ groups, r.name ≠ n.nodeGroup) →
          flat.restartdelay = none ∧ flat.scalingmode = none)) ∧
    (∀ (groups1 groups2 : List NodeGroupRec) (flat1 flat2 : FlatNode),
      flattenNode rt (groups1.map NodeGroupRec.toDyn) n.toDyn = some flat1 →
      flattenNode rt (groups2.map NodeGroupRec.toDyn) n.toDyn = some flat2 →
      { flat1 with restartdelay := none, scalingmode := none }
        = { flat2 with restartdelay := none, scalingmode := none }) := by
  constructor
  · intro groups
    obtain ⟨envsmap, fl, _, _, hf⟩ := flattenNode_wellFormed rt groups n hwf
    have hlast : ∀ pre r post, groups = pre ++ r :: post → r.name = n.nodeGroup →
        (∀ q ∈ post, q.name ≠ n.nodeGroup) →
        groups.foldl (fun acc r =>
          if r.name = n.nodeGroup then
            (some (intOfFloat rt r.restartNodeDelay), some r.scalingMode)
          else acc) (none, none)
          = (some (intOfFloat rt r.restartNodeDelay), some r.scalingMode) := by
      intro pre r post hg hr hpost
      rw [hg]
      exact foldl_join_last rt n.nodeGroup pre post r (none, none) hr hpost
    refine ⟨_, hf, ?_, ?_, ?_, ?_⟩
    · intro before after fb fa hb ha
      exact flattenData_at rt _ before after fb fa _ _ hf hb ha
    · intro pre r post hg hr hpost
      simp only [hlast pre r post hg hr hpost, true_and]
      intro hrange
      rw [intOfFloat_in_range rt r.restartNodeDelay hrange]
    · intro hex
      obtain ⟨pre, r, post, hg, hr, hpost⟩ := exists_last_match n.nodeGroup groups hex
      refine ⟨pre, r, post, hg, hr, hpost, ?_⟩
      simp only [hlast pre r post hg hr hpost, and_self]
    · intro hno
      simp only [foldl_join_no_match rt n.nodeGroup groups (none, none) hno, and_self]
  · intro groups1 groups2 flat1 flat2 h1 h2
    obtain ⟨e1, f1, he1, hf1, hn1⟩ := flattenNode_wellFormed rt groups1 n hwf
    obtain ⟨e2, f2, he2, hf2, hn2⟩ := flattenNode_wellFormed rt groups2 n hwf
    rw [he1] at he2
    rw [hf1] at hf2
    simp only [Option.some.injEq] at he2 hf2
    subst he2 hf2
    rw [hn1] at h1
    rw [hn2] at h2
    simp only [Option.some.injEq] at h1 h2
    subst h1 h2
    rfl

/-- Witness of the amended C15: node group `cp` joined with the records `sqldb` and
`cp`, and with the empty list. -/
theorem C15_node_group_join_witness :
    (∃ flat, flattenNode sampleRuntime
        ([{ name := "sqldb", restartNodeDelay := 10, scalingMode := "STATELESS" },
          { name := "cp", restartNodeDelay := 30, scalingMode := "STATEFUL" }].map
          NodeGroupRec.toDyn)
        (sampleNode [.str "A=1"] none 1000).toDyn = some flat ∧
      flat.restartdelay = some 30 ∧ flat.scalingmode = some "STATEFUL" ∧
      flattenCreateEnvironmentNodesData sampleRuntime
          (some [(sampleNode [.str "A=1"] none 1000).toDyn])
          ([{ name := "sqldb", restartNodeDelay := 10, scalingMode := "STATELESS" },
            { name := "cp", restartNodeDelay := 30, scalingMode := "STATEFUL" }].map
            NodeGroupRec.toDyn)
        = some (.nodes [flat])) ∧
    (∃ flat, flattenNode sampleRuntime [] (sampleNode [.str "A=1"] none 1000).toDyn = some flat ∧
      flat.restartdelay = none ∧ flat.scalingmode = none) :=
  ⟨(let ⟨flat, hf, hl, h1, _, _⟩ :=
      (C15_node_group_join sampleRuntime (sampleNode [.str "A=1"] none 1000) rfl).1
        [{ name := "sqldb", restartNodeDelay := 10, scalingMode := "STATELESS" },
         { name := "cp", restartNodeDelay := 30, scalingMode := "STATEFUL" }]
    have h := h1 [{ name := "sqldb", restartNodeDelay := 10, scalingMode := "STATELESS" }]
      { name := "cp", restartNodeDelay := 30, scalingMode := "STATEFUL" } [] rfl rfl
      (fun _ h => absurd h (List.not_mem_nil _))
    ⟨flat, hf, h.2.2 (by decide), h.2.1, hl [] [] [] [] rfl rfl⟩),
   (let ⟨flat, hf, _, _, _, h3⟩ :=
      (C15_node_group_join sampleRuntime (sampleNode [.str "A=1"] none 1000) rfl).1 []
    ⟨flat, hf, h3 (fun _ h => absurd h (List.not_mem_nil _))⟩)⟩

/-- C19: on a node record whose env entries are well formed and whose `extIPs` is a
list of strings, the flatten succeeds; the flattened extip is true exactly when some
address of the list passes the IPv4 test, and extipv6 is true exactly when some
address fails the IPv4 test and parses as an IP address. Any permutation of the list
gives the same flattened node, and a flag that is true after a first part of the list
is true after the whole list. `flattenCreateEnvironmentNodesData` returns the
flattened node at the node's place in the node list, and on the one-record list of
the permuted record it returns the same flattened node. -/
theorem C19_ip_classification (rt : Runtime) (groups : List NodeGroupRec) (n : RemoteNode)
    (ss : List String) (henv : n.env.all envEntryOk = true)
    (hips : n.extIPs = some (.arr (ss.map Dyn.str))) :
    ∃ flat, flattenNode rt (groups.map NodeGroupRec.toDyn) n.toDyn = some flat ∧
      (∀ (before after : List Dyn) (fb fa : List FlatNode),
        flattenCreateEnvironmentNodesData rt (some before) (groups.map NodeGroupRec.toDyn)
          = some (.nodes fb) →
        flattenCreateEnvironmentNodesData rt (some after) (groups.map NodeGroupRec.toDyn)
          = some (.nodes fa) →
        flattenCreateEnvironmentNodesData rt (some (before ++ n.toDyn :: after))
            (groups.map NodeGroupRec.toDyn)
          = some (.nodes (fb ++ flat :: fa))) ∧
      (flat.extip = some true ↔ ∃ s ∈ ss, rt.to4 s = true) ∧
      (flat.extipv6 = some true ↔ ∃ s ∈ ss, rt.to4 s = false ∧ rt.to16 s = true) ∧
      (∀ ss1 : List String, ss1.Perm ss →
        flattenNode rt (groups.map NodeGroupRec.toDyn)
          ({ n with extIPs := some (.arr (ss1.map Dyn.str)) } : RemoteNode).toDyn = some flat ∧
        flattenCreateEnvironmentNodesData rt
            (some [({ n with extIPs := some (.arr (ss1.map Dyn.str)) } : RemoteNode).toDyn])
            (groups.map NodeGroupRec.toDyn)
          = some (.nodes [flat])) ∧
      (∀ (pre post : List String), ss = pre ++ post →
        ∃ flatPre, flattenNode rt (groups.map NodeGroupRec.toDyn)
            ({ n with extIPs := some (.arr (pre.map Dyn.str)) } : RemoteNode).toDyn
              = some flatPre ∧
          (flatPre.extip = some true → flat.extip = some true) ∧
          (flatPre.extipv6 = some true → flat.extipv6 = some true)) := by
  obtain ⟨flat, hf, h4, h6, hother⟩ := flattenNode_strings rt groups n ss henv hips
  refine ⟨flat, hf, ?_, ?_, ?_, ?_, ?_⟩
  · intro before after fb fa hb ha
    exact flattenData_at rt _ before after fb fa _ _ hf hb ha
  · rw [h4]
    by_cases h : ss.any rt.to4 = true
    · simp only [h, if_true, true_iff]
      exact List.any_eq_true.1 h
    · simp only [h]
      constructor
      · intro hc; simp at hc
      · intro hc; exact absurd (List.any_eq_true.2 hc) h
  · rw [h6]
    by_cases h : ss.any (fun s => !rt.to4 s && rt.to16 s) = true
    · simp only [h, if_true, true_iff]
      obtain ⟨s, hs, hp⟩ := List.any_eq_true.1 h
      exact ⟨s, hs, by simpa using hp⟩
    · simp only [h]
      constructor
      · intro hc; simp at hc
      · rintro ⟨s, hs, h1, h2⟩
        exact absurd (List.any_eq_true.2 ⟨s, hs, by simp [h1, h2]⟩) h
  · intro ss1 hperm
    obtain ⟨flat1, hf1, he1⟩ := hother _ ss1 rfl
    have hsame : flat1 = flat := by
      rw [he1, any_perm _ ss1 ss hperm, any_perm _ ss1 ss hperm, ← h4, ← h6]
    rw [hsame] at hf1
    exact ⟨hf1, flattenData_at rt _ [] [] [] [] _ _ hf1 rfl rfl⟩
  · intro pre post hss
    obtain ⟨flat1, hf1, he1⟩ := hother _ pre rfl
    refine ⟨flat1, hf1, ?_, ?_⟩
    · intro hp
      rw [he1] at hp
      rw [h4, hss, List.any_append]
      by_cases h : pre.any rt.to4 = true
      · simp [h]
      · simp [h] at hp
    · intro hp
      rw [he1] at hp
      rw [h6, hss, List.any_append]
      by_cases h : pre.any (fun s => !rt.to4 s && rt.to16 s) = true
      · simp [h]
      · simp [h] at hp

/-- Witness of C19: an IPv6 and an IPv4 address, in this order. -/
theorem C19_ip_classification_witness :
    ∃ flat, flattenNode sampleRuntime []
        (sampleNode [.str "A=1"] (some (.arr [.str "2001:db8::1", .str "192.0.2.1"])) 1000).toDyn
          = some flat ∧
      flat.extip = some true ∧ flat.extipv6 = some true ∧
      flattenCreateEnvironmentNodesData sampleRuntime
          (some [(sampleNode [.str "A=1"]
            (some (.arr [.str "2001:db8::1", .str "192.0.2.1"])) 1000).toDyn]) []
        = some (.nodes [flat]) :=
  let ⟨flat, hf, hl, h4, h6, _, _⟩ :=
    C19_ip_classification sampleRuntime []
      (sampleNode [.str "A=1"] (some (.arr [.str "2001:db8::1", .str "192.0.2.1"])) 1000)
      ["2001:db8::1", "192.0.2.1"] rfl rfl
  ⟨flat, hf, h4.2 ⟨"192.0.2.1", by simp, by decide⟩,
    h6.2 ⟨"2001:db8::1", by simp, by decide, by decide⟩, hl [] [] [] [] rfl rfl⟩

end Hidora
